import Mathlib

/-!
ICM42688P driver and IMU facade: a shallow embedding

Sources embedded here:

* `sl_icm42688p_defs.h`   register map, field masks, scale constants
* `sl_icm42688p.c`        register transport and sensor driver
* `sl_imu.h`, `sl_imu_icm426889.c`   IMU facade (lifecycle state machine)

Conventions of the embedding.

* `uint8_t` values are natural numbers; every place where C truncates to
  eight bits carries an explicit `% 256`.
* `float` values are the rationals they denote.  The constants that occur
  (1000, 200, and `k / 32768` with `k` a power of two or `125 * 2^j`) and the
  products `int16 * scale` have at most 22 significant bits, so they are
  exactly representable in binary32 and `ℚ` computes the same values as the C
  code for the sample-rate setter, the resolution readback and the data
  readout.  Where the C code adds, subtracts or divides `float` values whose
  exact result need not be representable (the running sums and means of the
  calibration routines, the Z-axis correction, the temperature conversion)
  the exact result passes through `binary32`, rounding to nearest with ties
  to even.  The exponent range is not bounded: these routines add at most 500
  terms below `2^11` and divide by 500 or by 132.48, which stays far inside
  the normal range of binary32, so overflow, subnormal numbers, `NaN` and
  infinities do not arise.
* The three services of the vendor HAL used by the driver (chip-select pin,
  one full-duplex SPI byte exchange, blocking millisecond delay) are not part
  of the repository; they are taken as a parameter, `Platform`.
* Every HAL call is recorded in a trace so that statements about bus
  traffic and delays can be made.
-/

namespace ICM42688P

/-! ## binary32 rounding -/

/-- Rounding of a rational to the nearest integer, ties to the even one. -/
def round_half_even (y : ℚ) : ℤ :=
  if y - ⌊y⌋ < 1 / 2 then ⌊y⌋
  else if 1 / 2 < y - ⌊y⌋ then ⌊y⌋ + 1
  else if ⌊y⌋ % 2 = 0 then ⌊y⌋ else ⌊y⌋ + 1

/-- Rounding of a non-negative rational `a` to 24 significant bits.  With
`e = Int.log 2 a` the position of the leading bit (`2^e ≤ a < 2^(e+1)`), the
unit in the last place is `2^(e-23)`; `a` is rounded to the nearest multiple
of it.  Zero goes to zero. -/
def binary32_magnitude (a : ℚ) : ℚ :=
  (round_half_even (a / 2 ^ (Int.log 2 a - 23)) : ℚ) * 2 ^ (Int.log 2 a - 23)

/-- The binary32 value a `float` operation delivers when its exact result is
`x`: the nearest number with a 24-bit significand, ties to even, sign
kept. -/
def binary32 (x : ℚ) : ℚ :=
  if x < 0 then - binary32_magnitude (-x) else binary32_magnitude x

/-! ## sl_icm42688p_defs.h -/

def ICM42688P_REG_WHO_AM_I : Nat := 0x75
def ICM42688P_DEVICE_ID : Nat := 0x47

def ICM42688P_REG_BANK_SEL : Nat := 0x76
def ICM42688P_BANK_0 : Nat := 0x00
def ICM42688P_BANK_1 : Nat := 0x01

def ICM42688P_REG_DEVICE_CONFIG : Nat := 0x11
def ICM42688P_REG_INT_CONFIG : Nat := 0x14
def ICM42688P_REG_TEMP_DATA1 : Nat := 0x1D
def ICM42688P_REG_ACCEL_DATA_X1 : Nat := 0x1F
def ICM42688P_REG_GYRO_DATA_X1 : Nat := 0x25
def ICM42688P_REG_INT_STATUS0 : Nat := 0x2D
def ICM42688P_REG_INTF_CONFIG0 : Nat := 0x4C
def ICM42688P_REG_PWR_MGMT0 : Nat := 0x4E

def ICM42688P_REG_GYRO_CONFIG0 : Nat := 0x4F
def ICM42688P_REG_ACCEL_CONFIG0 : Nat := 0x50

def ICM42688P_GYRO_CONFIG0_SHIFT_FS_SEL : Nat := 5
def ICM42688P_GYRO_CONFIG0_MASK_FS_SEL : Nat := 0x07 <<< ICM42688P_GYRO_CONFIG0_SHIFT_FS_SEL

def ICM42688P_GYRO_CONFIG0_FS_2000DPS : Nat := 0x00 <<< ICM42688P_GYRO_CONFIG0_SHIFT_FS_SEL
def ICM42688P_GYRO_CONFIG0_FS_1000DPS : Nat := 0x01 <<< ICM42688P_GYRO_CONFIG0_SHIFT_FS_SEL
def ICM42688P_GYRO_CONFIG0_FS_500DPS : Nat := 0x02 <<< ICM42688P_GYRO_CONFIG0_SHIFT_FS_SEL
def ICM42688P_GYRO_CONFIG0_FS_250DPS : Nat := 0x03 <<< ICM42688P_GYRO_CONFIG0_SHIFT_FS_SEL
def ICM42688P_GYRO_CONFIG0_FS_125DPS : Nat := 0x04 <<< ICM42688P_GYRO_CONFIG0_SHIFT_FS_SEL
def ICM42688P_GYRO_CONFIG0_FS_62_5DPS : Nat := 0x05 <<< ICM42688P_GYRO_CONFIG0_SHIFT_FS_SEL
def ICM42688P_GYRO_CONFIG0_FS_31_25DPS : Nat := 0x06 <<< ICM42688P_GYRO_CONFIG0_SHIFT_FS_SEL
def ICM42688P_GYRO_CONFIG0_FS_15_625DPS : Nat := 0x07 <<< ICM42688P_GYRO_CONFIG0_SHIFT_FS_SEL

def ICM42688P_GYRO_ODR_1KHZ : Nat := 0x06
def ICM42688P_GYRO_ODR_200HZ : Nat := 0x07

def ICM42688P_ACCEL_CONFIG0_SHIFT_FS_SEL : Nat := 5
def ICM42688P_ACCEL_CONFIG0_MASK_FS_SEL : Nat := 0x07 <<< ICM42688P_ACCEL_CONFIG0_SHIFT_FS_SEL

def ICM42688P_ACCEL_CONFIG0_FS_16G : Nat := 0x00 <<< ICM42688P_ACCEL_CONFIG0_SHIFT_FS_SEL
def ICM42688P_ACCEL_CONFIG0_FS_8G : Nat := 0x01 <<< ICM42688P_ACCEL_CONFIG0_SHIFT_FS_SEL
def ICM42688P_ACCEL_CONFIG0_FS_4G : Nat := 0x02 <<< ICM42688P_ACCEL_CONFIG0_SHIFT_FS_SEL
def ICM42688P_ACCEL_CONFIG0_FS_2G : Nat := 0x03 <<< ICM42688P_ACCEL_CONFIG0_SHIFT_FS_SEL

def ICM42688P_ACCEL_SCALE_2G : ℚ := 2 / 32768
def ICM42688P_ACCEL_SCALE_4G : ℚ := 4 / 32768
def ICM42688P_ACCEL_SCALE_8G : ℚ := 8 / 32768
def ICM42688P_ACCEL_SCALE_16G : ℚ := 16 / 32768

def ICM42688P_GYRO_SCALE_2000DPS : ℚ := 2000 / 32768
def ICM42688P_GYRO_SCALE_1000DPS : ℚ := 1000 / 32768
def ICM42688P_GYRO_SCALE_500DPS : ℚ := 500 / 32768
def ICM42688P_GYRO_SCALE_250DPS : ℚ := 250 / 32768
def ICM42688P_GYRO_SCALE_125DPS : ℚ := 125 / 32768
def ICM42688P_GYRO_SCALE_62_5DPS : ℚ := 62.5 / 32768
def ICM42688P_GYRO_SCALE_31_25DPS : ℚ := 31.25 / 32768
def ICM42688P_GYRO_SCALE_15_625DPS : ℚ := 15.625 / 32768

def ICM42688P_TEMP_SENSITIVITY : ℚ := binary32 132.48
def ICM42688P_TEMP_OFFSET : ℚ := 25.0

def ICM42688P_PWR_MGMT0_ACCEL_MODE_OFF : Nat := 0x00
def ICM42688P_PWR_MGMT0_ACCEL_MODE_LOWPOWER : Nat := 0x02
def ICM42688P_PWR_MGMT0_ACCEL_MODE_LOWNOISE : Nat := 0x03
def ICM42688P_PWR_MGMT0_GYRO_MODE_OFF : Nat := 0x00
def ICM42688P_PWR_MGMT0_GYRO_MODE_STANDBY : Nat := 0x04
def ICM42688P_PWR_MGMT0_GYRO_MODE_LOWNOISE : Nat := 0x0C
def ICM42688P_PWR_MGMT0_TEMP_DIS : Nat := 1 <<< 5

def ICM42688P_INTF_CONFIG0_I2C_DISABLE : Nat := 0x03
def ICM42688P_INT_STATUS0_DATA_RDY : Nat := 1 <<< 0
def ICM42688P_ACCEL_ODR_MASK : Nat := 0x0F
def ICM42688P_GYRO_ODR_MASK : Nat := 0x0F
def ICM42688P_ODR_CODE_1KHZ : Nat := 0x06
def ICM42688P_ODR_CODE_200HZ : Nat := 0x07

def ICM42688P_REG_INT_SOURCE0 : Nat := 0x65
def ICM42688P_INT_SOURCE0_UI_DRDY_INT1_EN : Nat := 1 <<< 3

/-! ## sl_imu.h -/

def IMU_STATE_DISABLED : Nat := 0x00
def IMU_STATE_READY : Nat := 0x01
def IMU_STATE_INITIALIZING : Nat := 0x02
def IMU_STATE_CALIBRATING : Nat := 0x03

/-! ## Status codes (the three values of `sl_status_t` the sources use) -/

inductive sl_status_t where
  | SL_STATUS_OK
  | SL_STATUS_INITIALIZATION
  | SL_STATUS_INVALID_PARAMETER
deriving DecidableEq

open sl_status_t

/-- An output-pointer argument: `NULL`, or the address of caller storage. -/
inductive Ptr where
  | null
  | valid
deriving DecidableEq

/-! ## Platform services and the trace -/

/-- One call into the vendor HAL, as seen from outside the driver. -/
inductive Event where
  | cs (select : Bool)
  | txrx (tx rx : Nat)
  | delay (ms : Nat)
deriving DecidableEq

/-- The HAL services the driver is written against, acting on a device state
`σ`: driving the chip-select pin (`true` = selected, pin low), one full-duplex
byte exchange (`EUSART_Spi_TxRx`), and `sl_sleeptimer_delay_millisecond`. -/
structure Platform (σ : Type) where
  chipSelect : σ → Bool → σ
  exchange : σ → Nat → σ × Nat
  sleep : σ → Nat → σ

/-- The world outside the driver: the device and the trace of HAL calls made
so far (oldest first). -/
structure Hw (σ : Type) where
  dev : σ
  trace : List Event

variable {σ : Type}

/-! ## sl_icm42688p.c: helpers -/

/-- Source: `sl_icm42688p_chip_select_set`: clear the CS pin to select, set it
to deselect. -/
def sl_icm42688p_chip_select_set (P : Platform σ) (select : Bool) (hw : Hw σ) : Hw σ :=
  { dev := P.chipSelect hw.dev select, trace := hw.trace ++ [Event.cs select] }

/-- Source: `sl_icm42688p_hw_delay_short`: eight NOPs, no effect on device or
trace. -/
def sl_icm42688p_hw_delay_short (hw : Hw σ) : Hw σ := hw

/-- Source: `EUSART_Spi_TxRx` as called by the driver: send one byte, receive
one byte (the result is a `uint8_t`). -/
def spi_tx_rx (P : Platform σ) (tx : Nat) (hw : Hw σ) : Nat × Hw σ :=
  let r := P.exchange hw.dev tx
  (r.2 % 256, { dev := r.1, trace := hw.trace ++ [Event.txrx tx (r.2 % 256)] })

/-- Source: `sl_sleeptimer_delay_millisecond`. -/
def sl_sleeptimer_delay_millisecond (P : Platform σ) (ms : Nat) (hw : Hw σ) : Hw σ :=
  { dev := P.sleep hw.dev ms, trace := hw.trace ++ [Event.delay ms] }

/-! ## sl_icm42688p.c: register transport -/

/-- The `for (i = 0; i < len; ++i) data[i] = TxRx(0x00)` loop of
`sl_icm42688p_read_register`. -/
def read_register_loop (P : Platform σ) : Nat → Hw σ → List Nat × Hw σ
  | 0, hw => ([], hw)
  | n + 1, hw =>
    let r := spi_tx_rx P 0x00 hw
    let rest := read_register_loop P n r.2
    (r.1 :: rest.1, rest.2)

/-- Source: `sl_icm42688p_read_register(reg, data, len)`; the bytes stored
into `data` are returned as a list of length `len`. -/
def sl_icm42688p_read_register (P : Platform σ) (reg len : Nat) (hw : Hw σ) :
    sl_status_t × List Nat × Hw σ :=
  let hw1 := sl_icm42688p_hw_delay_short (sl_icm42688p_chip_select_set P true hw)
  let a := spi_tx_rx P ((reg ||| 0x80) % 256) hw1
  let r := read_register_loop P len a.2
  let hw2 := sl_icm42688p_hw_delay_short (sl_icm42688p_chip_select_set P false r.2)
  (SL_STATUS_OK, r.1, hw2)

/-- Source: `sl_icm42688p_write_register(reg, data)`. -/
def sl_icm42688p_write_register (P : Platform σ) (reg data : Nat) (hw : Hw σ) :
    sl_status_t × Hw σ :=
  let hw1 := sl_icm42688p_hw_delay_short (sl_icm42688p_chip_select_set P true hw)
  let a := spi_tx_rx P ((reg &&& 0x7F) % 256) hw1
  let b := spi_tx_rx P (data % 256) a.2
  let hw2 := sl_icm42688p_hw_delay_short (sl_icm42688p_chip_select_set P false b.2)
  (SL_STATUS_OK, hw2)

/-- Source: `sl_icm42688p_masked_write(addr, data, mask)`. -/
def sl_icm42688p_masked_write (P : Platform σ) (addr data mask : Nat) (hw : Hw σ) :
    sl_status_t × Hw σ :=
  let r := sl_icm42688p_read_register P addr 1 hw
  if r.1 ≠ SL_STATUS_OK then (r.1, r.2.2)
  else
    let reg := r.2.1.getD 0 0
    let reg1 := reg &&& ((255 - mask % 256) % 256)
    let reg2 := (reg1 ||| (data &&& mask)) % 256
    sl_icm42688p_write_register P addr reg2 r.2.2

/-- Source: `sl_icm42688p_set_bank(bank)`. -/
def sl_icm42688p_set_bank (P : Platform σ) (bank : Nat) (hw : Hw σ) : sl_status_t × Hw σ :=
  let val := bank &&& 0x07
  sl_icm42688p_write_register P ICM42688P_REG_BANK_SEL val hw

/-! ## sl_icm42688p.c: bring-up, shutdown, reset -/

/-- Source: `sl_icm42688p_spi_init`.  It enables clocks, sets pin modes and
routes and initialises the EUSART of the microcontroller; none of this
addresses the sensor, so device and trace are unchanged. -/
def sl_icm42688p_spi_init (_P : Platform σ) (hw : Hw σ) : sl_status_t × Hw σ :=
  (SL_STATUS_OK, hw)

/-- Source: `sl_icm42688p_reset`. -/
def sl_icm42688p_reset (P : Platform σ) (hw : Hw σ) : sl_status_t × Hw σ :=
  let reset := 0x01
  let w := sl_icm42688p_write_register P ICM42688P_REG_DEVICE_CONFIG reset hw
  (SL_STATUS_OK, sl_sleeptimer_delay_millisecond P 1 w.2)

/-- Source: `sl_icm42688p_set_full_scale_accel(fs_code)`. -/
def sl_icm42688p_set_full_scale_accel (P : Platform σ) (fs_code : Nat) (hw : Hw σ) :
    sl_status_t × Hw σ :=
  let hw1 := (sl_icm42688p_set_bank P ICM42688P_BANK_1 hw).2
  let reg := ((fs_code <<< ICM42688P_ACCEL_CONFIG0_SHIFT_FS_SEL)
    &&& ICM42688P_ACCEL_CONFIG0_MASK_FS_SEL) % 256
  let reg := (reg ||| (ICM42688P_ODR_CODE_1KHZ &&& 0x0F)) % 256
  let hw2 := (sl_icm42688p_write_register P ICM42688P_REG_ACCEL_CONFIG0 reg hw1).2
  let hw3 := (sl_icm42688p_set_bank P ICM42688P_BANK_0 hw2).2
  (SL_STATUS_OK, hw3)

/-- Source: `sl_icm42688p_set_full_scale_gyro(fs_code)`. -/
def sl_icm42688p_set_full_scale_gyro (P : Platform σ) (fs_code : Nat) (hw : Hw σ) :
    sl_status_t × Hw σ :=
  let hw1 := (sl_icm42688p_set_bank P ICM42688P_BANK_1 hw).2
  let reg := ((fs_code <<< ICM42688P_GYRO_CONFIG0_SHIFT_FS_SEL)
    &&& ICM42688P_GYRO_CONFIG0_MASK_FS_SEL) % 256
  let reg := (reg ||| (ICM42688P_GYRO_ODR_1KHZ &&& 0x0F)) % 256
  let hw2 := (sl_icm42688p_write_register P ICM42688P_REG_GYRO_CONFIG0 reg hw1).2
  let hw3 := (sl_icm42688p_set_bank P ICM42688P_BANK_0 hw2).2
  (SL_STATUS_OK, hw3)

/-- Source: `sl_icm42688p_init`.  The GPIO configuration of the interrupt
pin at the end acts on the microcontroller only. -/
def sl_icm42688p_init (P : Platform σ) (hw : Hw σ) : sl_status_t × Hw σ :=
  let hw1 := (sl_icm42688p_spi_init P hw).2
  let hw2 := (sl_icm42688p_reset P hw1).2
  let hw3 := sl_sleeptimer_delay_millisecond P 100 hw2
  let r := sl_icm42688p_read_register P ICM42688P_REG_WHO_AM_I 1 hw3
  let who := r.2.1.getD 0 0
  if who ≠ ICM42688P_DEVICE_ID then (SL_STATUS_INITIALIZATION, r.2.2)
  else
    let hw4 := (sl_icm42688p_write_register P ICM42688P_REG_INTF_CONFIG0
      (ICM42688P_INTF_CONFIG0_I2C_DISABLE % 256) r.2.2).2
    let pwr := (ICM42688P_PWR_MGMT0_ACCEL_MODE_LOWNOISE
      ||| ICM42688P_PWR_MGMT0_GYRO_MODE_LOWNOISE) % 256
    let pwr := pwr &&& ((0xFFFFFFFF - ICM42688P_PWR_MGMT0_TEMP_DIS) % 256)
    let hw5 := (sl_icm42688p_write_register P ICM42688P_REG_PWR_MGMT0 pwr hw4).2
    let hw6 := sl_sleeptimer_delay_millisecond P 30 hw5
    let hw7 := (sl_icm42688p_set_full_scale_accel P
      (ICM42688P_ACCEL_CONFIG0_FS_16G >>> ICM42688P_ACCEL_CONFIG0_SHIFT_FS_SEL) hw6).2
    let hw8 := (sl_icm42688p_set_full_scale_gyro P
      (ICM42688P_GYRO_CONFIG0_FS_2000DPS >>> ICM42688P_GYRO_CONFIG0_SHIFT_FS_SEL) hw7).2
    (SL_STATUS_OK, hw8)

/-- Source: `sl_icm42688p_deinit`. -/
def sl_icm42688p_deinit (P : Platform σ) (hw : Hw σ) : sl_status_t × Hw σ :=
  let reg := (ICM42688P_PWR_MGMT0_ACCEL_MODE_OFF ||| ICM42688P_PWR_MGMT0_GYRO_MODE_STANDBY
    ||| ICM42688P_PWR_MGMT0_TEMP_DIS) % 256
  let w := sl_icm42688p_write_register P ICM42688P_REG_PWR_MGMT0 reg hw
  (SL_STATUS_OK, w.2)

/-! ## sl_icm42688p.c: sample rate, sensors, interrupt -/

/-- Source: `sl_icm42688p_set_sample_rate(sample_rate)`. -/
def sl_icm42688p_set_sample_rate (P : Platform σ) (sample_rate : ℚ) (hw : Hw σ) : ℚ × Hw σ :=
  let odr_code := if sample_rate ≥ 1000 then ICM42688P_ODR_CODE_1KHZ else ICM42688P_ODR_CODE_200HZ
  let hw1 := (sl_icm42688p_set_bank P ICM42688P_BANK_1 hw).2
  let r := sl_icm42688p_read_register P ICM42688P_REG_GYRO_CONFIG0 1 hw1
  let reg := r.2.1.getD 0 0
  let reg := ((reg &&& 0xF0) ||| (odr_code &&& 0x0F)) % 256
  let hw2 := (sl_icm42688p_write_register P ICM42688P_REG_GYRO_CONFIG0 reg r.2.2).2
  let r2 := sl_icm42688p_read_register P ICM42688P_REG_ACCEL_CONFIG0 1 hw2
  let reg := r2.2.1.getD 0 reg
  let reg := ((reg &&& 0xF0) ||| (odr_code &&& 0x0F)) % 256
  let hw3 := (sl_icm42688p_write_register P ICM42688P_REG_ACCEL_CONFIG0 reg r2.2.2).2
  let hw4 := (sl_icm42688p_set_bank P ICM42688P_BANK_0 hw3).2
  (if odr_code = ICM42688P_ODR_CODE_1KHZ then 1000 else 200, hw4)

/-- Source: `sl_icm42688p_enable_sensor(accel, gyro, temp)`. -/
def sl_icm42688p_enable_sensor (P : Platform σ) (accel gyro temp : Bool) (hw : Hw σ) :
    sl_status_t × Hw σ :=
  let reg := 0
  let reg := (reg ||| (if accel then ICM42688P_PWR_MGMT0_ACCEL_MODE_LOWNOISE
    else ICM42688P_PWR_MGMT0_ACCEL_MODE_OFF)) % 256
  let reg := (reg ||| (if gyro then ICM42688P_PWR_MGMT0_GYRO_MODE_LOWNOISE
    else ICM42688P_PWR_MGMT0_GYRO_MODE_OFF)) % 256
  let reg := if !temp then (reg ||| ICM42688P_PWR_MGMT0_TEMP_DIS) % 256 else reg
  let w := sl_icm42688p_write_register P ICM42688P_REG_PWR_MGMT0 reg hw
  (SL_STATUS_OK, w.2)

/-- Source: `sl_icm42688p_enable_interrupt(data_ready_enable)`. -/
def sl_icm42688p_enable_interrupt (P : Platform σ) (data_ready_enable : Bool) (hw : Hw σ) :
    sl_status_t × Hw σ :=
  let int_cfg := 0x00
  let int_enable := 0x00
  let int_cfg := (int_cfg ||| (1 <<< 0)) % 256
  let int_cfg := (int_cfg ||| (1 <<< 1)) % 256
  let hw1 := (sl_icm42688p_write_register P ICM42688P_REG_INT_CONFIG int_cfg hw).2
  let int_enable := if data_ready_enable
    then (int_enable ||| ICM42688P_INT_STATUS0_DATA_RDY) % 256 else int_enable
  let hw2 := (sl_icm42688p_masked_write P ICM42688P_REG_INT_SOURCE0 int_enable
    (ICM42688P_INT_SOURCE0_UI_DRDY_INT1_EN % 256) hw1).2
  (SL_STATUS_OK, hw2)

/-! ## sl_icm42688p.c: data readout -/

/-- Conversion of an `int` value to `int16_t` (two-s complement wrap), as in
`temp = ((int16_t)raw_data[0] << 8) | raw_data[1]`. -/
def toInt16 (n : Nat) : Int :=
  if n % 65536 < 32768 then (n % 65536 : Nat) else ((n % 65536 : Nat) : Int) - 65536

/-- The expression `((int16_t)raw_data[i] << 8) | raw_data[i + 1]` stored into
`int16_t temp`. -/
def raw_word (raw_data : List Nat) (i : Nat) : Int :=
  toInt16 (((raw_data.getD i 0) <<< 8) ||| (raw_data.getD (i + 1) 0))

/-- Source: `sl_icm42688p_accel_read_data(accel)`. -/
def sl_icm42688p_accel_read_data (P : Platform σ) (hw : Hw σ) :
    sl_status_t × (ℚ × ℚ × ℚ) × Hw σ :=
  let accel_res := ICM42688P_ACCEL_SCALE_16G
  let r := sl_icm42688p_read_register P ICM42688P_REG_ACCEL_DATA_X1 6 hw
  let raw_data := r.2.1
  (SL_STATUS_OK,
    ((raw_word raw_data 0 : ℚ) * accel_res,
     (raw_word raw_data 2 : ℚ) * accel_res,
     (raw_word raw_data 4 : ℚ) * accel_res),
    r.2.2)

/-- Source: `sl_icm42688p_gyro_read_data(gyro)`. -/
def sl_icm42688p_gyro_read_data (P : Platform σ) (hw : Hw σ) :
    sl_status_t × (ℚ × ℚ × ℚ) × Hw σ :=
  let gyro_res := ICM42688P_GYRO_SCALE_2000DPS
  let r := sl_icm42688p_read_register P ICM42688P_REG_GYRO_DATA_X1 6 hw
  let raw_data := r.2.1
  (SL_STATUS_OK,
    ((raw_word raw_data 0 : ℚ) * gyro_res,
     (raw_word raw_data 2 : ℚ) * gyro_res,
     (raw_word raw_data 4 : ℚ) * gyro_res),
    r.2.2)

/-- Source: `sl_icm42688p_get_device_id(dev_id)`. -/
def sl_icm42688p_get_device_id (P : Platform σ) (hw : Hw σ) : sl_status_t × Nat × Hw σ :=
  let r := sl_icm42688p_read_register P ICM42688P_REG_WHO_AM_I 1 hw
  (SL_STATUS_OK, r.2.1.getD 0 0, r.2.2)

/-- Source: `sl_icm42688p_is_data_ready`. -/
def sl_icm42688p_is_data_ready (P : Platform σ) (hw : Hw σ) : Bool × Hw σ :=
  let r := sl_icm42688p_read_register P ICM42688P_REG_INT_STATUS0 1 hw
  let s := r.2.1.getD 0 0
  (decide ((s &&& ICM42688P_INT_STATUS0_DATA_RDY) ≠ 0), r.2.2)

/-- Source: `sl_icm42688p_accel_set_bandwidth(odr_code)`. -/
def sl_icm42688p_accel_set_bandwidth (P : Platform σ) (odr_code : Nat) (hw : Hw σ) :
    sl_status_t × Hw σ :=
  let r := sl_icm42688p_read_register P ICM42688P_REG_ACCEL_CONFIG0 1 hw
  let reg := r.2.1.getD 0 0
  let reg := ((reg &&& (0xFFFFFFFF - ICM42688P_ACCEL_ODR_MASK))
    ||| (odr_code &&& ICM42688P_ACCEL_ODR_MASK)) % 256
  let w := sl_icm42688p_write_register P ICM42688P_REG_ACCEL_CONFIG0 reg r.2.2
  (SL_STATUS_OK, w.2)

/-- Source: `sl_icm42688p_gyro_set_bandwidth(odr_code)`. -/
def sl_icm42688p_gyro_set_bandwidth (P : Platform σ) (odr_code : Nat) (hw : Hw σ) :
    sl_status_t × Hw σ :=
  let r := sl_icm42688p_read_register P ICM42688P_REG_GYRO_CONFIG0 1 hw
  let reg := r.2.1.getD 0 0
  let reg := ((reg &&& (0xFFFFFFFF - ICM42688P_GYRO_ODR_MASK))
    ||| (odr_code &&& ICM42688P_GYRO_ODR_MASK)) % 256
  let w := sl_icm42688p_write_register P ICM42688P_REG_GYRO_CONFIG0 reg r.2.2
  (SL_STATUS_OK, w.2)

/-- Source: `sl_icm42688p_read_interrupt_status(status)`; the second
component is the value stored through `status`, if any. -/
def sl_icm42688p_read_interrupt_status (P : Platform σ) (status : Ptr) (hw : Hw σ) :
    sl_status_t × Option Nat × Hw σ :=
  if status = Ptr.null then (SL_STATUS_INVALID_PARAMETER, none, hw)
  else
    let r := sl_icm42688p_read_register P ICM42688P_REG_INT_STATUS0 2 hw
    let reg := r.2.1
    (SL_STATUS_OK, some (((reg.getD 0 0) ||| ((reg.getD 1 0) <<< 8)) % 4294967296), r.2.2)

/-- Source: `sl_icm42688p_read_temperature(temperature)`.  The conversion
`(float)tmp` is exact; the quotient and the sum are `float` operations. -/
def sl_icm42688p_read_temperature (P : Platform σ) (temperature : Ptr) (hw : Hw σ) :
    sl_status_t × Option ℚ × Hw σ :=
  if temperature = Ptr.null then (SL_STATUS_INVALID_PARAMETER, none, hw)
  else
    let r := sl_icm42688p_read_register P ICM42688P_REG_TEMP_DATA1 2 hw
    let raw := r.2.1
    let tmp := toInt16 (((raw.getD 0 0) <<< 8) ||| (raw.getD 1 0))
    (SL_STATUS_OK,
      some (binary32 (binary32 ((tmp : ℚ) / ICM42688P_TEMP_SENSITIVITY) + ICM42688P_TEMP_OFFSET)),
      r.2.2)

/-! ## sl_icm42688p.c: calibration and resolution readback -/

/-- The sampling loop of `sl_icm42688p_calibrate_gyro`: `n` remaining
iterations, each reading the gyro, accumulating with `float` additions, and
delaying 2 ms. -/
def calibrate_gyro_loop (P : Platform σ) : Nat → (ℚ × ℚ × ℚ) → Hw σ → (ℚ × ℚ × ℚ) × Hw σ
  | 0, sum, hw => (sum, hw)
  | n + 1, sum, hw =>
    let r := sl_icm42688p_gyro_read_data P hw
    let gvec := r.2.1
    let sum := (binary32 (sum.1 + gvec.1), binary32 (sum.2.1 + gvec.2.1),
      binary32 (sum.2.2 + gvec.2.2))
    calibrate_gyro_loop P n sum (sl_sleeptimer_delay_millisecond P 2 r.2.2)

/-- Source: `sl_icm42688p_calibrate_gyro(bias)`; the second component is the
vector stored through `bias`, if any.  In `sum[i] / samples` the `int` 500 is
converted to `float` exactly and the quotient is a `float` division. -/
def sl_icm42688p_calibrate_gyro (P : Platform σ) (bias : Ptr) (hw : Hw σ) :
    sl_status_t × Option (ℚ × ℚ × ℚ) × Hw σ :=
  if bias = Ptr.null then (SL_STATUS_INVALID_PARAMETER, none, hw)
  else
    let samples : Nat := 500
    let l := calibrate_gyro_loop P samples (0, 0, 0) hw
    let sum := l.1
    (SL_STATUS_OK,
      some (binary32 (sum.1 / samples), binary32 (sum.2.1 / samples),
        binary32 (sum.2.2 / samples)),
      l.2)

/-- Source: `sl_icm42688p_accel_get_resolution(accel_res)`. -/
def sl_icm42688p_accel_get_resolution (P : Platform σ) (accel_res : Ptr) (hw : Hw σ) :
    sl_status_t × Option ℚ × Hw σ :=
  if accel_res = Ptr.null then (SL_STATUS_INVALID_PARAMETER, none, hw)
  else
    let r := sl_icm42688p_read_register P ICM42688P_REG_ACCEL_CONFIG0 1 hw
    if r.1 ≠ SL_STATUS_OK then (r.1, none, r.2.2)
    else
      let fs_code := r.2.1.getD 0 0
      let fs_code := ((fs_code &&& ICM42688P_ACCEL_CONFIG0_MASK_FS_SEL)
        >>> ICM42688P_ACCEL_CONFIG0_SHIFT_FS_SEL) % 256
      let res := match fs_code with
        | 0 => ICM42688P_ACCEL_SCALE_2G
        | 1 => ICM42688P_ACCEL_SCALE_4G
        | 2 => ICM42688P_ACCEL_SCALE_8G
        | 3 => ICM42688P_ACCEL_SCALE_16G
        | _ => ICM42688P_ACCEL_SCALE_16G
      (SL_STATUS_OK, some res, r.2.2)

/-- Source: `sl_icm42688p_gyro_get_resolution(gyro_res)`. -/
def sl_icm42688p_gyro_get_resolution (P : Platform σ) (gyro_res : Ptr) (hw : Hw σ) :
    sl_status_t × Option ℚ × Hw σ :=
  if gyro_res = Ptr.null then (SL_STATUS_INVALID_PARAMETER, none, hw)
  else
    let r := sl_icm42688p_read_register P ICM42688P_REG_GYRO_CONFIG0 1 hw
    if r.1 ≠ SL_STATUS_OK then (r.1, none, r.2.2)
    else
      let fs_code := r.2.1.getD 0 0
      let fs_code := ((fs_code &&& ICM42688P_GYRO_CONFIG0_MASK_FS_SEL)
        >>> ICM42688P_GYRO_CONFIG0_SHIFT_FS_SEL) % 256
      let res := match fs_code with
        | 0 => ICM42688P_GYRO_SCALE_2000DPS
        | 1 => ICM42688P_GYRO_SCALE_1000DPS
        | 2 => ICM42688P_GYRO_SCALE_500DPS
        | 3 => ICM42688P_GYRO_SCALE_250DPS
        | 4 => ICM42688P_GYRO_SCALE_125DPS
        | 5 => ICM42688P_GYRO_SCALE_62_5DPS
        | 6 => ICM42688P_GYRO_SCALE_31_25DPS
        | 7 => ICM42688P_GYRO_SCALE_15_625DPS
        | _ => ICM42688P_GYRO_SCALE_2000DPS
      (SL_STATUS_OK, some res, r.2.2)

/-- The sampling loop of `sl_icm42688p_calibrate_accel_and_gyro`. -/
def calibrate_accel_and_gyro_loop (P : Platform σ) :
    Nat → (ℚ × ℚ × ℚ) → (ℚ × ℚ × ℚ) → Hw σ → (ℚ × ℚ × ℚ) × (ℚ × ℚ × ℚ) × Hw σ
  | 0, accel_sum, gyro_sum, hw => (accel_sum, gyro_sum, hw)
  | n + 1, accel_sum, gyro_sum, hw =>
    let ra := sl_icm42688p_accel_read_data P hw
    let rg := sl_icm42688p_gyro_read_data P ra.2.2
    let accel_data := ra.2.1
    let gyro_data := rg.2.1
    let accel_sum := (binary32 (accel_sum.1 + accel_data.1),
      binary32 (accel_sum.2.1 + accel_data.2.1), binary32 (accel_sum.2.2 + accel_data.2.2))
    let gyro_sum := (binary32 (gyro_sum.1 + gyro_data.1),
      binary32 (gyro_sum.2.1 + gyro_data.2.1), binary32 (gyro_sum.2.2 + gyro_data.2.2))
    calibrate_accel_and_gyro_loop P n accel_sum gyro_sum
      (sl_sleeptimer_delay_millisecond P 2 rg.2.2)

/-- Source: `sl_icm42688p_calibrate_accel_and_gyro(accel_bias, gyro_bias)`;
the second component holds the two vectors stored through the pointers. -/
def sl_icm42688p_calibrate_accel_and_gyro (P : Platform σ) (accel_bias gyro_bias : Ptr)
    (hw : Hw σ) : sl_status_t × Option ((ℚ × ℚ × ℚ) × (ℚ × ℚ × ℚ)) × Hw σ :=
  if accel_bias = Ptr.null ∨ gyro_bias = Ptr.null then (SL_STATUS_INVALID_PARAMETER, none, hw)
  else
    let samples : Nat := 500
    let hw1 := (sl_icm42688p_enable_sensor P false false false hw).2
    let hw2 := (sl_icm42688p_set_full_scale_accel P
      (ICM42688P_ACCEL_CONFIG0_FS_2G >>> ICM42688P_ACCEL_CONFIG0_SHIFT_FS_SEL) hw1).2
    let hw3 := (sl_icm42688p_set_full_scale_gyro P
      (ICM42688P_GYRO_CONFIG0_FS_250DPS >>> ICM42688P_GYRO_CONFIG0_SHIFT_FS_SEL) hw2).2
    let hw4 := (sl_icm42688p_set_sample_rate P 1000 hw3).2
    let hw5 := (sl_icm42688p_accel_set_bandwidth P ICM42688P_ODR_CODE_200HZ hw4).2
    let hw6 := (sl_icm42688p_gyro_set_bandwidth P ICM42688P_ODR_CODE_200HZ hw5).2
    let hw7 := (sl_icm42688p_enable_sensor P true true true hw6).2
    let hw8 := sl_sleeptimer_delay_millisecond P 50 hw7
    let l := calibrate_accel_and_gyro_loop P samples (0, 0, 0) (0, 0, 0) hw8
    let accel_sum := l.1
    let gyro_sum := l.2.1
    let ab0 := binary32 (accel_sum.1 / samples)
    let ab1 := binary32 (accel_sum.2.1 / samples)
    let ab2 := binary32 (accel_sum.2.2 / samples)
    let gb := (binary32 (gyro_sum.1 / samples), binary32 (gyro_sum.2.1 / samples),
      binary32 (gyro_sum.2.2 / samples))
    let ab2 := if ab2 > 0 then binary32 (ab2 - ICM42688P_ACCEL_SCALE_2G)
      else binary32 (ab2 + ICM42688P_ACCEL_SCALE_2G)
    let hw9 := (sl_icm42688p_enable_sensor P false false false l.2.2).2
    (SL_STATUS_OK, some ((ab0, ab1, ab2), gb), hw9)

/-! ## sl_imu_icm426889.c: the IMU facade -/

/-- The file-scope variables of `sl_imu_icm426889.c` together with the
hardware the facade drives. -/
structure Imu (σ : Type) where
  IMU_state : Nat
  sensorsSampleRate : ℚ
  IMU_isDataReadyQueryCount : Nat
  IMU_isDataReadyTrueCount : Nat
  hw : Hw σ

/-- The `cleanup:` label of `sl_imu_init`. -/
def sl_imu_init_cleanup (P : Platform σ) (status : sl_status_t) (s : Imu σ) :
    sl_status_t × Imu σ :=
  if status ≠ SL_STATUS_OK then
    (status, { s with hw := (sl_icm42688p_deinit P s.hw).2, IMU_state := IMU_STATE_DISABLED })
  else (status, s)

/-- Source: `sl_imu_init`. -/
def sl_imu_init (P : Platform σ) (s : Imu σ) : sl_status_t × Imu σ :=
  let s1 := { s with IMU_state := IMU_STATE_INITIALIZING }
  let r := sl_icm42688p_init P s1.hw
  let s2 := { s1 with hw := r.2 }
  if r.1 ≠ SL_STATUS_OK then sl_imu_init_cleanup P r.1 s2
  else
    let d := sl_icm42688p_get_device_id P s2.hw
    let s3 := { s2 with hw := d.2.2 }
    if d.1 ≠ SL_STATUS_OK then sl_imu_init_cleanup P d.1 s3
    else
      let s4 := { s3 with IMU_state := IMU_STATE_CALIBRATING }
      let c := sl_icm42688p_calibrate_gyro P Ptr.valid s4.hw
      let s5 := { s4 with hw := c.2.2 }
      if c.1 ≠ SL_STATUS_OK then sl_imu_init_cleanup P c.1 s5
      else
        let s6 := { s5 with IMU_state := IMU_STATE_INITIALIZING }
        sl_imu_init_cleanup P c.1 s6

/-- Source: `sl_imu_deinit`. -/
def sl_imu_deinit (P : Platform σ) (s : Imu σ) : sl_status_t × Imu σ :=
  let s1 := { s with IMU_state := IMU_STATE_DISABLED }
  let r := sl_icm42688p_deinit P s1.hw
  (r.1, { s1 with hw := r.2 })

/-- Source: `sl_imu_get_state`. -/
def sl_imu_get_state (s : Imu σ) : Nat := s.IMU_state

/-- Source: `sl_imu_configure(sampleRate)`. -/
def sl_imu_configure (P : Platform σ) (sampleRate : ℚ) (s : Imu σ) : Imu σ :=
  let s1 := { s with IMU_state := IMU_STATE_INITIALIZING }
  let hw1 := (sl_icm42688p_enable_sensor P true true false s1.hw).2
  let sr := sl_icm42688p_set_sample_rate P sampleRate hw1
  let s2 := { s1 with sensorsSampleRate := sr.1 }
  let hw2 := (sl_icm42688p_set_full_scale_accel P ICM42688P_ACCEL_CONFIG0_FS_2G sr.2).2
  let hw3 := (sl_icm42688p_set_full_scale_gyro P ICM42688P_GYRO_CONFIG0_FS_250DPS hw2).2
  let hw4 := (sl_icm42688p_accel_set_bandwidth P ICM42688P_ODR_CODE_1KHZ hw3).2
  let hw5 := (sl_icm42688p_gyro_set_bandwidth P ICM42688P_GYRO_ODR_200HZ hw4).2
  let hw6 := sl_sleeptimer_delay_millisecond P 50 hw5
  let hw7 := (sl_icm42688p_enable_interrupt P true hw6).2
  let hw8 := (sl_icm42688p_read_interrupt_status P Ptr.valid hw7).2.2
  { s2 with hw := hw8, IMU_state := IMU_STATE_READY }

/-- Source: `sl_imu_get_acceleration(avec)`; the first component is the
content of `avec` on return. -/
def sl_imu_get_acceleration (P : Platform σ) (s : Imu σ) : (ℚ × ℚ × ℚ) × Imu σ :=
  if s.IMU_state ≠ IMU_STATE_READY then ((0, 0, 0), s)
  else
    let r := sl_icm42688p_accel_read_data P s.hw
    (r.2.1, { s with hw := r.2.2 })

/-- Source: `sl_imu_get_gyro(gvec)`; the first component is the content of
`gvec` on return. -/
def sl_imu_get_gyro (P : Platform σ) (s : Imu σ) : (ℚ × ℚ × ℚ) × Imu σ :=
  if s.IMU_state ≠ IMU_STATE_READY then ((0, 0, 0), s)
  else
    let r := sl_icm42688p_gyro_read_data P s.hw
    (r.2.1, { s with hw := r.2.2 })

/-- Source: `sl_imu_calibrate_gyro`. -/
def sl_imu_calibrate_gyro (P : Platform σ) (s : Imu σ) : sl_status_t × Imu σ :=
  let s1 := { s with hw := (sl_icm42688p_enable_interrupt P false s.hw).2 }
  let s2 := (sl_imu_deinit P s1).2
  let r := sl_imu_init P s2
  let status := r.1
  let s3 := sl_imu_configure P r.2.sensorsSampleRate r.2
  (status, s3)

/-- Source: `sl_imu_is_data_ready`; the counters are `uint32_t`. -/
def sl_imu_is_data_ready (P : Platform σ) (s : Imu σ) : Bool × Imu σ :=
  if s.IMU_state ≠ IMU_STATE_READY then (false, s)
  else
    let r := sl_icm42688p_is_data_ready P s.hw
    let ready := r.1
    let s0 := { s with hw := r.2 }
    let s1 :=
      { s0 with IMU_isDataReadyQueryCount := (s0.IMU_isDataReadyQueryCount + 1) % 4294967296 }
    let s2 :=
      if ready then
        { s1 with IMU_isDataReadyTrueCount := (s1.IMU_isDataReadyTrueCount + 1) % 4294967296 }
      else s1
    (ready, s2)

/-! ## A reference device: a register file behind the SPI framing

The sensor itself is hardware.  To state what ends up in its registers we
use the simplest device that honours the driver-side framing of
`sl_icm42688p_read_register` / `sl_icm42688p_write_register`: while selected,
the first byte received is the address with bit 7 as the read flag, every
further byte reads or writes the addressed register and advances the
address.  Registers are eight bits wide.  The register space is flat: the
bank-select register `0x76` is an ordinary register of this device. -/

/-- Truncation of a value to the eight bits a register holds. -/
def byte (n : Nat) : Fin 256 := ⟨n % 256, Nat.mod_lt _ (by decide)⟩

/-- State of the reference register-file device. -/
structure RegDev where
  regs : Nat → Fin 256
  selected : Bool
  cursor : Option (Bool × Nat)

namespace RegDev

/-- Chip-select edge: any transaction in progress ends. -/
def chipSelect (d : RegDev) (select : Bool) : RegDev :=
  { d with selected := select, cursor := none }

/-- One byte exchange with the register file. -/
def exchange (d : RegDev) (tx : Nat) : RegDev × Nat :=
  if d.selected then
    match d.cursor with
    | none => ({ d with cursor := some (decide (128 ≤ tx % 256), tx % 128) }, 0)
    | some (true, a) => ({ d with cursor := some (true, a + 1) }, (d.regs a).val)
    | some (false, a) =>
      ({ d with regs := Function.update d.regs a (byte tx), cursor := some (false, a + 1) }, 0)
  else (d, 0)

/-- The register file as a platform; time passing does not change it. -/
def platform : Platform RegDev where
  chipSelect := chipSelect
  exchange := exchange
  sleep := fun d _ => d

/-- A deselected register file with the given content. -/
def ofRegs (regs : Nat → Fin 256) : RegDev :=
  { regs := regs, selected := false, cursor := none }

end RegDev

/-- The bytes a burst read of `n` registers starting at `a` returns. -/
def burst (regs : Nat → Fin 256) : Nat → Nat → List Nat
  | _, 0 => []
  | a, n + 1 => (regs a).val :: burst regs (a + 1) n

/-! ## The consumer API of the facade as one step function -/

/-- The eight operations `sl_imu.h` exposes. -/
inductive FacadeOp where
  | init
  | deinit
  | get_state
  | configure (sampleRate : ℚ)
  | get_acceleration
  | get_gyro
  | calibrate_gyro
  | is_data_ready

/-- The facade variables and hardware after one call of an operation. -/
def facade_step (P : Platform σ) : FacadeOp → Imu σ → Imu σ
  | FacadeOp.init, s => (sl_imu_init P s).2
  | FacadeOp.deinit, s => (sl_imu_deinit P s).2
  | FacadeOp.get_state, s => s
  | FacadeOp.configure r, s => sl_imu_configure P r s
  | FacadeOp.get_acceleration, s => (sl_imu_get_acceleration P s).2
  | FacadeOp.get_gyro, s => (sl_imu_get_gyro P s).2
  | FacadeOp.calibrate_gyro, s => (sl_imu_calibrate_gyro P s).2
  | FacadeOp.is_data_ready, s => (sl_imu_is_data_ready P s).2

/-! ## Observations used in the statements -/

/-- The byte `who` that the `WHO_AM_I` read of `sl_icm42688p_init` obtains when
bring-up starts from `hw`: the read that follows SPI setup, soft reset and
the 100 ms wait. -/
def bringup_who (P : Platform σ) (hw : Hw σ) : Nat :=
  ((sl_icm42688p_read_register P ICM42688P_REG_WHO_AM_I 1
    (sl_sleeptimer_delay_millisecond P 100
      (sl_icm42688p_reset P (sl_icm42688p_spi_init P hw).2).2)).2.1).getD 0 0

/-- The register write with which a trace ends, if it ends with one: chip
select, an address byte with the read flag clear, a data byte, chip
deselect.  The result is the pair (address byte, data byte). -/
def lastWrite (trace : List Event) : Option (Nat × Nat) :=
  match trace.reverse with
  | Event.cs false :: Event.txrx d _ :: Event.txrx a _ :: Event.cs true :: _ =>
    if a < 128 then some (a, d) else none
  | _ => none

/-- The full-scale field, bits 7:5, of a configuration register value. -/
def fs_field (v : Nat) : Nat := (v &&& 0xE0) >>> 5

/-- Accelerometer scale per full-scale code as `sl_icm42688p_defs.h` documents
it: 0 is 16 g, 1 is 8 g, 2 is 4 g, 3 is 2 g, each over 32768 LSB. -/
def accel_scale_of_code : Nat → ℚ
  | 0 => 16 / 32768
  | 1 => 8 / 32768
  | 2 => 4 / 32768
  | _ => 2 / 32768

/-- Gyroscope scale per full-scale code as stated in the specification: 0 is
2000 dps, 1 is 1000, 2 is 500, 3 is 250, 4 is 125, 5 is 62.5, 6 is 31.25,
7 is 15.625, each over 32768 LSB. -/
def gyro_scale_of_code : Nat → ℚ
  | 0 => 2000 / 32768
  | 1 => 1000 / 32768
  | 2 => 500 / 32768
  | 3 => 250 / 32768
  | 4 => 125 / 32768
  | 5 => 62.5 / 32768
  | 6 => 31.25 / 32768
  | _ => 15.625 / 32768

/-! ## Concrete systems used to instantiate the statements -/

/-- Hardware whose register file holds `regs`, with an empty trace. -/
def hwOfRegs (regs : Nat → Fin 256) : Hw RegDev :=
  { dev := RegDev.ofRegs regs, trace := [] }

/-- The facade variables at process start over the given hardware. -/
def bootImu (hw : Hw σ) : Imu σ :=
  { IMU_state := IMU_STATE_DISABLED, sensorsSampleRate := 0,
    IMU_isDataReadyQueryCount := 0, IMU_isDataReadyTrueCount := 0, hw := hw }

/-- A register file of zeros: in particular its identity register is not
`0x47`. -/
def blankRegs : Nat → Fin 256 := fun _ => 0

/-- A register file of zeros except for the identity register, which holds
`ICM42688P_DEVICE_ID`. -/
def idRegs : Nat → Fin 256 := fun a => if a = 0x75 then 0x47 else 0

/-- A register file with `ACCEL_CONFIG0 = 0x26` (full-scale code 1, 8 g),
`GYRO_CONFIG0 = 0x66` (full-scale code 3, 250 dps) and raw X words `0x0400`
for both sensors. -/
def scaledRegs : Nat → Fin 256 := fun a =>
  if a = 0x50 then 0x26 else if a = 0x4F then 0x66
  else if a = 0x1F then 0x04 else if a = 0x25 then 0x04 else 0

/-- The byte that the `INT_STATUS0` read of `sl_icm42688p_is_data_ready`
obtains from `hw`. -/
def int_status0_byte (P : Platform σ) (hw : Hw σ) : Nat :=
  ((sl_icm42688p_read_register P ICM42688P_REG_INT_STATUS0 1 hw).2.1).getD 0 0

/-- A register file of zeros except `INT_STATUS0`, whose data-ready bit is
set. -/
def readyRegs : Nat → Fin 256 := fun a => if a = 0x2D then 0x01 else 0

/-- The facade in state Ready with the given counter values. -/
def readyImu (hw : Hw σ) (queries trues : Nat) : Imu σ :=
  { IMU_state := IMU_STATE_READY, sensorsSampleRate := 1000,
    IMU_isDataReadyQueryCount := queries, IMU_isDataReadyTrueCount := trues, hw := hw }

/-- A register file with `INT_SOURCE0 = 0xFF`, `GYRO_CONFIG0 = 0x66`,
`ACCEL_CONFIG0 = 0x26` and the bank-select register holding 4. -/
def busyRegs : Nat → Fin 256 := fun a =>
  if a = 0x65 then 0xFF else if a = 0x4F then 0x66 else if a = 0x50 then 0x26
  else if a = 0x76 then 0x04 else 0

/-- One register transaction as it appears on the bus. -/
inductive Access where
  | read (reg : Nat)
  | write (reg data : Nat)
deriving DecidableEq

/-- The register transactions of a trace, in order.  A transaction opens
with chip select followed by the address byte; bit 7 of the address byte set
means read, clear means write, and then the next byte sent is the data. -/
def accesses : List Event → List Access
  | [] => []
  | Event.cs true :: Event.txrx a _ :: rest =>
    if 128 ≤ a then Access.read (a % 128) :: accesses rest
    else
      match rest with
      | Event.txrx d _ :: _ => Access.write a d :: accesses rest
      | _ => accesses rest
  | _ :: rest => accesses rest

/-- Whether every access to `GYRO_CONFIG0` (0x4F) or `ACCEL_CONFIG0` (0x50) in
a sequence of transactions is made while bank 1 is selected; `bank` is the
bank selected before the first transaction, and a write to the bank-select
register (0x76) selects the bank written. -/
def config_access_in_bank1 : Nat → List Access → Bool
  | _, [] => true
  | bank, Access.write reg data :: rest =>
    if reg = 0x76 then config_access_in_bank1 data rest
    else if reg = 0x4F ∨ reg = 0x50 then bank == 1 && config_access_in_bank1 bank rest
    else config_access_in_bank1 bank rest
  | bank, Access.read reg :: rest =>
    if reg = 0x4F ∨ reg = 0x50 then bank == 1 && config_access_in_bank1 bank rest
    else config_access_in_bank1 bank rest

/-- The events one register read of `len` bytes at `reg` adds to the trace
on the register file: select, address byte with the read flag (answered by
0), one exchange per byte read, deselect. -/
def read_frame (regs : Nat → Fin 256) (reg len : Nat) : List Event :=
  [Event.cs true, Event.txrx ((reg ||| 0x80) % 256) 0]
    ++ (burst regs (reg % 128) len).map (fun b => Event.txrx 0x00 b)
    ++ [Event.cs false]

/-- The events one register write adds to the trace on the register file:
select, address byte, data byte (both answered by 0), deselect. -/
def write_frame (reg data : Nat) : List Event :=
  [Event.cs true, Event.txrx (reg % 128) 0, Event.txrx (data % 256) 0, Event.cs false]

/-- The vector `sl_icm42688p_accel_read_data` computes from the six data
registers 0x1F..0x24 of a register file. -/
def accel_vec (regs : Nat → Fin 256) : ℚ × ℚ × ℚ :=
  ((raw_word (burst regs 0x1F 6) 0 : ℚ) * ICM42688P_ACCEL_SCALE_16G,
   (raw_word (burst regs 0x1F 6) 2 : ℚ) * ICM42688P_ACCEL_SCALE_16G,
   (raw_word (burst regs 0x1F 6) 4 : ℚ) * ICM42688P_ACCEL_SCALE_16G)

/-- The vector `sl_icm42688p_gyro_read_data` computes from the six data
registers 0x25..0x2A of a register file. -/
def gyro_vec (regs : Nat → Fin 256) : ℚ × ℚ × ℚ :=
  ((raw_word (burst regs 0x25 6) 0 : ℚ) * ICM42688P_GYRO_SCALE_2000DPS,
   (raw_word (burst regs 0x25 6) 2 : ℚ) * ICM42688P_GYRO_SCALE_2000DPS,
   (raw_word (burst regs 0x25 6) 4 : ℚ) * ICM42688P_GYRO_SCALE_2000DPS)

/-- The hardware as `sl_icm42688p_calibrate_accel_and_gyro` has prepared it
when its sampling loop starts: the statements of that function up to and
including the 50 ms settling delay. -/
def calibrate_accel_and_gyro_setup (P : Platform σ) (hw : Hw σ) : Hw σ :=
  let hw1 := (sl_icm42688p_enable_sensor P false false false hw).2
  let hw2 := (sl_icm42688p_set_full_scale_accel P
    (ICM42688P_ACCEL_CONFIG0_FS_2G >>> ICM42688P_ACCEL_CONFIG0_SHIFT_FS_SEL) hw1).2
  let hw3 := (sl_icm42688p_set_full_scale_gyro P
    (ICM42688P_GYRO_CONFIG0_FS_250DPS >>> ICM42688P_GYRO_CONFIG0_SHIFT_FS_SEL) hw2).2
  let hw4 := (sl_icm42688p_set_sample_rate P 1000 hw3).2
  let hw5 := (sl_icm42688p_accel_set_bandwidth P ICM42688P_ODR_CODE_200HZ hw4).2
  let hw6 := (sl_icm42688p_gyro_set_bandwidth P ICM42688P_ODR_CODE_200HZ hw5).2
  let hw7 := (sl_icm42688p_enable_sensor P true true true hw6).2
  sl_sleeptimer_delay_millisecond P 50 hw7

/-- A register file whose accelerometer Z word is 0x0800 (2048, which is 1 g
at the 16 g scale the readout applies) and whose gyroscope X word is
0x0400. -/
def restRegs : Nat → Fin 256 := fun a =>
  if a = 0x23 then 0x08 else if a = 0x25 then 0x04 else 0

/-- The arithmetic mean of 500 samples that all have the value `x`. -/
def mean500 (x : ℚ) : ℚ := (List.replicate 500 x).sum / 500

/-- Facade states that can arise in a run: the state at process start over
hardware `hw0`, and every state that one of the eight operations yields from
a state that can arise. -/
inductive Reachable (P : Platform σ) (hw0 : Hw σ) : Imu σ → Prop where
  | boot : Reachable P hw0 (bootImu hw0)
  | step (op : FacadeOp) (s : Imu σ) : Reachable P hw0 s → Reachable P hw0 (facade_step P op s)

/-- The facade after process start, `sl_imu_configure 1000` and then `n`
calls of `sl_imu_is_data_ready`, over a register file whose data-ready bit is
set. -/
def polledImu (n : Nat) : Imu RegDev :=
  Nat.iterate (facade_step RegDev.platform FacadeOp.is_data_ready) n
    (sl_imu_configure RegDev.platform 1000 (bootImu (hwOfRegs readyRegs)))

/-! ## A second reference device: the register file split into banks

The specification describes the address space as partitioned into banks,
each giving the same address a register of its own, and the header lists
`0x4F` and `0x50` under the bank-1 registers.  This device keeps one register
file per bank.  The bank-select register `0x76` is reachable in every bank;
its content names the bank that every other address refers to.  The SPI
framing is that of `RegDev`. -/

/-- State of the banked register-file device: `regs b a` is register `a` of
bank `b`, `bank` the content of the bank-select register. -/
structure BankDev where
  regs : Nat → Nat → Fin 256
  bank : Nat
  selected : Bool
  cursor : Option (Bool × Nat)

namespace BankDev

/-- Chip-select edge: any transaction in progress ends. -/
def chipSelect (d : BankDev) (select : Bool) : BankDev :=
  { d with selected := select, cursor := none }

/-- One byte exchange with the banked register file. -/
def exchange (d : BankDev) (tx : Nat) : BankDev × Nat :=
  if d.selected then
    match d.cursor with
    | none => ({ d with cursor := some (decide (128 ≤ tx % 256), tx % 128) }, 0)
    | some (true, a) =>
      ({ d with cursor := some (true, a + 1) }, if a = 0x76 then d.bank else (d.regs d.bank a).val)
    | some (false, a) =>
      if a = 0x76 then ({ d with bank := tx % 256, cursor := some (false, a + 1) }, 0)
      else
        let file := Function.update (d.regs d.bank) a (byte tx)
        ({ d with regs := Function.update d.regs d.bank file, cursor := some (false, a + 1) }, 0)
  else (d, 0)

/-- The banked register file as a platform; time passing does not change
it. -/
def platform : Platform BankDev where
  chipSelect := chipSelect
  exchange := exchange
  sleep := fun d _ => d

/-- A deselected banked register file with the given content and bank 0
selected. -/
def ofRegs (regs : Nat → Nat → Fin 256) : BankDev :=
  { regs := regs, bank := 0, selected := false, cursor := none }

end BankDev

/-- Banked hardware with bank 0 selected whose bank 0 holds `scaledRegs` (in
particular `0x66`, full-scale code 3, at address `0x4F`) and whose other
banks hold zeros; the trace is empty. -/
def bankedHw : Hw BankDev :=
  { dev := BankDev.ofRegs (fun b => if b = 0 then scaledRegs else blankRegs), trace := [] }

/-- The byte that the `GYRO_CONFIG0` read of `sl_icm42688p_gyro_get_resolution`
obtains from `hw`. -/
def gyro_config0_byte (P : Platform σ) (hw : Hw σ) : Nat :=
  ((sl_icm42688p_read_register P ICM42688P_REG_GYRO_CONFIG0 1 hw).2.1).getD 0 0

/-! ## The running `float` sum and mean of a constant sample -/

/-- The value of one component of `sum` after `n` further iterations of
`sum += x` in `float` arithmetic, starting from `acc`. -/
def sum_binary32 (x : ℚ) : Nat → ℚ → ℚ
  | 0, acc => acc
  | n + 1, acc => sum_binary32 x n (binary32 (acc + x))

/-- The value `sum / samples` of the calibration routines for 500 samples
that all have the value `x`: the running `float` sum from 0, divided by 500
in `float` arithmetic. -/
def mean_binary32 (x : ℚ) : ℚ := binary32 (sum_binary32 x 500 0 / 500)

/-- Quotient `n / d` of naturals rounded to the nearest natural, ties to the
even one. -/
def round_half_even_div (n d : Nat) : Nat :=
  if 2 * (n % d) < d then n / d
  else if d < 2 * (n % d) then n / d + 1
  else if (n / d) % 2 = 0 then n / d else n / d + 1

/-- Number of bits by which `s` exceeds 24 bits: 0 below `2^24`, else one more
than for `s / 2`.  The first argument bounds the recursion; `s` itself is
enough. -/
def excess_bits : Nat → Nat → Nat
  | 0, _ => 0
  | fuel + 1, s => if s < 16777216 then 0 else excess_bits fuel (s / 2) + 1

/-- Rounding of a natural number to 24 significant bits, ties to even: the
integer form of `binary32` on a fixed binary grid. -/
def round24 (s : Nat) : Nat :=
  round_half_even_div s (2 ^ excess_bits s s) * 2 ^ excess_bits s s

/-- The running sum of `sum_binary32` counted in units of a fixed power of
two. -/
def sum_round24 (x : Nat) : Nat → Nat → Nat
  | 0, acc => acc
  | n + 1, acc => sum_round24 x n (round24 (acc + x))

/-- A register file whose gyroscope X word is `0x7FFF` (32767, the largest
raw value) and which is zero elsewhere. -/
def maxGyroRegs : Nat → Fin 256 := fun a =>
  if a = 0x25 then 0x7F else if a = 0x26 then 0xFF else 0

/-! ## Bit-level facts used by the transport lemmas -/

theorem or_read_bit_mod (reg : Nat) : ((reg ||| 0x80) % 256) % 128 = reg % 128 := by
  rw [Nat.mod_mod_of_dvd _ (by decide : 128 ∣ 256)]
  apply Nat.eq_of_testBit_eq
  intro i
  have h128 : (128 : Nat) = 2 ^ 7 := by norm_num
  rw [h128, Nat.testBit_mod_two_pow, Nat.testBit_mod_two_pow, Nat.testBit_or,
    Nat.testBit_two_pow]
  by_cases hi : i < 7
  · have : ¬ (7 = i) := by omega
    simp [hi, this]
  · simp [hi]

theorem or_read_bit_ge (reg : Nat) : 128 ≤ (reg ||| 0x80) % 256 := by
  have h : ((reg ||| 0x80) % 256).testBit 7 = true := by
    have h256 : (256 : Nat) = 2 ^ 8 := by norm_num
    have h80 : (0x80 : Nat) = 2 ^ 7 := by norm_num
    rw [h256, h80, Nat.testBit_mod_two_pow, Nat.testBit_or, Nat.testBit_two_pow]
    simp
  exact Nat.testBit_implies_ge h

theorem and_write_mask (reg : Nat) : (reg &&& 0x7F) % 256 = reg % 128 := by
  have h : reg &&& 0x7F = reg % 128 := Nat.and_pow_two_sub_one_eq_mod reg 7
  rw [h]
  exact Nat.mod_eq_of_lt (by omega)

/-! ## The transport on the reference device -/

theorem read_register_loop_regdev (n : Nat) :
    ∀ (hw : Hw RegDev) (a : Nat), hw.dev.selected = true → hw.dev.cursor = some (true, a) →
      (read_register_loop RegDev.platform n hw).1 = burst hw.dev.regs a n ∧
      (read_register_loop RegDev.platform n hw).2.dev.regs = hw.dev.regs := by
  induction n with
  | zero => intro hw a _ _; simp [read_register_loop, burst]
  | succ n ih =>
    intro hw a hs hc
    have step := ih (spi_tx_rx RegDev.platform 0x00 hw).2 (a + 1)
      (by simp [spi_tx_rx, RegDev.platform, RegDev.exchange, hs, hc])
      (by simp [spi_tx_rx, RegDev.platform, RegDev.exchange, hs, hc])
    have hregs : (spi_tx_rx RegDev.platform 0x00 hw).2.dev.regs = hw.dev.regs := by
      simp [spi_tx_rx, RegDev.platform, RegDev.exchange, hs, hc]
    have hval : (spi_tx_rx RegDev.platform 0x00 hw).1 = (hw.dev.regs a).val := by
      simp [spi_tx_rx, RegDev.platform, RegDev.exchange, hs, hc]
    simp only [read_register_loop, burst]
    rw [step.1, step.2, hregs, hval]
    exact ⟨rfl, rfl⟩

theorem read_register_regdev (reg len : Nat) (hw : Hw RegDev) :
    (sl_icm42688p_read_register RegDev.platform reg len hw).2.1
        = burst hw.dev.regs (reg % 128) len ∧
      (sl_icm42688p_read_register RegDev.platform reg len hw).2.2.dev.regs = hw.dev.regs := by
  have h := read_register_loop_regdev len
    (spi_tx_rx RegDev.platform ((reg ||| 0x80) % 256)
      (sl_icm42688p_chip_select_set RegDev.platform true hw)).2
    (reg % 128)
    (by simp [spi_tx_rx, RegDev.platform, RegDev.exchange, RegDev.chipSelect,
          sl_icm42688p_chip_select_set])
    (by simp [spi_tx_rx, RegDev.platform, RegDev.exchange, RegDev.chipSelect,
          sl_icm42688p_chip_select_set, or_read_bit_mod, or_read_bit_ge])
  have e : ∀ h : Hw RegDev,
      (sl_icm42688p_chip_select_set RegDev.platform false h).dev.regs = h.dev.regs :=
    fun _ => rfl
  have e2 : (spi_tx_rx RegDev.platform ((reg ||| 0x80) % 256)
      (sl_icm42688p_chip_select_set RegDev.platform true hw)).2.dev.regs = hw.dev.regs := by
    simp [spi_tx_rx, RegDev.platform, RegDev.exchange, RegDev.chipSelect,
          sl_icm42688p_chip_select_set]
  simp only [sl_icm42688p_read_register, sl_icm42688p_hw_delay_short]
  rw [e, h.1, h.2, e2]
  exact ⟨rfl, rfl⟩

theorem read_register_data (reg len : Nat) (hw : Hw RegDev) :
    (sl_icm42688p_read_register RegDev.platform reg len hw).2.1
      = burst hw.dev.regs (reg % 128) len := (read_register_regdev reg len hw).1

theorem read_register_regs (reg len : Nat) (hw : Hw RegDev) :
    (sl_icm42688p_read_register RegDev.platform reg len hw).2.2.dev.regs = hw.dev.regs :=
  (read_register_regdev reg len hw).2

theorem read_register_status (P : Platform σ) (reg len : Nat) (hw : Hw σ) :
    (sl_icm42688p_read_register P reg len hw).1 = SL_STATUS_OK := rfl

theorem write_register_regs (reg data : Nat) (hw : Hw RegDev) :
    (sl_icm42688p_write_register RegDev.platform reg data hw).2.dev.regs
      = Function.update hw.dev.regs (reg % 128) (byte data) := by
  simp [sl_icm42688p_write_register, spi_tx_rx, RegDev.platform, RegDev.exchange,
    RegDev.chipSelect, sl_icm42688p_hw_delay_short, sl_icm42688p_chip_select_set,
    and_write_mask, byte]
  have h : decide (128 ≤ reg % 128 % 256) = false := by
    simp only [decide_eq_false_iff_not]; omega
  rw [h]

/-! ## Facade: gating of reads (C1) -/

/-- C1: in every lifecycle state other than `IMU_STATE_READY`, on every
platform and device state, `sl_imu_get_acceleration` and `sl_imu_get_gyro`
return the vector (0, 0, 0) and leave facade variables, device and trace
unchanged (no bus transaction); in `IMU_STATE_READY` they return exactly the
vector of the driver's `read_data` and the hardware that call leaves. -/
theorem get_acceleration_gyro_gated (P : Platform σ) (s : Imu σ) :
    (s.IMU_state ≠ IMU_STATE_READY →
      sl_imu_get_acceleration P s = ((0, 0, 0), s) ∧
      sl_imu_get_gyro P s = ((0, 0, 0), s)) ∧
    (s.IMU_state = IMU_STATE_READY →
      sl_imu_get_acceleration P s
        = ((sl_icm42688p_accel_read_data P s.hw).2.1,
           { s with hw := (sl_icm42688p_accel_read_data P s.hw).2.2 }) ∧
      sl_imu_get_gyro P s
        = ((sl_icm42688p_gyro_read_data P s.hw).2.1,
           { s with hw := (sl_icm42688p_gyro_read_data P s.hw).2.2 })) := by
  constructor
  · intro h
    simp [sl_imu_get_acceleration, sl_imu_get_gyro, h]
  · intro h
    simp [sl_imu_get_acceleration, sl_imu_get_gyro, h]

/-- C1 at a concrete input: the facade in state Disabled over a register
file whose data registers are not zero. -/
theorem get_acceleration_gyro_gated_witness :
    sl_imu_get_acceleration RegDev.platform (bootImu (hwOfRegs scaledRegs))
        = ((0, 0, 0), bootImu (hwOfRegs scaledRegs)) ∧
    sl_imu_get_gyro RegDev.platform (bootImu (hwOfRegs scaledRegs))
        = ((0, 0, 0), bootImu (hwOfRegs scaledRegs)) :=
  (get_acceleration_gyro_gated RegDev.platform (bootImu (hwOfRegs scaledRegs))).1 (by decide)

/-! ## Facade: failure handling (C2, C3) -/

theorem sl_imu_init_cleanup_status (P : Platform σ) (st : sl_status_t) (s : Imu σ) :
    (sl_imu_init_cleanup P st s).1 = st := by
  unfold sl_imu_init_cleanup
  split <;> rfl

theorem sl_imu_init_cleanup_failure (P : Platform σ) (st : sl_status_t) (s : Imu σ)
    (h : st ≠ SL_STATUS_OK) :
    (sl_imu_init_cleanup P st s).2
      = { s with hw := (sl_icm42688p_deinit P s.hw).2, IMU_state := IMU_STATE_DISABLED } := by
  simp [sl_imu_init_cleanup, h]

theorem sl_imu_init_cleanup_ok (P : Platform σ) (s : Imu σ) :
    (sl_imu_init_cleanup P SL_STATUS_OK s).2 = s := by
  simp [sl_imu_init_cleanup]

theorem sl_icm42688p_init_status (P : Platform σ) (hw : Hw σ) :
    (sl_icm42688p_init P hw).1
      = if bringup_who P hw = ICM42688P_DEVICE_ID then SL_STATUS_OK
        else SL_STATUS_INITIALIZATION := by
  unfold sl_icm42688p_init bringup_who
  dsimp only
  split_ifs <;> first | rfl | contradiction

theorem sl_imu_init_status (P : Platform σ) (s : Imu σ) :
    (sl_imu_init P s).1
      = if bringup_who P s.hw = ICM42688P_DEVICE_ID then SL_STATUS_OK
        else SL_STATUS_INITIALIZATION := by
  have hd := sl_icm42688p_init_status P s.hw
  unfold sl_imu_init
  by_cases h : bringup_who P s.hw = ICM42688P_DEVICE_ID
  · rw [if_pos h] at hd
    simp [hd, h, sl_imu_init_cleanup_status, sl_icm42688p_get_device_id,
      sl_icm42688p_calibrate_gyro]
  · rw [if_neg h] at hd
    simp [hd, h, sl_imu_init_cleanup_status]

theorem sl_imu_init_failure_state (P : Platform σ) (s : Imu σ)
    (h : (sl_imu_init P s).1 ≠ SL_STATUS_OK) :
    (sl_imu_init P s).2.IMU_state = IMU_STATE_DISABLED := by
  rw [sl_imu_init_status] at h
  have hw : ¬ bringup_who P s.hw = ICM42688P_DEVICE_ID := by
    intro hc; simp [hc] at h
  have hd := sl_icm42688p_init_status P s.hw
  rw [if_neg hw] at hd
  simp [sl_imu_init, hd, sl_imu_init_cleanup]

theorem sl_imu_init_success_state (P : Platform σ) (s : Imu σ)
    (h : (sl_imu_init P s).1 = SL_STATUS_OK) :
    (sl_imu_init P s).2.IMU_state = IMU_STATE_INITIALIZING := by
  rw [sl_imu_init_status] at h
  have hw : bringup_who P s.hw = ICM42688P_DEVICE_ID := by
    by_contra hc; simp [hc] at h
  have hd := sl_icm42688p_init_status P s.hw
  rw [if_pos hw] at hd
  simp [sl_imu_init, hd, sl_imu_init_cleanup, sl_icm42688p_get_device_id,
    sl_icm42688p_calibrate_gyro]

theorem sl_imu_deinit_status (P : Platform σ) (s : Imu σ) :
    (sl_imu_deinit P s).1 = SL_STATUS_OK := rfl

theorem sl_imu_configure_state (P : Platform σ) (r : ℚ) (s : Imu σ) :
    (sl_imu_configure P r s).IMU_state = IMU_STATE_READY := rfl

/-- C2, evaluated where the code departs from it: on a device whose identity
register does not hold `0x47`, `sl_imu_calibrate_gyro` returns
`SL_STATUS_INITIALIZATION` and the lifecycle state on return is
`IMU_STATE_READY`, not `IMU_STATE_DISABLED`. -/
theorem calibrate_gyro_failure_leaves_ready :
    (sl_imu_calibrate_gyro RegDev.platform (bootImu (hwOfRegs blankRegs))).1
        = SL_STATUS_INITIALIZATION ∧
    (sl_imu_calibrate_gyro RegDev.platform (bootImu (hwOfRegs blankRegs))).2.IMU_state
        = IMU_STATE_READY ∧
    IMU_STATE_READY ≠ IMU_STATE_DISABLED := by
  refine ⟨?_, ?_, ?_⟩ <;> decide
theorem lastWrite_write_register (P : Platform σ) (reg data : Nat) (hw : Hw σ) :
    lastWrite (sl_icm42688p_write_register P reg data hw).2.trace
      = some (reg % 128, data % 256) := by
  have h : reg % 128 < 128 := Nat.mod_lt _ (by decide)
  simp [sl_icm42688p_write_register, spi_tx_rx, sl_icm42688p_hw_delay_short,
    sl_icm42688p_chip_select_set, lastWrite, and_write_mask, h]

theorem delay_millisecond_dev (ms : Nat) (hw : Hw RegDev) :
    (sl_sleeptimer_delay_millisecond RegDev.platform ms hw).dev = hw.dev := rfl

theorem bringup_who_regdev (hw : Hw RegDev) :
    bringup_who RegDev.platform hw = (hw.dev.regs 0x75).val := by
  unfold bringup_who
  rw [read_register_data]
  simp [burst, ICM42688P_REG_WHO_AM_I, delay_millisecond_dev, sl_icm42688p_reset,
    sl_icm42688p_spi_init, write_register_regs, ICM42688P_REG_DEVICE_CONFIG]

/-- C3: `sl_imu_init` returns `SL_STATUS_OK` exactly when the byte obtained by
the `WHO_AM_I` read of bring-up is `ICM42688P_DEVICE_ID` (0x47); for every
other byte it returns `SL_STATUS_INITIALIZATION`, the last bus transaction is
the write of the power-down byte 0x24 (accel off, gyro standby, temperature
disabled) to `PWR_MGMT0` (0x4E), and the state is `IMU_STATE_DISABLED`. -/
theorem sl_imu_init_identity_check (P : Platform σ) (s : Imu σ) :
    ((sl_imu_init P s).1 = SL_STATUS_OK ↔ bringup_who P s.hw = 0x47) ∧
    (bringup_who P s.hw ≠ 0x47 →
      (sl_imu_init P s).1 = SL_STATUS_INITIALIZATION ∧
      lastWrite (sl_imu_init P s).2.hw.trace = some (0x4E, 0x24) ∧
      (sl_imu_init P s).2.IMU_state = IMU_STATE_DISABLED) := by
  have hs := sl_imu_init_status P s
  have hid : ICM42688P_DEVICE_ID = 0x47 := rfl
  rw [hid] at hs
  constructor
  · by_cases h : bringup_who P s.hw = 0x47
    · simp [hs, h]
    · simp [hs, h]
  · intro h
    rw [if_neg h] at hs
    have hne : (sl_imu_init P s).1 ≠ SL_STATUS_OK := by rw [hs]; decide
    refine ⟨hs, ?_, sl_imu_init_failure_state P s hne⟩
    have hd := sl_icm42688p_init_status P s.hw
    rw [hid, if_neg h] at hd
    have ht : (sl_imu_init P s).2.hw
        = (sl_icm42688p_deinit P (sl_icm42688p_init P s.hw).2).2 := by
      simp [sl_imu_init, hd, sl_imu_init_cleanup]
    rw [ht]
    unfold sl_icm42688p_deinit
    dsimp only
    rw [lastWrite_write_register]
    rfl

/-- C3 at a concrete input: a register file whose identity register holds 0,
so that bring-up reads 0 instead of 0x47. -/
theorem sl_imu_init_identity_check_witness :
    bringup_who RegDev.platform (hwOfRegs blankRegs) = 0 ∧
    (sl_imu_init RegDev.platform (bootImu (hwOfRegs blankRegs))).1 = SL_STATUS_INITIALIZATION ∧
    lastWrite (sl_imu_init RegDev.platform (bootImu (hwOfRegs blankRegs))).2.hw.trace
      = some (0x4E, 0x24) ∧
    (sl_imu_init RegDev.platform (bootImu (hwOfRegs blankRegs))).2.IMU_state
      = IMU_STATE_DISABLED :=
  ⟨by decide,
    (sl_imu_init_identity_check RegDev.platform (bootImu (hwOfRegs blankRegs))).2 (by decide)⟩

/-! ## Facade: the path to Ready (C4, C5) -/

/-- C4: from every starting state a successful `sl_imu_init` ends in
`IMU_STATE_INITIALIZING`, which is not `IMU_STATE_READY`; if a facade
operation started in a state other than Ready ends in Ready, the operation
is `sl_imu_configure` or `sl_imu_calibrate_gyro`; and the state
`sl_imu_calibrate_gyro` returns is the one its closing call of
`sl_imu_configure` produces. -/
theorem ready_only_via_configure (P : Platform σ) (s : Imu σ) :
    ((sl_imu_init P s).1 = SL_STATUS_OK →
      (sl_imu_init P s).2.IMU_state = IMU_STATE_INITIALIZING ∧
      (sl_imu_init P s).2.IMU_state ≠ IMU_STATE_READY) ∧
    (∀ op : FacadeOp, s.IMU_state ≠ IMU_STATE_READY →
      (facade_step P op s).IMU_state = IMU_STATE_READY →
      (∃ r, op = FacadeOp.configure r) ∨ op = FacadeOp.calibrate_gyro) ∧
    (∃ r s1, (sl_imu_calibrate_gyro P s).2 = sl_imu_configure P r s1) := by
  refine ⟨?_, ?_, ?_⟩
  · intro h
    have hi := sl_imu_init_success_state P s h
    refine ⟨hi, ?_⟩
    rw [hi]; decide
  · intro op hne hr
    cases op with
    | init =>
      exfalso
      by_cases hok : (sl_imu_init P s).1 = SL_STATUS_OK
      · have hi := sl_imu_init_success_state P s hok
        simp only [facade_step] at hr
        rw [hi] at hr
        exact absurd hr (by decide)
      · have hi := sl_imu_init_failure_state P s hok
        simp only [facade_step] at hr
        rw [hi] at hr
        exact absurd hr (by decide)
    | deinit =>
      exfalso
      simp only [facade_step, sl_imu_deinit] at hr
      exact absurd hr (by decide)
    | get_state => exact absurd hr hne
    | configure r => exact Or.inl ⟨r, rfl⟩
    | get_acceleration =>
      exfalso
      simp only [facade_step, sl_imu_get_acceleration, if_pos hne] at hr
      exact hne hr
    | get_gyro =>
      exfalso
      simp only [facade_step, sl_imu_get_gyro, if_pos hne] at hr
      exact hne hr
    | calibrate_gyro => exact Or.inr rfl
    | is_data_ready =>
      exfalso
      simp only [facade_step, sl_imu_is_data_ready, if_pos hne] at hr
      exact hne hr
  · exact ⟨_, _, rfl⟩

/-- C4 at a concrete input: over a register file whose identity register
holds 0x47, `sl_imu_init` succeeds from state Ready and ends in
Initializing. -/
theorem ready_only_via_configure_witness :
    (sl_imu_init RegDev.platform
      { bootImu (hwOfRegs idRegs) with IMU_state := IMU_STATE_READY }).1 = SL_STATUS_OK ∧
    (sl_imu_init RegDev.platform
      { bootImu (hwOfRegs idRegs) with IMU_state := IMU_STATE_READY }).2.IMU_state
        = IMU_STATE_INITIALIZING :=
  ⟨by decide,
    ((ready_only_via_configure RegDev.platform
      { bootImu (hwOfRegs idRegs) with IMU_state := IMU_STATE_READY }).1 (by decide)).1⟩

theorem sl_icm42688p_set_sample_rate_value (P : Platform σ) (x : ℚ) (hw : Hw σ) :
    (sl_icm42688p_set_sample_rate P x hw).1 = if 1000 ≤ x then 1000 else 200 := by
  unfold sl_icm42688p_set_sample_rate
  by_cases h : 1000 ≤ x
  · simp [h, ICM42688P_ODR_CODE_1KHZ]
  · simp [h, ICM42688P_ODR_CODE_1KHZ, ICM42688P_ODR_CODE_200HZ]

/-- C5: for every requested rate `r`, every platform and every starting
state, `sl_imu_configure r` ends in `IMU_STATE_READY` with the stored sample
rate 1000 when `r ≥ 1000` and 200 otherwise; in particular
`sl_imu_configure 1000` ends in Ready with sample rate 1000. -/
theorem sl_imu_configure_ready_rate (P : Platform σ) (r : ℚ) (s : Imu σ) :
    (sl_imu_configure P r s).IMU_state = IMU_STATE_READY ∧
    (sl_imu_configure P r s).sensorsSampleRate = (if r ≥ 1000 then 1000 else 200) ∧
    (sl_imu_configure P 1000 s).IMU_state = IMU_STATE_READY ∧
    (sl_imu_configure P 1000 s).sensorsSampleRate = 1000 := by
  have h : ∀ q : ℚ, (sl_imu_configure P q s).sensorsSampleRate
      = if 1000 ≤ q then 1000 else 200 := by
    intro q
    simp only [sl_imu_configure]
    exact sl_icm42688p_set_sample_rate_value P q _
  refine ⟨rfl, h r, rfl, ?_⟩
  rw [h 1000]
  simp

/-! ## Driver functions on the reference device -/

theorem byte_val (n : Nat) : (byte n).val = n % 256 := rfl

theorem set_bank_regs (bank : Nat) (hw : Hw RegDev) :
    (sl_icm42688p_set_bank RegDev.platform bank hw).2.dev.regs
      = Function.update hw.dev.regs 0x76 (byte (bank &&& 0x07)) := by
  simp [sl_icm42688p_set_bank, write_register_regs, ICM42688P_REG_BANK_SEL]

theorem set_full_scale_accel_regs (fs_code : Nat) (hw : Hw RegDev) :
    (sl_icm42688p_set_full_scale_accel RegDev.platform fs_code hw).2.dev.regs
      = Function.update (Function.update (Function.update hw.dev.regs 0x76 (byte 1))
          0x50 (byte ((((fs_code <<< 5) &&& 0xE0) % 256 ||| 0x06) % 256))) 0x76 (byte 0) := by
  simp [sl_icm42688p_set_full_scale_accel, set_bank_regs, write_register_regs,
    ICM42688P_REG_ACCEL_CONFIG0, ICM42688P_BANK_0, ICM42688P_BANK_1,
    ICM42688P_ACCEL_CONFIG0_SHIFT_FS_SEL, ICM42688P_ACCEL_CONFIG0_MASK_FS_SEL,
    ICM42688P_ODR_CODE_1KHZ, (by decide : (6 : Nat) &&& 15 = 6)]

theorem set_full_scale_gyro_regs (fs_code : Nat) (hw : Hw RegDev) :
    (sl_icm42688p_set_full_scale_gyro RegDev.platform fs_code hw).2.dev.regs
      = Function.update (Function.update (Function.update hw.dev.regs 0x76 (byte 1))
          0x4F (byte ((((fs_code <<< 5) &&& 0xE0) % 256 ||| 0x06) % 256))) 0x76 (byte 0) := by
  simp [sl_icm42688p_set_full_scale_gyro, set_bank_regs, write_register_regs,
    ICM42688P_REG_GYRO_CONFIG0, ICM42688P_BANK_0, ICM42688P_BANK_1,
    ICM42688P_GYRO_CONFIG0_SHIFT_FS_SEL, ICM42688P_GYRO_CONFIG0_MASK_FS_SEL,
    ICM42688P_GYRO_ODR_1KHZ, (by decide : (6 : Nat) &&& 15 = 6)]

theorem accel_set_bandwidth_regs (odr_code : Nat) (hw : Hw RegDev) :
    (sl_icm42688p_accel_set_bandwidth RegDev.platform odr_code hw).2.dev.regs
      = Function.update hw.dev.regs 0x50
          (byte ((((hw.dev.regs 0x50).val &&& 0xFFFFFFF0) ||| (odr_code &&& 0x0F)) % 256)) := by
  simp [sl_icm42688p_accel_set_bandwidth, write_register_regs, read_register_regs,
    read_register_data, burst, ICM42688P_REG_ACCEL_CONFIG0, ICM42688P_ACCEL_ODR_MASK]

theorem gyro_set_bandwidth_regs (odr_code : Nat) (hw : Hw RegDev) :
    (sl_icm42688p_gyro_set_bandwidth RegDev.platform odr_code hw).2.dev.regs
      = Function.update hw.dev.regs 0x4F
          (byte ((((hw.dev.regs 0x4F).val &&& 0xFFFFFFF0) ||| (odr_code &&& 0x0F)) % 256)) := by
  simp [sl_icm42688p_gyro_set_bandwidth, write_register_regs, read_register_regs,
    read_register_data, burst, ICM42688P_REG_GYRO_CONFIG0, ICM42688P_GYRO_ODR_MASK]

theorem masked_write_regs (addr data mask : Nat) (hw : Hw RegDev) :
    (sl_icm42688p_masked_write RegDev.platform addr data mask hw).2.dev.regs
      = Function.update hw.dev.regs (addr % 128)
          (byte ((((hw.dev.regs (addr % 128)).val &&& ((255 - mask % 256) % 256))
            ||| (data &&& mask)) % 256)) := by
  simp [sl_icm42688p_masked_write, write_register_regs, read_register_regs,
    read_register_data, burst, read_register_status]

theorem enable_interrupt_regs_config (b : Bool) (hw : Hw RegDev) (a : Nat)
    (h1 : a ≠ 0x14) (h2 : a ≠ 0x65) :
    (sl_icm42688p_enable_interrupt RegDev.platform b hw).2.dev.regs a = hw.dev.regs a := by
  simp [sl_icm42688p_enable_interrupt, masked_write_regs, write_register_regs,
    ICM42688P_REG_INT_CONFIG, ICM42688P_REG_INT_SOURCE0, Function.update_apply, h1, h2]

theorem read_interrupt_status_regs (p : Ptr) (hw : Hw RegDev) :
    (sl_icm42688p_read_interrupt_status RegDev.platform p hw).2.2.dev.regs = hw.dev.regs := by
  unfold sl_icm42688p_read_interrupt_status
  split
  · rfl
  · simp [read_register_regs]
/-! ## Full-scale programming by `sl_imu_configure` (C6) -/

theorem sl_imu_configure_config_regs (r : ℚ) (s : Imu RegDev) :
    ((sl_imu_configure RegDev.platform r s).hw.dev.regs 0x50).val = 0x06 ∧
    ((sl_imu_configure RegDev.platform r s).hw.dev.regs 0x4F).val = 0x07 := by
  simp only [sl_imu_configure]
  rw [read_interrupt_status_regs,
    enable_interrupt_regs_config _ _ 0x50 (by decide) (by decide),
    enable_interrupt_regs_config _ _ 0x4F (by decide) (by decide),
    delay_millisecond_dev, gyro_set_bandwidth_regs, accel_set_bandwidth_regs,
    set_full_scale_gyro_regs, set_full_scale_accel_regs]
  simp [Function.update_apply, byte_val, ICM42688P_ACCEL_CONFIG0_FS_2G,
    ICM42688P_GYRO_CONFIG0_FS_250DPS, ICM42688P_ACCEL_CONFIG0_SHIFT_FS_SEL,
    ICM42688P_GYRO_CONFIG0_SHIFT_FS_SEL, ICM42688P_ODR_CODE_1KHZ, ICM42688P_GYRO_ODR_200HZ]
  constructor <;> decide

/-- C6, evaluated on the code: for every requested rate and every prior
register content, after `sl_imu_configure` the full-scale field (bits 7:5) of
`ACCEL_CONFIG0` and of `GYRO_CONFIG0` holds code 0 (16 g, 2000 dps), whereas
the 2 g and 250 dps selections are code 3. -/
theorem sl_imu_configure_full_scale_code (r : ℚ) (s : Imu RegDev) :
    fs_field ((sl_imu_configure RegDev.platform r s).hw.dev.regs
      ICM42688P_REG_ACCEL_CONFIG0).val = 0 ∧
    fs_field ((sl_imu_configure RegDev.platform r s).hw.dev.regs
      ICM42688P_REG_GYRO_CONFIG0).val = 0 ∧
    fs_field ICM42688P_ACCEL_CONFIG0_FS_2G = 3 ∧
    fs_field ICM42688P_GYRO_CONFIG0_FS_250DPS = 3 := by
  have h := sl_imu_configure_config_regs r s
  have ha : ICM42688P_REG_ACCEL_CONFIG0 = 0x50 := rfl
  have hg : ICM42688P_REG_GYRO_CONFIG0 = 0x4F := rfl
  rw [ha, hg, h.1, h.2]
  decide

/-! ## Sample-rate setter (C7) -/

set_option maxRecDepth 100000 in
theorem odr_nibble_bytes : ∀ v : Fin 256,
    (((v.val &&& 0xF0) ||| (6 &&& 0x0F)) % 256) % 256 &&& 0x0F = 0x06 ∧
    (((v.val &&& 0xF0) ||| (7 &&& 0x0F)) % 256) % 256 &&& 0x0F = 0x07 ∧
    (((v.val &&& 0xF0) ||| (6 &&& 0x0F)) % 256) % 256 &&& 0xF0 = v.val &&& 0xF0 ∧
    (((v.val &&& 0xF0) ||| (7 &&& 0x0F)) % 256) % 256 &&& 0xF0 = v.val &&& 0xF0 := by
  decide

theorem set_sample_rate_regs (x : ℚ) (hw : Hw RegDev) :
    (sl_icm42688p_set_sample_rate RegDev.platform x hw).2.dev.regs
      = Function.update (Function.update (Function.update
          (Function.update hw.dev.regs 0x76 (byte 1))
          0x4F (byte ((((hw.dev.regs 0x4F).val &&& 0xF0)
            ||| ((if x ≥ 1000 then 0x06 else 0x07) &&& 0x0F)) % 256)))
          0x50 (byte ((((hw.dev.regs 0x50).val &&& 0xF0)
            ||| ((if x ≥ 1000 then 0x06 else 0x07) &&& 0x0F)) % 256)))
          0x76 (byte 0) := by
  simp [sl_icm42688p_set_sample_rate, set_bank_regs, write_register_regs, read_register_regs,
    read_register_data, burst, ICM42688P_REG_GYRO_CONFIG0, ICM42688P_REG_ACCEL_CONFIG0,
    ICM42688P_BANK_0, ICM42688P_BANK_1, ICM42688P_ODR_CODE_1KHZ, ICM42688P_ODR_CODE_200HZ,
    Function.update_apply]

/-- C7: on the register file, for every `x ≥ 1000` the sample-rate setter
returns 1000 and leaves the low nibble of `GYRO_CONFIG0` and of
`ACCEL_CONFIG0` equal to 0x06 with their upper nibbles as before the call;
for every `x < 1000` it returns 200 and leaves the low nibbles equal to 0x07,
upper nibbles as before. -/
theorem set_sample_rate_contract (x : ℚ) (hw : Hw RegDev) :
    (1000 ≤ x →
      (sl_icm42688p_set_sample_rate RegDev.platform x hw).1 = 1000 ∧
      ((sl_icm42688p_set_sample_rate RegDev.platform x hw).2.dev.regs 0x4F).val &&& 0x0F = 0x06 ∧
      ((sl_icm42688p_set_sample_rate RegDev.platform x hw).2.dev.regs 0x50).val &&& 0x0F = 0x06 ∧
      ((sl_icm42688p_set_sample_rate RegDev.platform x hw).2.dev.regs 0x4F).val &&& 0xF0
        = (hw.dev.regs 0x4F).val &&& 0xF0 ∧
      ((sl_icm42688p_set_sample_rate RegDev.platform x hw).2.dev.regs 0x50).val &&& 0xF0
        = (hw.dev.regs 0x50).val &&& 0xF0) ∧
    (x < 1000 →
      (sl_icm42688p_set_sample_rate RegDev.platform x hw).1 = 200 ∧
      ((sl_icm42688p_set_sample_rate RegDev.platform x hw).2.dev.regs 0x4F).val &&& 0x0F = 0x07 ∧
      ((sl_icm42688p_set_sample_rate RegDev.platform x hw).2.dev.regs 0x50).val &&& 0x0F = 0x07 ∧
      ((sl_icm42688p_set_sample_rate RegDev.platform x hw).2.dev.regs 0x4F).val &&& 0xF0
        = (hw.dev.regs 0x4F).val &&& 0xF0 ∧
      ((sl_icm42688p_set_sample_rate RegDev.platform x hw).2.dev.regs 0x50).val &&& 0xF0
        = (hw.dev.regs 0x50).val &&& 0xF0) := by
  have hg := odr_nibble_bytes (hw.dev.regs 0x4F)
  have ha := odr_nibble_bytes (hw.dev.regs 0x50)
  rw [set_sample_rate_regs, sl_icm42688p_set_sample_rate_value]
  simp only [Function.update_apply, byte_val]
  constructor
  · intro h
    have h2 : x ≥ 1000 := h
    simp only [if_pos h, if_pos h2]
    exact ⟨trivial, hg.1, ha.1, hg.2.2.1, ha.2.2.1⟩
  · intro h
    have h1 : ¬ (1000 ≤ x) := not_le.mpr h
    have h2 : ¬ (x ≥ 1000) := h1
    simp only [if_neg h1, if_neg h2]
    exact ⟨trivial, hg.2.1, ha.2.1, hg.2.2.2, ha.2.2.2⟩
/-- C7 at concrete inputs: rates 1000 and 50 on a register file with
`GYRO_CONFIG0 = 0x66` and `ACCEL_CONFIG0 = 0x26`. -/
theorem set_sample_rate_contract_witness :
    ((sl_icm42688p_set_sample_rate RegDev.platform 1000 (hwOfRegs scaledRegs)).1 = 1000 ∧
      ((sl_icm42688p_set_sample_rate RegDev.platform 1000
        (hwOfRegs scaledRegs)).2.dev.regs 0x4F).val &&& 0x0F = 0x06 ∧
      ((sl_icm42688p_set_sample_rate RegDev.platform 1000
        (hwOfRegs scaledRegs)).2.dev.regs 0x50).val &&& 0x0F = 0x06 ∧
      ((sl_icm42688p_set_sample_rate RegDev.platform 1000
        (hwOfRegs scaledRegs)).2.dev.regs 0x4F).val &&& 0xF0
          = ((hwOfRegs scaledRegs).dev.regs 0x4F).val &&& 0xF0 ∧
      ((sl_icm42688p_set_sample_rate RegDev.platform 1000
        (hwOfRegs scaledRegs)).2.dev.regs 0x50).val &&& 0xF0
          = ((hwOfRegs scaledRegs).dev.regs 0x50).val &&& 0xF0) ∧
    ((sl_icm42688p_set_sample_rate RegDev.platform 50 (hwOfRegs scaledRegs)).1 = 200 ∧
      ((sl_icm42688p_set_sample_rate RegDev.platform 50
        (hwOfRegs scaledRegs)).2.dev.regs 0x4F).val &&& 0x0F = 0x07 ∧
      ((sl_icm42688p_set_sample_rate RegDev.platform 50
        (hwOfRegs scaledRegs)).2.dev.regs 0x50).val &&& 0x0F = 0x07 ∧
      ((sl_icm42688p_set_sample_rate RegDev.platform 50
        (hwOfRegs scaledRegs)).2.dev.regs 0x4F).val &&& 0xF0
          = ((hwOfRegs scaledRegs).dev.regs 0x4F).val &&& 0xF0 ∧
      ((sl_icm42688p_set_sample_rate RegDev.platform 50
        (hwOfRegs scaledRegs)).2.dev.regs 0x50).val &&& 0xF0
          = ((hwOfRegs scaledRegs).dev.regs 0x50).val &&& 0xF0) :=
  ⟨(set_sample_rate_contract 1000 (hwOfRegs scaledRegs)).1 (le_refl _),
   (set_sample_rate_contract 50 (hwOfRegs scaledRegs)).2 (by norm_num)⟩

/-! ## Resolution readback after the full-scale setters (C8, C9) -/

theorem accel_get_resolution_regdev (hw : Hw RegDev) :
    (sl_icm42688p_accel_get_resolution RegDev.platform Ptr.valid hw).1 = SL_STATUS_OK ∧
    (sl_icm42688p_accel_get_resolution RegDev.platform Ptr.valid hw).2.1
      = some (match fs_field (hw.dev.regs 0x50).val % 256 with
        | 0 => ICM42688P_ACCEL_SCALE_2G
        | 1 => ICM42688P_ACCEL_SCALE_4G
        | 2 => ICM42688P_ACCEL_SCALE_8G
        | 3 => ICM42688P_ACCEL_SCALE_16G
        | _ => ICM42688P_ACCEL_SCALE_16G) := by
  simp [sl_icm42688p_accel_get_resolution, read_register_status, read_register_data, burst,
    ICM42688P_REG_ACCEL_CONFIG0, ICM42688P_ACCEL_CONFIG0_MASK_FS_SEL,
    ICM42688P_ACCEL_CONFIG0_SHIFT_FS_SEL, fs_field]

theorem gyro_get_resolution_regdev (hw : Hw RegDev) :
    (sl_icm42688p_gyro_get_resolution RegDev.platform Ptr.valid hw).1 = SL_STATUS_OK ∧
    (sl_icm42688p_gyro_get_resolution RegDev.platform Ptr.valid hw).2.1
      = some (match fs_field (hw.dev.regs 0x4F).val % 256 with
        | 0 => ICM42688P_GYRO_SCALE_2000DPS
        | 1 => ICM42688P_GYRO_SCALE_1000DPS
        | 2 => ICM42688P_GYRO_SCALE_500DPS
        | 3 => ICM42688P_GYRO_SCALE_250DPS
        | 4 => ICM42688P_GYRO_SCALE_125DPS
        | 5 => ICM42688P_GYRO_SCALE_62_5DPS
        | 6 => ICM42688P_GYRO_SCALE_31_25DPS
        | 7 => ICM42688P_GYRO_SCALE_15_625DPS
        | _ => ICM42688P_GYRO_SCALE_2000DPS) := by
  simp [sl_icm42688p_gyro_get_resolution, read_register_status, read_register_data, burst,
    ICM42688P_REG_GYRO_CONFIG0, ICM42688P_GYRO_CONFIG0_MASK_FS_SEL,
    ICM42688P_GYRO_CONFIG0_SHIFT_FS_SEL, fs_field]

theorem fs_field_after_set (c : Nat) (h : c < 8) :
    fs_field ((byte ((((c <<< 5) &&& 0xE0) % 256 ||| 0x06) % 256)).val) % 256 = c := by
  interval_cases c <;> decide

/-- The accelerometer round trip as the code performs it: code `c` written by
the setter reads back as the scale the header documents for code `3 - c`. -/
theorem accel_round_trip_inverted (c : Nat) (h : c < 4) (hw : Hw RegDev) :
    (sl_icm42688p_accel_get_resolution RegDev.platform Ptr.valid
      (sl_icm42688p_set_full_scale_accel RegDev.platform c hw).2).2.1
      = some (accel_scale_of_code (3 - c)) := by
  rw [(accel_get_resolution_regdev _).2, set_full_scale_accel_regs]
  simp only [Function.update_apply]
  simp only [show ((0x50 : Nat) = 0x76) = False from by decide, if_false, if_true]
  rw [fs_field_after_set c (by omega)]
  interval_cases c <;>
    simp [accel_scale_of_code, ICM42688P_ACCEL_SCALE_2G, ICM42688P_ACCEL_SCALE_4G,
      ICM42688P_ACCEL_SCALE_8G, ICM42688P_ACCEL_SCALE_16G]

/-- C8, evaluated where the code departs from it: after
`sl_icm42688p_set_full_scale_accel 0` (16 g according to the header) the
resolution readback returns `SL_STATUS_OK` and 2/32768, the 2 g constant,
not 16/32768. -/
theorem accel_round_trip_code_zero :
    (sl_icm42688p_accel_get_resolution RegDev.platform Ptr.valid
      (sl_icm42688p_set_full_scale_accel RegDev.platform 0 (hwOfRegs blankRegs)).2).1
        = SL_STATUS_OK ∧
    (sl_icm42688p_accel_get_resolution RegDev.platform Ptr.valid
      (sl_icm42688p_set_full_scale_accel RegDev.platform 0 (hwOfRegs blankRegs)).2).2.1
        = some (2 / 32768) ∧
    accel_scale_of_code 0 = 16 / 32768 ∧
    (2 / 32768 : ℚ) ≠ 16 / 32768 := by
  refine ⟨(accel_get_resolution_regdev _).1, ?_, rfl, by norm_num⟩
  rw [accel_round_trip_inverted 0 (by decide)]
  simp [accel_scale_of_code]

/-- The gyroscope round trip on the flat register file, where the bank
select has no effect on addressing: for every full-scale code `c` in 0..7,
`sl_icm42688p_set_full_scale_gyro c` followed by
`sl_icm42688p_gyro_get_resolution` returns `SL_STATUS_OK` and the scale
constant of the range that code `c` selects. -/
theorem gyro_round_trip (c : Nat) (h : c < 8) (hw : Hw RegDev) :
    (sl_icm42688p_gyro_get_resolution RegDev.platform Ptr.valid
      (sl_icm42688p_set_full_scale_gyro RegDev.platform c hw).2).1 = SL_STATUS_OK ∧
    (sl_icm42688p_gyro_get_resolution RegDev.platform Ptr.valid
      (sl_icm42688p_set_full_scale_gyro RegDev.platform c hw).2).2.1
      = some (gyro_scale_of_code c) := by
  refine ⟨(gyro_get_resolution_regdev _).1, ?_⟩
  rw [(gyro_get_resolution_regdev _).2, set_full_scale_gyro_regs]
  simp only [Function.update_apply]
  simp only [show ((0x4F : Nat) = 0x76) = False from by decide, if_false, if_true]
  rw [fs_field_after_set c h]
  interval_cases c <;>
    simp [gyro_scale_of_code, ICM42688P_GYRO_SCALE_2000DPS, ICM42688P_GYRO_SCALE_1000DPS,
      ICM42688P_GYRO_SCALE_500DPS, ICM42688P_GYRO_SCALE_250DPS, ICM42688P_GYRO_SCALE_125DPS,
      ICM42688P_GYRO_SCALE_62_5DPS, ICM42688P_GYRO_SCALE_31_25DPS,
      ICM42688P_GYRO_SCALE_15_625DPS]

/-- The flat round trip at a concrete input: code 5 (62.5 dps) on a register
file that held the 250 dps selection before. -/
theorem gyro_round_trip_witness :
    (sl_icm42688p_gyro_get_resolution RegDev.platform Ptr.valid
      (sl_icm42688p_set_full_scale_gyro RegDev.platform 5 (hwOfRegs scaledRegs)).2).1
        = SL_STATUS_OK ∧
    (sl_icm42688p_gyro_get_resolution RegDev.platform Ptr.valid
      (sl_icm42688p_set_full_scale_gyro RegDev.platform 5 (hwOfRegs scaledRegs)).2).2.1
        = some (gyro_scale_of_code 5) :=
  gyro_round_trip 5 (by decide) (hwOfRegs scaledRegs)

theorem gyro_get_resolution_value (P : Platform σ) (hw : Hw σ) :
    (sl_icm42688p_gyro_get_resolution P Ptr.valid hw).1 = SL_STATUS_OK ∧
    (sl_icm42688p_gyro_get_resolution P Ptr.valid hw).2.1
      = some (match fs_field (gyro_config0_byte P hw) % 256 with
        | 0 => ICM42688P_GYRO_SCALE_2000DPS
        | 1 => ICM42688P_GYRO_SCALE_1000DPS
        | 2 => ICM42688P_GYRO_SCALE_500DPS
        | 3 => ICM42688P_GYRO_SCALE_250DPS
        | 4 => ICM42688P_GYRO_SCALE_125DPS
        | 5 => ICM42688P_GYRO_SCALE_62_5DPS
        | 6 => ICM42688P_GYRO_SCALE_31_25DPS
        | 7 => ICM42688P_GYRO_SCALE_15_625DPS
        | _ => ICM42688P_GYRO_SCALE_2000DPS) := by
  simp [sl_icm42688p_gyro_get_resolution, read_register_status, gyro_config0_byte,
    ICM42688P_GYRO_CONFIG0_MASK_FS_SEL, ICM42688P_GYRO_CONFIG0_SHIFT_FS_SEL, fs_field]

/-- The full-scale setter on the banked device, for each code: the byte
lands in bank 1, bank 0 keeps its content, bank 0 is selected again, and a
read of `0x4F` then returns the bank-0 content. -/
theorem banked_set_full_scale_gyro : ∀ c : Fin 8,
    gyro_config0_byte BankDev.platform
      (sl_icm42688p_set_full_scale_gyro BankDev.platform c.val bankedHw).2 = 0x66 ∧
    ((sl_icm42688p_set_full_scale_gyro BankDev.platform c.val bankedHw).2.dev.regs 1 0x4F).val
      = c.val * 32 + 6 ∧
    ((sl_icm42688p_set_full_scale_gyro BankDev.platform c.val bankedHw).2.dev.regs 0 0x4F).val
      = 0x66 ∧
    (sl_icm42688p_set_full_scale_gyro BankDev.platform c.val bankedHw).2.dev.bank = 0 := by
  decide

/-- C9, evaluated where the code departs from it: on the banked device with
bank 0 selected, whose bank-0 register `0x4F` holds `0x66` (full-scale code
3), for every code `c` in 0..7 `sl_icm42688p_set_full_scale_gyro c` followed
by `sl_icm42688p_gyro_get_resolution` returns `SL_STATUS_OK` and 250/32768,
the scale of the code bank 0 held before the call, whatever `c` is.  The
setter selects bank 1, writes the byte `c * 32 + 6` to `0x4F` there and
selects bank 0 again; the readback reads `0x4F` without selecting a bank, so
it reads bank 0, which the setter left untouched.  For every `c` other than
3 the value returned is not the scale of code `c`; for code 5 that scale is
62.5/32768. -/
theorem gyro_round_trip_reads_bank0 :
    bankedHw.dev.bank = 0 ∧ (bankedHw.dev.regs 0 0x4F).val = 0x66 ∧
    (∀ c : Fin 8,
      (sl_icm42688p_gyro_get_resolution BankDev.platform Ptr.valid
        (sl_icm42688p_set_full_scale_gyro BankDev.platform c.val bankedHw).2).1
          = SL_STATUS_OK ∧
      (sl_icm42688p_gyro_get_resolution BankDev.platform Ptr.valid
        (sl_icm42688p_set_full_scale_gyro BankDev.platform c.val bankedHw).2).2.1
          = some (250 / 32768) ∧
      ((sl_icm42688p_set_full_scale_gyro BankDev.platform c.val bankedHw).2.dev.regs 1 0x4F).val
        = c.val * 32 + 6 ∧
      ((sl_icm42688p_set_full_scale_gyro BankDev.platform c.val bankedHw).2.dev.regs 0 0x4F).val
        = 0x66 ∧
      (sl_icm42688p_set_full_scale_gyro BankDev.platform c.val bankedHw).2.dev.bank = 0 ∧
      (c.val ≠ 3 → (250 / 32768 : ℚ) ≠ gyro_scale_of_code c.val)) ∧
    gyro_scale_of_code 5 = 62.5 / 32768 ∧
    (250 / 32768 : ℚ) ≠ 62.5 / 32768 := by
  refine ⟨rfl, by decide, ?_, rfl, by norm_num⟩
  intro c
  have h := banked_set_full_scale_gyro c
  refine ⟨(gyro_get_resolution_value _ _).1, ?_, h.2.1, h.2.2.1, h.2.2.2, ?_⟩
  · rw [(gyro_get_resolution_value _ _).2, h.1]
    simp [fs_field, ICM42688P_GYRO_SCALE_250DPS]
  · fin_cases c <;> simp [gyro_scale_of_code] <;> norm_num

/-! ## Data readout (C10) -/

theorem toInt16_range (n : Nat) : -32768 ≤ toInt16 n ∧ toInt16 n ≤ 32767 := by
  unfold toInt16
  split <;> omega

theorem toInt16_of_lt (n : Nat) (h : n < 32768) : toInt16 n = n := by
  unfold toInt16
  have h1 : n % 65536 = n := Nat.mod_eq_of_lt (by omega)
  rw [h1, if_pos h]

theorem toInt16_of_ge (n : Nat) (h1 : 32768 ≤ n) (h2 : n < 65536) :
    toInt16 n = (n : Int) - 65536 := by
  unfold toInt16
  have h3 : n % 65536 = n := Nat.mod_eq_of_lt h2
  rw [h3, if_neg (by omega)]

theorem accel_read_data_regdev (hw : Hw RegDev) :
    (sl_icm42688p_accel_read_data RegDev.platform hw).2.1
      = ((toInt16 (((hw.dev.regs 0x1F).val <<< 8) ||| (hw.dev.regs 0x20).val) : ℚ) * (16 / 32768),
         (toInt16 (((hw.dev.regs 0x21).val <<< 8) ||| (hw.dev.regs 0x22).val) : ℚ) * (16 / 32768),
         (toInt16 (((hw.dev.regs 0x23).val <<< 8) ||| (hw.dev.regs 0x24).val) : ℚ) * (16 / 32768)) := by
  simp [sl_icm42688p_accel_read_data, read_register_data, burst, raw_word,
    ICM42688P_REG_ACCEL_DATA_X1, ICM42688P_ACCEL_SCALE_16G]

theorem gyro_read_data_regdev (hw : Hw RegDev) :
    (sl_icm42688p_gyro_read_data RegDev.platform hw).2.1
      = ((toInt16 (((hw.dev.regs 0x25).val <<< 8) ||| (hw.dev.regs 0x26).val) : ℚ) * (2000 / 32768),
         (toInt16 (((hw.dev.regs 0x27).val <<< 8) ||| (hw.dev.regs 0x28).val) : ℚ) * (2000 / 32768),
         (toInt16 (((hw.dev.regs 0x29).val <<< 8) ||| (hw.dev.regs 0x2A).val) : ℚ) * (2000 / 32768)) := by
  simp [sl_icm42688p_gyro_read_data, read_register_data, burst, raw_word,
    ICM42688P_REG_GYRO_DATA_X1, ICM42688P_GYRO_SCALE_2000DPS]

/-- C10, evaluated where the code departs from it: with `ACCEL_CONFIG0`
holding full-scale code 1 (8 g) and `GYRO_CONFIG0` holding code 3 (250 dps),
and raw X bytes 0x04, 0x00 for both sensors, `sl_icm42688p_accel_read_data`
returns X = 1/2 (1024 times the 16 g constant) where the configured scale
gives 1/4, and `sl_icm42688p_gyro_read_data` returns X = 125/2 (1024 times the
2000 dps constant) where the configured scale gives 125/16. -/
theorem read_data_ignores_configured_full_scale :
    fs_field (scaledRegs 0x50).val = 1 ∧
    fs_field (scaledRegs 0x4F).val = 3 ∧
    (sl_icm42688p_accel_read_data RegDev.platform (hwOfRegs scaledRegs)).2.1 = (1 / 2, 0, 0) ∧
    (1024 : ℚ) * accel_scale_of_code 1 = 1 / 4 ∧
    (sl_icm42688p_gyro_read_data RegDev.platform (hwOfRegs scaledRegs)).2.1 = (125 / 2, 0, 0) ∧
    (1024 : ℚ) * gyro_scale_of_code 3 = 125 / 16 := by
  refine ⟨by decide, by decide, ?_, by norm_num [accel_scale_of_code], ?_,
    by norm_num [gyro_scale_of_code]⟩
  · rw [accel_read_data_regdev]
    have hx : toInt16 ((((hwOfRegs scaledRegs).dev.regs 0x1F).val <<< 8)
        ||| ((hwOfRegs scaledRegs).dev.regs 0x20).val) = 1024 := by decide
    have hy : toInt16 ((((hwOfRegs scaledRegs).dev.regs 0x21).val <<< 8)
        ||| ((hwOfRegs scaledRegs).dev.regs 0x22).val) = 0 := by decide
    have hz : toInt16 ((((hwOfRegs scaledRegs).dev.regs 0x23).val <<< 8)
        ||| ((hwOfRegs scaledRegs).dev.regs 0x24).val) = 0 := by decide
    rw [hx, hy, hz]
    norm_num
  · rw [gyro_read_data_regdev]
    have hx : toInt16 ((((hwOfRegs scaledRegs).dev.regs 0x25).val <<< 8)
        ||| ((hwOfRegs scaledRegs).dev.regs 0x26).val) = 1024 := by decide
    have hy : toInt16 ((((hwOfRegs scaledRegs).dev.regs 0x27).val <<< 8)
        ||| ((hwOfRegs scaledRegs).dev.regs 0x28).val) = 0 := by decide
    have hz : toInt16 ((((hwOfRegs scaledRegs).dev.regs 0x29).val <<< 8)
        ||| ((hwOfRegs scaledRegs).dev.regs 0x2A).val) = 0 := by decide
    rw [hx, hy, hz]
    norm_num

/-! ## Traces on the reference device -/

theorem read_register_loop_trace (n : Nat) :
    ∀ (hw : Hw RegDev) (a : Nat), hw.dev.selected = true → hw.dev.cursor = some (true, a) →
      (read_register_loop RegDev.platform n hw).2.trace
        = hw.trace ++ (burst hw.dev.regs a n).map (fun b => Event.txrx 0x00 b) := by
  induction n with
  | zero => intro hw a _ _; simp [read_register_loop, burst]
  | succ n ih =>
    intro hw a hs hc
    have step := ih (spi_tx_rx RegDev.platform 0x00 hw).2 (a + 1)
      (by simp [spi_tx_rx, RegDev.platform, RegDev.exchange, hs, hc])
      (by simp [spi_tx_rx, RegDev.platform, RegDev.exchange, hs, hc])
    have hregs : (spi_tx_rx RegDev.platform 0x00 hw).2.dev.regs = hw.dev.regs := by
      simp [spi_tx_rx, RegDev.platform, RegDev.exchange, hs, hc]
    have htr : (spi_tx_rx RegDev.platform 0x00 hw).2.trace
        = hw.trace ++ [Event.txrx 0x00 (hw.dev.regs a).val] := by
      simp [spi_tx_rx, RegDev.platform, RegDev.exchange, hs, hc]
    simp only [read_register_loop, burst]
    rw [step, hregs, htr]
    simp

theorem read_register_trace (reg len : Nat) (hw : Hw RegDev) :
    (sl_icm42688p_read_register RegDev.platform reg len hw).2.2.trace
      = hw.trace ++ read_frame hw.dev.regs reg len := by
  have h := read_register_loop_trace len
    (spi_tx_rx RegDev.platform ((reg ||| 0x80) % 256)
      (sl_icm42688p_chip_select_set RegDev.platform true hw)).2
    (reg % 128)
    (by simp [spi_tx_rx, RegDev.platform, RegDev.exchange, RegDev.chipSelect,
          sl_icm42688p_chip_select_set])
    (by simp [spi_tx_rx, RegDev.platform, RegDev.exchange, RegDev.chipSelect,
          sl_icm42688p_chip_select_set, or_read_bit_mod, or_read_bit_ge])
  have e2 : (spi_tx_rx RegDev.platform ((reg ||| 0x80) % 256)
      (sl_icm42688p_chip_select_set RegDev.platform true hw)).2.dev.regs = hw.dev.regs := by
    simp [spi_tx_rx, RegDev.platform, RegDev.exchange, RegDev.chipSelect,
          sl_icm42688p_chip_select_set]
  have e3 : (spi_tx_rx RegDev.platform ((reg ||| 0x80) % 256)
      (sl_icm42688p_chip_select_set RegDev.platform true hw)).2.trace
        = hw.trace ++ [Event.cs true, Event.txrx ((reg ||| 0x80) % 256) 0] := by
    simp [spi_tx_rx, RegDev.platform, RegDev.exchange, RegDev.chipSelect,
          sl_icm42688p_chip_select_set]
  simp only [sl_icm42688p_read_register, sl_icm42688p_hw_delay_short]
  have e : ∀ h : Hw RegDev,
      (sl_icm42688p_chip_select_set RegDev.platform false h).trace
        = h.trace ++ [Event.cs false] := fun _ => rfl
  rw [e, h, e2, e3]
  simp [read_frame]

theorem write_register_trace (reg data : Nat) (hw : Hw RegDev) :
    (sl_icm42688p_write_register RegDev.platform reg data hw).2.trace
      = hw.trace ++ write_frame reg data := by
  simp [sl_icm42688p_write_register, spi_tx_rx, RegDev.platform, RegDev.exchange,
    RegDev.chipSelect, sl_icm42688p_hw_delay_short, sl_icm42688p_chip_select_set,
    and_write_mask, write_frame]
  have h : decide (128 ≤ reg % 128 % 256) = false := by
    simp only [decide_eq_false_iff_not]; omega
  rw [h]
  rfl

/-! ## Data readout as a function of the register content -/

theorem accel_read_data_vec (hw : Hw RegDev) :
    (sl_icm42688p_accel_read_data RegDev.platform hw).2.1 = accel_vec hw.dev.regs := by
  simp only [sl_icm42688p_accel_read_data, read_register_data, accel_vec,
    ICM42688P_REG_ACCEL_DATA_X1]

theorem gyro_read_data_vec (hw : Hw RegDev) :
    (sl_icm42688p_gyro_read_data RegDev.platform hw).2.1 = gyro_vec hw.dev.regs := by
  simp only [sl_icm42688p_gyro_read_data, read_register_data, gyro_vec,
    ICM42688P_REG_GYRO_DATA_X1]

theorem accel_read_data_hw (hw : Hw RegDev) :
    (sl_icm42688p_accel_read_data RegDev.platform hw).2.2.dev.regs = hw.dev.regs ∧
    (sl_icm42688p_accel_read_data RegDev.platform hw).2.2.trace
      = hw.trace ++ read_frame hw.dev.regs 0x1F 6 := by
  simp only [sl_icm42688p_accel_read_data, read_register_regs, read_register_trace,
    ICM42688P_REG_ACCEL_DATA_X1, and_self]

theorem gyro_read_data_hw (hw : Hw RegDev) :
    (sl_icm42688p_gyro_read_data RegDev.platform hw).2.2.dev.regs = hw.dev.regs ∧
    (sl_icm42688p_gyro_read_data RegDev.platform hw).2.2.trace
      = hw.trace ++ read_frame hw.dev.regs 0x25 6 := by
  simp only [sl_icm42688p_gyro_read_data, read_register_regs, read_register_trace,
    ICM42688P_REG_GYRO_DATA_X1, and_self]

/-! ## binary32 rounding: general facts -/

theorem int_log_two_eq {a : ℚ} {e : ℤ} (h1 : (2 : ℚ) ^ e ≤ a) (h2 : a < (2 : ℚ) ^ (e + 1)) :
    Int.log 2 a = e := by
  have ha : 0 < a := lt_of_lt_of_le (zpow_pos (by norm_num) e) h1
  have hb : 1 < 2 := by norm_num
  apply le_antisymm
  · have h := (Int.lt_zpow_iff_log_lt hb ha).1 (by exact_mod_cast h2)
    omega
  · exact (Int.zpow_le_iff_le_log hb ha).1 (by exact_mod_cast h1)

theorem round_half_even_eq_of_lt {y : ℚ} {m : ℤ} (h : |y - m| < 1 / 2) :
    round_half_even y = m := by
  have h1 := Int.floor_le y
  have h2 := Int.lt_floor_add_one y
  rw [abs_lt] at h
  unfold round_half_even
  split_ifs with c1 c2 c3
  · have a : (m : ℚ) < (⌊y⌋ : ℚ) + 1 := by linarith
    have b : (⌊y⌋ : ℚ) < (m : ℚ) + 1 := by linarith
    have a' : m < ⌊y⌋ + 1 := by exact_mod_cast a
    have b' : ⌊y⌋ < m + 1 := by exact_mod_cast b
    omega
  · have a : (m : ℚ) < (⌊y⌋ : ℚ) + 2 := by linarith
    have b : (⌊y⌋ : ℚ) < (m : ℚ) := by linarith
    have a' : m < ⌊y⌋ + 2 := by exact_mod_cast a
    have b' : ⌊y⌋ < m := by exact_mod_cast b
    omega
  · exfalso
    have e : y - ⌊y⌋ = 1 / 2 := le_antisymm (not_lt.1 c2) (not_lt.1 c1)
    have a : (m : ℚ) < (⌊y⌋ : ℚ) + 1 := by linarith
    have b : (⌊y⌋ : ℚ) < (m : ℚ) := by linarith
    have a' : m < ⌊y⌋ + 1 := by exact_mod_cast a
    have b' : ⌊y⌋ < m := by exact_mod_cast b
    omega
  · exfalso
    have e : y - ⌊y⌋ = 1 / 2 := le_antisymm (not_lt.1 c2) (not_lt.1 c1)
    have a : (m : ℚ) < (⌊y⌋ : ℚ) + 1 := by linarith
    have b : (⌊y⌋ : ℚ) < (m : ℚ) := by linarith
    have a' : m < ⌊y⌋ + 1 := by exact_mod_cast a
    have b' : ⌊y⌋ < m := by exact_mod_cast b
    omega

theorem round_half_even_intCast (m : ℤ) : round_half_even (m : ℚ) = m :=
  round_half_even_eq_of_lt (by simp)

theorem round_half_even_div_eq (n d : Nat) (hd : 0 < d) :
    round_half_even ((n : ℚ) / (d : ℚ)) = (round_half_even_div n d : ℤ) := by
  have hf : ⌊(n : ℚ) / (d : ℚ)⌋ = ((n / d : Nat) : ℤ) := by
    have := Rat.floor_intCast_div_natCast (n : ℤ) d
    simpa using this
  have hdq : (0 : ℚ) < d := by exact_mod_cast hd
  have hfrac : (n : ℚ) / (d : ℚ) - ((n / d : Nat) : ℤ) = ((n % d : Nat) : ℚ) / d := by
    have h := Nat.div_add_mod n d
    have hq : (n : ℚ) = (d : ℚ) * ((n / d : Nat) : ℚ) + ((n % d : Nat) : ℚ) := by
      exact_mod_cast h.symm
    rw [Int.cast_natCast, eq_div_iff hdq.ne', sub_mul, div_mul_cancel₀ _ hdq.ne']
    linarith
  have c1 : ((n % d : Nat) : ℚ) / d < 1 / 2 ↔ 2 * (n % d) < d := by
    rw [div_lt_div_iff₀ hdq (by norm_num)]
    constructor
    · intro h
      have : ((2 * (n % d) : Nat) : ℚ) < (d : ℚ) := by push_cast; linarith
      exact_mod_cast this
    · intro h
      have : ((2 * (n % d) : Nat) : ℚ) < (d : ℚ) := by exact_mod_cast h
      push_cast at this; linarith
  have c2 : 1 / 2 < ((n % d : Nat) : ℚ) / d ↔ d < 2 * (n % d) := by
    rw [div_lt_div_iff₀ (by norm_num) hdq]
    constructor
    · intro h
      have : (d : ℚ) < ((2 * (n % d) : Nat) : ℚ) := by push_cast; linarith
      exact_mod_cast this
    · intro h
      have : (d : ℚ) < ((2 * (n % d) : Nat) : ℚ) := by exact_mod_cast h
      push_cast at this; linarith
  have c3 : ((n / d : Nat) : ℤ) % 2 = 0 ↔ (n / d) % 2 = 0 := by omega
  unfold round_half_even round_half_even_div
  rw [hf, hfrac]
  simp only [c1, c2, c3]
  split_ifs <;> simp

theorem excess_bits_eq (fuel : Nat) : ∀ s, s ≤ fuel → excess_bits fuel s = Nat.log 2 s - 23 := by
  induction fuel with
  | zero =>
    intro s hs
    have : s = 0 := by omega
    subst this
    simp [excess_bits]
  | succ f ih =>
    intro s hs
    unfold excess_bits
    split_ifs with c
    · have : Nat.log 2 s < 24 := by
        by_cases h0 : s = 0
        · subst h0; simp
        · exact Nat.log_lt_of_lt_pow h0 (by norm_num; exact c)
      omega
    · have h2 : 2 ≤ s := by omega
      have hl : Nat.log 2 s = Nat.log 2 (s / 2) + 1 := Nat.log_of_one_lt_of_le (by norm_num) h2
      have hge : 24 ≤ Nat.log 2 s := by
        have : 2 ^ 24 ≤ s := by norm_num; omega
        exact Nat.le_log_of_pow_le (by norm_num) this
      rw [ih (s / 2) (by omega)]
      omega

theorem round24_of_lt (s : Nat) (h : s < 16777216) : round24 s = s := by
  have hl : Nat.log 2 s - 23 = 0 := by
    by_cases h0 : s = 0
    · subst h0; simp
    · have := Nat.log_lt_of_lt_pow h0 (by norm_num; exact h : s < 2 ^ 24)
      omega
  unfold round24
  rw [excess_bits_eq s s le_rfl, hl]
  simp [round_half_even_div, Nat.mod_one]

theorem binary32_magnitude_dyadic (s : Nat) (t : ℤ) :
    binary32_magnitude ((s : ℚ) * 2 ^ t) = (round24 s : ℚ) * 2 ^ t := by
  by_cases h0 : s = 0
  · subst h0
    simp [binary32_magnitude, round24, round_half_even_div, round_half_even]
  have hs : 0 < s := Nat.pos_of_ne_zero h0
  have h2 : (2 : ℚ) ≠ 0 := by norm_num
  have hlo : 2 ^ Nat.log 2 s ≤ s := Nat.pow_log_le_self 2 h0
  have hhi : s < 2 ^ (Nat.log 2 s + 1) := Nat.lt_pow_succ_log_self (by norm_num) s
  have hlog : Int.log 2 ((s : ℚ) * 2 ^ t) = (Nat.log 2 s : ℤ) + t := by
    apply int_log_two_eq
    · rw [zpow_add₀ h2, zpow_natCast]
      apply mul_le_mul_of_nonneg_right _ (zpow_nonneg (by norm_num) t)
      exact_mod_cast hlo
    · rw [show (Nat.log 2 s : ℤ) + t + 1 = ((Nat.log 2 s + 1 : Nat) : ℤ) + t by push_cast; ring,
        zpow_add₀ h2, zpow_natCast]
      apply mul_lt_mul_of_pos_right _ (zpow_pos (by norm_num) t)
      exact_mod_cast hhi
  unfold binary32_magnitude
  rw [hlog]
  by_cases hL : Nat.log 2 s ≤ 23
  · have hq : (s : ℚ) * 2 ^ t / 2 ^ ((Nat.log 2 s : ℤ) + t - 23)
        = (((s * 2 ^ (23 - Nat.log 2 s) : Nat) : ℤ) : ℚ) := by
      rw [show (Nat.log 2 s : ℤ) + t - 23 = t - ((23 - Nat.log 2 s : Nat) : ℤ) by omega,
        zpow_sub₀ h2, zpow_natCast]
      push_cast
      field_simp
      ring
    rw [hq, round_half_even_intCast, round24_of_lt s (by
      have : 2 ^ (Nat.log 2 s + 1) ≤ 2 ^ 24 := Nat.pow_le_pow_right (by norm_num) (by omega)
      norm_num at this
      omega)]
    rw [show (Nat.log 2 s : ℤ) + t - 23 = t - ((23 - Nat.log 2 s : Nat) : ℤ) by omega,
      zpow_sub₀ h2, zpow_natCast]
    push_cast
    field_simp
    ring
  · have hk : excess_bits s s = Nat.log 2 s - 23 := excess_bits_eq s s le_rfl
    have hq : (s : ℚ) * 2 ^ t / 2 ^ ((Nat.log 2 s : ℤ) + t - 23)
        = (s : ℚ) / ((2 ^ (Nat.log 2 s - 23) : Nat) : ℚ) := by
      rw [show (Nat.log 2 s : ℤ) + t - 23 = t + ((Nat.log 2 s - 23 : Nat) : ℤ) by omega,
        zpow_add₀ h2, zpow_natCast]
      push_cast
      field_simp
      ring
    rw [hq, round_half_even_div_eq _ _ (by positivity)]
    unfold round24
    rw [hk, show (Nat.log 2 s : ℤ) + t - 23 = t + ((Nat.log 2 s - 23 : Nat) : ℤ) by omega,
      zpow_add₀ h2, zpow_natCast]
    push_cast
    ring

theorem binary32_dyadic (s : Nat) (t : ℤ) :
    binary32 ((s : ℚ) * 2 ^ t) = (round24 s : ℚ) * 2 ^ t := by
  have h : ¬ ((s : ℚ) * 2 ^ t < 0) := not_lt.2 (by positivity)
  unfold binary32
  rw [if_neg h, binary32_magnitude_dyadic]

theorem binary32_magnitude_zero : binary32_magnitude 0 = 0 := by
  have := binary32_magnitude_dyadic 0 0
  simpa [round24, round_half_even_div] using this

theorem binary32_neg (x : ℚ) : binary32 (-x) = - binary32 x := by
  unfold binary32
  rcases lt_trichotomy x 0 with h | h | h
  · rw [if_neg (by linarith : ¬ (-x < 0)), if_pos h, neg_neg]
  · subst h
    simp [binary32_magnitude_zero]
  · rw [if_pos (by linarith : -x < 0), if_neg (by linarith : ¬ (x < 0)), neg_neg]

theorem binary32_eq_of_near (x : ℚ) (e m : ℤ) (h1 : (2 : ℚ) ^ e ≤ x) (h2 : x < (2 : ℚ) ^ (e + 1))
    (h : |x / 2 ^ (e - 23) - m| < 1 / 2) : binary32 x = (m : ℚ) * 2 ^ (e - 23) := by
  have hx : ¬ (x < 0) := not_lt.2 (le_trans (zpow_nonneg (by norm_num) e) h1)
  unfold binary32 binary32_magnitude
  rw [if_neg hx, int_log_two_eq h1 h2, round_half_even_eq_of_lt h]

theorem binary32_int_dyadic (z : ℤ) (t : ℤ) (h : z.natAbs < 16777216) :
    binary32 ((z : ℚ) * 2 ^ t) = (z : ℚ) * 2 ^ t := by
  obtain ⟨n, rfl | rfl⟩ := Int.eq_nat_or_neg z
  · have := binary32_dyadic n t
    rw [round24_of_lt _ (by simpa using h)] at this
    simpa using this
  · have := binary32_dyadic n t
    rw [round24_of_lt _ (by simpa using h)] at this
    rw [Int.cast_neg, neg_mul, binary32_neg]
    simpa using this

theorem sum_binary32_dyadic (b : Nat) (t : ℤ) (n : Nat) :
    ∀ a : Nat, sum_binary32 ((b : ℚ) * 2 ^ t) n ((a : ℚ) * 2 ^ t)
      = (sum_round24 b n a : ℚ) * 2 ^ t := by
  induction n with
  | zero => intro a; rfl
  | succ n ih =>
    intro a
    simp only [sum_binary32, sum_round24]
    rw [← add_mul, ← Nat.cast_add, binary32_dyadic, ih]

theorem sum_binary32_exact (x : ℚ) (N : Nat) (h : ∀ k, k ≤ N → binary32 ((k : ℚ) * x) = k * x)
    (n : Nat) : ∀ j, j + n ≤ N → sum_binary32 x n ((j : ℚ) * x) = ((j + n : Nat) : ℚ) * x := by
  induction n with
  | zero => intro j _; rfl
  | succ n ih =>
    intro j hj
    simp only [sum_binary32]
    have e : (j : ℚ) * x + x = ((j + 1 : Nat) : ℚ) * x := by push_cast; ring
    rw [e, h (j + 1) (by omega), ih (j + 1) (by omega)]
    congr 2
    omega

set_option maxRecDepth 100000 in
theorem sum_round24_max : sum_round24 4095875 500 0 = 2047936128 := by decide!

theorem mean_binary32_exact (z t : ℤ) (h : z.natAbs * 500 < 16777216) :
    mean_binary32 ((z : ℚ) * 2 ^ t) = (z : ℚ) * 2 ^ t := by
  have hk : ∀ k : Nat, k ≤ 500 →
      binary32 ((k : ℚ) * ((z : ℚ) * 2 ^ t)) = (k : ℚ) * ((z : ℚ) * 2 ^ t) := by
    intro k hk
    have hb : ((k : ℤ) * z).natAbs < 16777216 := by
      rw [Int.natAbs_mul, Int.natAbs_ofNat]
      calc k * z.natAbs ≤ 500 * z.natAbs := Nat.mul_le_mul_right _ hk
        _ < 16777216 := by omega
    have := binary32_int_dyadic ((k : ℤ) * z) t hb
    rw [Int.cast_mul, Int.cast_natCast, mul_assoc] at this
    exact this
  have hs := sum_binary32_exact _ 500 hk 500 0 (le_refl _)
  rw [Nat.cast_zero, zero_mul, Nat.zero_add] at hs
  have h1 := hk 1 (by norm_num)
  rw [Nat.cast_one, one_mul] at h1
  unfold mean_binary32
  rw [hs, Nat.cast_ofNat, mul_div_cancel_left₀ _ (by norm_num : (500 : ℚ) ≠ 0), h1]

theorem mean_binary32_accel (w : ℤ) (h1 : -32768 ≤ w) (h2 : w ≤ 32767) :
    mean_binary32 ((w : ℚ) * ICM42688P_ACCEL_SCALE_16G) = (w : ℚ) * ICM42688P_ACCEL_SCALE_16G := by
  have e : ICM42688P_ACCEL_SCALE_16G = (2 : ℚ) ^ (-11 : ℤ) := by
    norm_num [ICM42688P_ACCEL_SCALE_16G]
  rw [e]
  exact mean_binary32_exact w (-11) (by omega)

theorem mean_binary32_max_gyro : mean_binary32 (4095875 / 2048) = 16383489 / 8192 := by
  have hx : (4095875 / 2048 : ℚ) = ((4095875 : Nat) : ℚ) * 2 ^ (-11 : ℤ) := by norm_num
  have hs := sum_binary32_dyadic 4095875 (-11) 500 0
  rw [sum_round24_max, Nat.cast_zero, zero_mul, ← hx] at hs
  unfold mean_binary32
  rw [hs]
  have h := binary32_eq_of_near (((2047936128 : Nat) : ℚ) * 2 ^ (-11 : ℤ) / 500) 10 16383489
    (by norm_num) (by norm_num) (by rw [abs_lt]; constructor <;> norm_num)
  rw [h]
  norm_num

/-! ## Calibration (C11, C12) -/

theorem calibrate_gyro_loop_regdev (n : Nat) :
    ∀ (sum : ℚ × ℚ × ℚ) (hw : Hw RegDev),
      (calibrate_gyro_loop RegDev.platform n sum hw).1
        = (sum_binary32 (gyro_vec hw.dev.regs).1 n sum.1,
           sum_binary32 (gyro_vec hw.dev.regs).2.1 n sum.2.1,
           sum_binary32 (gyro_vec hw.dev.regs).2.2 n sum.2.2) ∧
      (calibrate_gyro_loop RegDev.platform n sum hw).2.dev.regs = hw.dev.regs ∧
      (calibrate_gyro_loop RegDev.platform n sum hw).2.trace
        = hw.trace ++ (List.replicate n
            (read_frame hw.dev.regs 0x25 6 ++ [Event.delay 2])).flatten := by
  induction n with
  | zero => intro sum hw; simp [calibrate_gyro_loop, sum_binary32]
  | succ n ih =>
    intro sum hw
    have hv := gyro_read_data_vec hw
    have hh := gyro_read_data_hw hw
    have hd : (sl_sleeptimer_delay_millisecond RegDev.platform 2
        (sl_icm42688p_gyro_read_data RegDev.platform hw).2.2).dev.regs = hw.dev.regs := by
      rw [delay_millisecond_dev, hh.1]
    have ht : (sl_sleeptimer_delay_millisecond RegDev.platform 2
        (sl_icm42688p_gyro_read_data RegDev.platform hw).2.2).trace
          = hw.trace ++ (read_frame hw.dev.regs 0x25 6 ++ [Event.delay 2]) := by
      simp only [sl_sleeptimer_delay_millisecond, hh.2, List.append_assoc]
    have step := ih
      (binary32 (sum.1 + (gyro_vec hw.dev.regs).1),
       binary32 (sum.2.1 + (gyro_vec hw.dev.regs).2.1),
       binary32 (sum.2.2 + (gyro_vec hw.dev.regs).2.2))
      (sl_sleeptimer_delay_millisecond RegDev.platform 2
        (sl_icm42688p_gyro_read_data RegDev.platform hw).2.2)
    rw [hd, ht] at step
    simp only [calibrate_gyro_loop]
    rw [hv]
    refine ⟨?_, step.2.1, ?_⟩
    · rw [step.1]
      rfl
    · rw [step.2.2]
      simp [List.replicate_succ]

theorem calibrate_accel_and_gyro_loop_regdev (n : Nat) :
    ∀ (asum gsum : ℚ × ℚ × ℚ) (hw : Hw RegDev),
      (calibrate_accel_and_gyro_loop RegDev.platform n asum gsum hw).1
        = (sum_binary32 (accel_vec hw.dev.regs).1 n asum.1,
           sum_binary32 (accel_vec hw.dev.regs).2.1 n asum.2.1,
           sum_binary32 (accel_vec hw.dev.regs).2.2 n asum.2.2) ∧
      (calibrate_accel_and_gyro_loop RegDev.platform n asum gsum hw).2.1
        = (sum_binary32 (gyro_vec hw.dev.regs).1 n gsum.1,
           sum_binary32 (gyro_vec hw.dev.regs).2.1 n gsum.2.1,
           sum_binary32 (gyro_vec hw.dev.regs).2.2 n gsum.2.2) ∧
      (calibrate_accel_and_gyro_loop RegDev.platform n asum gsum hw).2.2.dev.regs
        = hw.dev.regs ∧
      (calibrate_accel_and_gyro_loop RegDev.platform n asum gsum hw).2.2.trace
        = hw.trace ++ (List.replicate n
            (read_frame hw.dev.regs 0x1F 6 ++ read_frame hw.dev.regs 0x25 6
              ++ [Event.delay 2])).flatten := by
  induction n with
  | zero => intro asum gsum hw; simp [calibrate_accel_and_gyro_loop, sum_binary32]
  | succ n ih =>
    intro asum gsum hw
    have hav := accel_read_data_vec hw
    have hah := accel_read_data_hw hw
    have hgv := gyro_read_data_vec (sl_icm42688p_accel_read_data RegDev.platform hw).2.2
    have hgh := gyro_read_data_hw (sl_icm42688p_accel_read_data RegDev.platform hw).2.2
    rw [hah.1] at hgv
    rw [hah.1, hah.2] at hgh
    have hd : (sl_sleeptimer_delay_millisecond RegDev.platform 2
        (sl_icm42688p_gyro_read_data RegDev.platform
          (sl_icm42688p_accel_read_data RegDev.platform hw).2.2).2.2).dev.regs
          = hw.dev.regs := by
      rw [delay_millisecond_dev, hgh.1]
    have ht : (sl_sleeptimer_delay_millisecond RegDev.platform 2
        (sl_icm42688p_gyro_read_data RegDev.platform
          (sl_icm42688p_accel_read_data RegDev.platform hw).2.2).2.2).trace
          = hw.trace ++ (read_frame hw.dev.regs 0x1F 6 ++ read_frame hw.dev.regs 0x25 6
              ++ [Event.delay 2]) := by
      simp only [sl_sleeptimer_delay_millisecond, hgh.2, List.append_assoc]
    have step := ih
      (binary32 (asum.1 + (accel_vec hw.dev.regs).1),
       binary32 (asum.2.1 + (accel_vec hw.dev.regs).2.1),
       binary32 (asum.2.2 + (accel_vec hw.dev.regs).2.2))
      (binary32 (gsum.1 + (gyro_vec hw.dev.regs).1),
       binary32 (gsum.2.1 + (gyro_vec hw.dev.regs).2.1),
       binary32 (gsum.2.2 + (gyro_vec hw.dev.regs).2.2))
      (sl_sleeptimer_delay_millisecond RegDev.platform 2
        (sl_icm42688p_gyro_read_data RegDev.platform
          (sl_icm42688p_accel_read_data RegDev.platform hw).2.2).2.2)
    rw [hd, ht] at step
    simp only [calibrate_accel_and_gyro_loop]
    rw [hav, hgv]
    refine ⟨?_, ?_, step.2.2.1, ?_⟩
    · rw [step.1]
      rfl
    · rw [step.2.1]
      rfl
    · rw [step.2.2.2]
      simp [List.replicate_succ]

theorem enable_sensor_regs (accel gyro temp : Bool) (hw : Hw RegDev) :
    ∃ v, (sl_icm42688p_enable_sensor RegDev.platform accel gyro temp hw).2.dev.regs
      = Function.update hw.dev.regs 0x4E v := by
  exact ⟨_, write_register_regs ICM42688P_REG_PWR_MGMT0 _ hw⟩

theorem calibrate_accel_and_gyro_setup_regs (hw : Hw RegDev) (a : Nat)
    (h1 : a ≠ 0x4E) (h2 : a ≠ 0x4F) (h3 : a ≠ 0x50) (h4 : a ≠ 0x76) :
    (calibrate_accel_and_gyro_setup RegDev.platform hw).dev.regs a = hw.dev.regs a := by
  simp only [calibrate_accel_and_gyro_setup, delay_millisecond_dev]
  obtain ⟨v1, e1⟩ := enable_sensor_regs false false false hw
  obtain ⟨v2, e2⟩ := enable_sensor_regs true true true
    (sl_icm42688p_gyro_set_bandwidth RegDev.platform ICM42688P_ODR_CODE_200HZ
      (sl_icm42688p_accel_set_bandwidth RegDev.platform ICM42688P_ODR_CODE_200HZ
        (sl_icm42688p_set_sample_rate RegDev.platform 1000
          (sl_icm42688p_set_full_scale_gyro RegDev.platform
            (ICM42688P_GYRO_CONFIG0_FS_250DPS >>> ICM42688P_GYRO_CONFIG0_SHIFT_FS_SEL)
            (sl_icm42688p_set_full_scale_accel RegDev.platform
              (ICM42688P_ACCEL_CONFIG0_FS_2G >>> ICM42688P_ACCEL_CONFIG0_SHIFT_FS_SEL)
              (sl_icm42688p_enable_sensor RegDev.platform false false false
                hw).2).2).2).2).2).2
  rw [e2, gyro_set_bandwidth_regs, accel_set_bandwidth_regs, set_sample_rate_regs,
    set_full_scale_gyro_regs, set_full_scale_accel_regs, e1]
  simp [Function.update_apply, h1, h2, h3, h4]

theorem burst_congr (r1 r2 : Nat → Fin 256) (n : Nat) :
    ∀ a, (∀ i, i < n → r1 (a + i) = r2 (a + i)) → burst r1 a n = burst r2 a n := by
  induction n with
  | zero => intro a _; rfl
  | succ n ih =>
    intro a h
    simp only [burst]
    have h0 := h 0 (by omega)
    rw [Nat.add_zero] at h0
    rw [h0, ih (a + 1) (fun i hi => by
      have := h (i + 1) (by omega)
      rwa [Nat.add_assoc, Nat.add_comm 1 i])]

theorem calibrate_accel_and_gyro_setup_data (hw : Hw RegDev) :
    burst (calibrate_accel_and_gyro_setup RegDev.platform hw).dev.regs 0x1F 6
      = burst hw.dev.regs 0x1F 6 ∧
    burst (calibrate_accel_and_gyro_setup RegDev.platform hw).dev.regs 0x25 6
      = burst hw.dev.regs 0x25 6 := by
  constructor
  · apply burst_congr
    intro i hi
    apply calibrate_accel_and_gyro_setup_regs <;> omega
  · apply burst_congr
    intro i hi
    apply calibrate_accel_and_gyro_setup_regs <;> omega

theorem mean500_eq (x : ℚ) : mean500 x = x := by
  unfold mean500
  rw [List.sum_replicate, nsmul_eq_mul]
  norm_num

theorem calibrate_gyro_regdev (hw : Hw RegDev) :
    (sl_icm42688p_calibrate_gyro RegDev.platform Ptr.valid hw).2.1
      = some (mean_binary32 (gyro_vec hw.dev.regs).1,
          mean_binary32 (gyro_vec hw.dev.regs).2.1,
          mean_binary32 (gyro_vec hw.dev.regs).2.2) ∧
    (sl_icm42688p_calibrate_gyro RegDev.platform Ptr.valid hw).2.2.trace
      = hw.trace ++ (List.replicate 500
          (read_frame hw.dev.regs 0x25 6 ++ [Event.delay 2])).flatten := by
  have h := calibrate_gyro_loop_regdev 500 (0, 0, 0) hw
  simp only [sl_icm42688p_calibrate_gyro, if_neg (by decide : ¬ Ptr.valid = Ptr.null)]
  rw [h.1, h.2.2]
  refine ⟨?_, rfl⟩
  simp only [mean_binary32, Nat.cast_ofNat]

theorem enable_sensor_off_trace (hw : Hw RegDev) :
    (sl_icm42688p_enable_sensor RegDev.platform false false false hw).2.trace
      = hw.trace ++ write_frame 0x4E 0x20 := by
  simp only [sl_icm42688p_enable_sensor, write_register_trace, ICM42688P_REG_PWR_MGMT0]
  rfl

set_option maxRecDepth 10000 in
theorem calibrate_accel_and_gyro_regdev (hw : Hw RegDev) :
    (sl_icm42688p_calibrate_accel_and_gyro RegDev.platform Ptr.valid Ptr.valid hw).2.1
      = some ((mean_binary32 (accel_vec hw.dev.regs).1,
          mean_binary32 (accel_vec hw.dev.regs).2.1,
          if mean_binary32 (accel_vec hw.dev.regs).2.2 > 0
          then binary32 (mean_binary32 (accel_vec hw.dev.regs).2.2 - ICM42688P_ACCEL_SCALE_2G)
          else binary32 (mean_binary32 (accel_vec hw.dev.regs).2.2 + ICM42688P_ACCEL_SCALE_2G)),
        (mean_binary32 (gyro_vec hw.dev.regs).1,
          mean_binary32 (gyro_vec hw.dev.regs).2.1,
          mean_binary32 (gyro_vec hw.dev.regs).2.2)) ∧
    (sl_icm42688p_calibrate_accel_and_gyro RegDev.platform Ptr.valid Ptr.valid hw).2.2.trace
      = (calibrate_accel_and_gyro_setup RegDev.platform hw).trace
        ++ (List.replicate 500
          (read_frame hw.dev.regs 0x1F 6 ++ read_frame hw.dev.regs 0x25 6
            ++ [Event.delay 2])).flatten
        ++ write_frame 0x4E 0x20 := by
  have h := calibrate_accel_and_gyro_loop_regdev 500 (0, 0, 0) (0, 0, 0)
    (calibrate_accel_and_gyro_setup RegDev.platform hw)
  have hd := calibrate_accel_and_gyro_setup_data hw
  have ha : accel_vec (calibrate_accel_and_gyro_setup RegDev.platform hw).dev.regs
      = accel_vec hw.dev.regs := by
    simp only [accel_vec, hd.1]
  have hg : gyro_vec (calibrate_accel_and_gyro_setup RegDev.platform hw).dev.regs
      = gyro_vec hw.dev.regs := by
    simp only [gyro_vec, hd.2]
  have hfa : read_frame (calibrate_accel_and_gyro_setup RegDev.platform hw).dev.regs 0x1F 6
      = read_frame hw.dev.regs 0x1F 6 := by
    simp only [read_frame]
    rw [show (0x1F : Nat) % 128 = 0x1F from rfl, hd.1]
  have hfg : read_frame (calibrate_accel_and_gyro_setup RegDev.platform hw).dev.regs 0x25 6
      = read_frame hw.dev.regs 0x25 6 := by
    simp only [read_frame]
    rw [show (0x25 : Nat) % 128 = 0x25 from rfl, hd.2]
  rw [ha, hg, hfa, hfg] at h
  simp only [calibrate_accel_and_gyro_setup] at h ⊢
  simp only [sl_icm42688p_calibrate_accel_and_gyro,
    if_neg (by decide : ¬ (Ptr.valid = Ptr.null ∨ Ptr.valid = Ptr.null))]
  rw [enable_sensor_off_trace, h.1, h.2.1, h.2.2.2]
  constructor
  · simp only [mean_binary32, Nat.cast_ofNat]
  · rfl

theorem accel_vec_exact (regs : Nat → Fin 256) :
    mean_binary32 (accel_vec regs).1 = (accel_vec regs).1 ∧
    mean_binary32 (accel_vec regs).2.1 = (accel_vec regs).2.1 ∧
    mean_binary32 (accel_vec regs).2.2 = (accel_vec regs).2.2 := by
  simp only [accel_vec, raw_word]
  exact ⟨mean_binary32_accel _ (toInt16_range _).1 (toInt16_range _).2,
    mean_binary32_accel _ (toInt16_range _).1 (toInt16_range _).2,
    mean_binary32_accel _ (toInt16_range _).1 (toInt16_range _).2⟩

/-- C11, at a value where it fails as stated: with the gyroscope X word
constantly `0x7FFF` every scaled sample is 32767 * 2000/32768 = 4095875/2048
(1999.93896484375) and so is the arithmetic mean of 500 of them, but the X
bias `sl_icm42688p_calibrate_gyro` returns with `SL_STATUS_OK` is
16383489/8192 (1999.9376220703125): from the fifth addition on the running
sum needs more than 24 significant bits and is rounded. -/
theorem calibration_mean_rounds :
    (sl_icm42688p_gyro_read_data RegDev.platform (hwOfRegs maxGyroRegs)).2.1
      = (4095875 / 2048, 0, 0) ∧
    mean500 (4095875 / 2048) = 4095875 / 2048 ∧
    (sl_icm42688p_calibrate_gyro RegDev.platform Ptr.valid (hwOfRegs maxGyroRegs)).1
      = SL_STATUS_OK ∧
    (sl_icm42688p_calibrate_gyro RegDev.platform Ptr.valid (hwOfRegs maxGyroRegs)).2.1
      = some (16383489 / 8192, 0, 0) ∧
    (16383489 / 8192 : ℚ) ≠ 4095875 / 2048 := by
  have hg : gyro_vec (hwOfRegs maxGyroRegs).dev.regs = (4095875 / 2048, 0, 0) := by
    rw [← gyro_read_data_vec, gyro_read_data_regdev]
    have hx : toInt16 ((((hwOfRegs maxGyroRegs).dev.regs 0x25).val <<< 8)
        ||| ((hwOfRegs maxGyroRegs).dev.regs 0x26).val) = 32767 := by decide
    have hy : toInt16 ((((hwOfRegs maxGyroRegs).dev.regs 0x27).val <<< 8)
        ||| ((hwOfRegs maxGyroRegs).dev.regs 0x28).val) = 0 := by decide
    have hz : toInt16 ((((hwOfRegs maxGyroRegs).dev.regs 0x29).val <<< 8)
        ||| ((hwOfRegs maxGyroRegs).dev.regs 0x2A).val) = 0 := by decide
    rw [hx, hy, hz]
    norm_num
  have h0 : mean_binary32 0 = 0 := by
    have := mean_binary32_exact 0 0 (by decide)
    simpa using this
  refine ⟨?_, mean500_eq _, rfl, ?_, by norm_num⟩
  · rw [gyro_read_data_vec, hg]
  · rw [(calibrate_gyro_regdev (hwOfRegs maxGyroRegs)).1, hg]
    simp only [mean_binary32_max_gyro, h0]

/-- C11 as amended: on the register file, which returns the same raw data
bytes on every read, `sl_icm42688p_calibrate_gyro` returns `SL_STATUS_OK`,
adds to the trace exactly 500 repetitions of (one burst read of the six
gyroscope data registers, then a 2 ms delay), and each bias component is the
mean the code computes in `float` arithmetic for 500 copies of the scaled
sample that `sl_icm42688p_gyro_read_data` returns: the running binary32 sum
divided by 500.  `sl_icm42688p_calibrate_accel_and_gyro` returns
`SL_STATUS_OK`; after its setup it adds exactly 500 repetitions of
(accelerometer burst read, gyroscope burst read, 2 ms delay) followed by the
closing power-down write; its gyroscope bias is likewise the `float` mean of
the scaled samples, and the X and Y components of its accelerometer bias
equal the scaled samples themselves.  The `float` mean of 500 copies of a
sample equals the sample whenever the sample is `m * 2^t` with
`500 * |m| < 2^24`. -/
theorem calibration_mean_binary32 (hw : Hw RegDev) :
    (sl_icm42688p_calibrate_gyro RegDev.platform Ptr.valid hw).1 = SL_STATUS_OK ∧
    (sl_icm42688p_calibrate_gyro RegDev.platform Ptr.valid hw).2.2.trace
      = hw.trace ++ (List.replicate 500
          (read_frame hw.dev.regs 0x25 6 ++ [Event.delay 2])).flatten ∧
    (sl_icm42688p_calibrate_gyro RegDev.platform Ptr.valid hw).2.1
      = some (mean_binary32 (sl_icm42688p_gyro_read_data RegDev.platform hw).2.1.1,
              mean_binary32 (sl_icm42688p_gyro_read_data RegDev.platform hw).2.1.2.1,
              mean_binary32 (sl_icm42688p_gyro_read_data RegDev.platform hw).2.1.2.2) ∧
    (sl_icm42688p_calibrate_accel_and_gyro RegDev.platform Ptr.valid Ptr.valid hw).1
      = SL_STATUS_OK ∧
    (sl_icm42688p_calibrate_accel_and_gyro RegDev.platform Ptr.valid Ptr.valid hw).2.2.trace
      = (calibrate_accel_and_gyro_setup RegDev.platform hw).trace
        ++ (List.replicate 500
          (read_frame hw.dev.regs 0x1F 6 ++ read_frame hw.dev.regs 0x25 6
            ++ [Event.delay 2])).flatten
        ++ write_frame 0x4E 0x20 ∧
    (∃ z, (sl_icm42688p_calibrate_accel_and_gyro RegDev.platform Ptr.valid Ptr.valid hw).2.1
      = some (((sl_icm42688p_accel_read_data RegDev.platform hw).2.1.1,
               (sl_icm42688p_accel_read_data RegDev.platform hw).2.1.2.1, z),
              (mean_binary32 (sl_icm42688p_gyro_read_data RegDev.platform hw).2.1.1,
               mean_binary32 (sl_icm42688p_gyro_read_data RegDev.platform hw).2.1.2.1,
               mean_binary32 (sl_icm42688p_gyro_read_data RegDev.platform hw).2.1.2.2))) ∧
    (∀ m t : ℤ, m.natAbs * 500 < 16777216 →
      mean_binary32 ((m : ℚ) * 2 ^ t) = (m : ℚ) * 2 ^ t) := by
  have hg := calibrate_gyro_regdev hw
  have hc := calibrate_accel_and_gyro_regdev hw
  have ha := accel_vec_exact hw.dev.regs
  rw [ha.1, ha.2.1] at hc
  rw [gyro_read_data_vec, accel_read_data_vec]
  refine ⟨rfl, hg.2, hg.1, ?_, hc.2, ⟨_, hc.1⟩, mean_binary32_exact⟩
  simp only [sl_icm42688p_calibrate_accel_and_gyro,
    if_neg (by decide : ¬ (Ptr.valid = Ptr.null ∨ Ptr.valid = Ptr.null))]

/-- C11 as amended, at a concrete input: a register file whose gyroscope X
word is 0x0400; the scaled X sample is 1024 times the 2000 dps constant,
62.5, which is 125 * 2^-1 with 500 * 125 below 2^24, and the X bias is that
sample. -/
theorem calibration_mean_binary32_witness :
    (125 : ℤ).natAbs * 500 < 16777216 ∧
    (sl_icm42688p_gyro_read_data RegDev.platform (hwOfRegs restRegs)).2.1 = (125 / 2, 0, 0) ∧
    (sl_icm42688p_calibrate_gyro RegDev.platform Ptr.valid (hwOfRegs restRegs)).2.1
      = some (125 / 2, 0, 0) := by
  have hv : (sl_icm42688p_gyro_read_data RegDev.platform (hwOfRegs restRegs)).2.1
      = (125 / 2, 0, 0) := by
    rw [gyro_read_data_regdev]
    have hx : toInt16 ((((hwOfRegs restRegs).dev.regs 0x25).val <<< 8)
        ||| ((hwOfRegs restRegs).dev.regs 0x26).val) = 1024 := by decide
    have hy : toInt16 ((((hwOfRegs restRegs).dev.regs 0x27).val <<< 8)
        ||| ((hwOfRegs restRegs).dev.regs 0x28).val) = 0 := by decide
    have hz : toInt16 ((((hwOfRegs restRegs).dev.regs 0x29).val <<< 8)
        ||| ((hwOfRegs restRegs).dev.regs 0x2A).val) = 0 := by decide
    rw [hx, hy, hz]
    norm_num
  have hm := (calibration_mean_binary32 (hwOfRegs restRegs)).2.2.2.2.2.2
  have h1 : mean_binary32 (125 / 2) = 125 / 2 := by
    have := hm 125 (-1) (by decide)
    norm_num at this
    exact this
  have h0 : mean_binary32 0 = 0 := by
    have := hm 0 0 (by decide)
    simpa using this
  refine ⟨by decide, hv, ?_⟩
  rw [(calibration_mean_binary32 (hwOfRegs restRegs)).2.2.1, hv]
  simp only [h1, h0]

/-- C12, evaluated where the code departs from it: with a constant
accelerometer Z sample of 1 g (raw 0x0800 at the 16 g scale the readout
applies) the mean is 1 and the returned Z bias is 1 - 2/32768 = 16383/16384:
the code subtracts `ICM42688P_ACCEL_SCALE_2G`, one LSB at the 2 g scale,
where 1 g (16384 LSB at the 2 g scale, the value 1) would give 0.  The X and
Y biases are returned unadjusted. -/
theorem accel_z_bias_correction_is_one_lsb :
    (sl_icm42688p_accel_read_data RegDev.platform (hwOfRegs restRegs)).2.1 = (0, 0, 1) ∧
    (sl_icm42688p_calibrate_accel_and_gyro RegDev.platform Ptr.valid Ptr.valid
      (hwOfRegs restRegs)).2.1 = some ((0, 0, 16383 / 16384), (125 / 2, 0, 0)) ∧
    (1 : ℚ) - 16384 * ICM42688P_ACCEL_SCALE_2G = 0 ∧
    (16383 / 16384 : ℚ) = 1 - ICM42688P_ACCEL_SCALE_2G := by
  have ha : accel_vec (hwOfRegs restRegs).dev.regs = (0, 0, 1) := by
    rw [← accel_read_data_vec, accel_read_data_regdev]
    have hx : toInt16 ((((hwOfRegs restRegs).dev.regs 0x1F).val <<< 8)
        ||| ((hwOfRegs restRegs).dev.regs 0x20).val) = 0 := by decide
    have hy : toInt16 ((((hwOfRegs restRegs).dev.regs 0x21).val <<< 8)
        ||| ((hwOfRegs restRegs).dev.regs 0x22).val) = 0 := by decide
    have hz : toInt16 ((((hwOfRegs restRegs).dev.regs 0x23).val <<< 8)
        ||| ((hwOfRegs restRegs).dev.regs 0x24).val) = 2048 := by decide
    rw [hx, hy, hz]
    norm_num
  have hg : gyro_vec (hwOfRegs restRegs).dev.regs = (125 / 2, 0, 0) := by
    rw [← gyro_read_data_vec, gyro_read_data_regdev]
    have hx : toInt16 ((((hwOfRegs restRegs).dev.regs 0x25).val <<< 8)
        ||| ((hwOfRegs restRegs).dev.regs 0x26).val) = 1024 := by decide
    have hy : toInt16 ((((hwOfRegs restRegs).dev.regs 0x27).val <<< 8)
        ||| ((hwOfRegs restRegs).dev.regs 0x28).val) = 0 := by decide
    have hz : toInt16 ((((hwOfRegs restRegs).dev.regs 0x29).val <<< 8)
        ||| ((hwOfRegs restRegs).dev.regs 0x2A).val) = 0 := by decide
    rw [hx, hy, hz]
    norm_num
  have m0 : mean_binary32 0 = 0 := by
    have := mean_binary32_exact 0 0 (by decide)
    simpa using this
  have m1 : mean_binary32 1 = 1 := by
    have := mean_binary32_exact 1 0 (by decide)
    simpa using this
  have mg : mean_binary32 (125 / 2) = 125 / 2 := by
    have := mean_binary32_exact 125 (-1) (by decide)
    norm_num at this
    exact this
  have hz : binary32 (1 - ICM42688P_ACCEL_SCALE_2G) = 16383 / 16384 := by
    have := binary32_int_dyadic 16383 (-14) (by decide)
    norm_num at this
    rw [show (1 : ℚ) - ICM42688P_ACCEL_SCALE_2G = 16383 / 16384 by
      norm_num [ICM42688P_ACCEL_SCALE_2G]]
    exact this
  refine ⟨?_, ?_, by norm_num [ICM42688P_ACCEL_SCALE_2G],
    by norm_num [ICM42688P_ACCEL_SCALE_2G]⟩
  · rw [accel_read_data_vec, ha]
  · rw [(calibrate_accel_and_gyro_regdev (hwOfRegs restRegs)).1, ha, hg]
    simp only [m0, m1, mg]
    rw [if_pos (by norm_num : (1 : ℚ) > 0), hz]

/-! ## Ready query and its counters (C13, C14) -/

theorem sl_icm42688p_is_data_ready_value (P : Platform σ) (hw : Hw σ) :
    (sl_icm42688p_is_data_ready P hw).1 = decide (int_status0_byte P hw % 2 = 1) := by
  simp only [sl_icm42688p_is_data_ready, int_status0_byte, ICM42688P_INT_STATUS0_DATA_RDY]
  have h : ∀ b : Nat, (b &&& 1 <<< 0 ≠ 0) ↔ b % 2 = 1 := by
    intro b
    have h1 : (1 : Nat) <<< 0 = 1 := rfl
    rw [h1, Nat.and_one_is_mod]
    omega
  exact decide_eq_decide.mpr (h _)

theorem int_status0_byte_regdev (hw : Hw RegDev) :
    int_status0_byte RegDev.platform hw = (hw.dev.regs 0x2D).val := by
  unfold int_status0_byte
  rw [read_register_data]
  simp [burst, ICM42688P_REG_INT_STATUS0]

/-- C13, at the value where it fails as stated: in state Ready with the
total-query counter at 4294967295 (the largest `uint32_t`), one call of
`sl_imu_is_data_ready` leaves the counter at 0, not at 4294967296; the same
happens to the true-count counter when the call returns true. -/
theorem is_data_ready_counter_wraps :
    (readyImu (hwOfRegs readyRegs) 4294967295 4294967295).IMU_state = IMU_STATE_READY ∧
    (sl_imu_is_data_ready RegDev.platform
      (readyImu (hwOfRegs readyRegs) 4294967295 4294967295)).1 = true ∧
    (sl_imu_is_data_ready RegDev.platform
      (readyImu (hwOfRegs readyRegs) 4294967295 4294967295)).2.IMU_isDataReadyQueryCount
        ≠ 4294967295 + 1 ∧
    (sl_imu_is_data_ready RegDev.platform
      (readyImu (hwOfRegs readyRegs) 4294967295 4294967295)).2.IMU_isDataReadyTrueCount
        ≠ 4294967295 + 1 := by
  refine ⟨?_, ?_, ?_, ?_⟩ <;> decide

/-- C13 as amended: in state Ready, on every platform, `sl_imu_is_data_ready`
returns true exactly when bit 0 of the `INT_STATUS0` byte read from the
device is set; the total-query counter becomes its old value plus 1 modulo
2^32, the true-count counter becomes its old value plus 1 modulo 2^32 when
the call returns true and keeps its value when it returns false; below
4294967295 the increments are exactly 1. -/
theorem is_data_ready_counts (P : Platform σ) (s : Imu σ)
    (h : s.IMU_state = IMU_STATE_READY) :
    ((sl_imu_is_data_ready P s).1 = true ↔ int_status0_byte P s.hw % 2 = 1) ∧
    (sl_imu_is_data_ready P s).2.IMU_isDataReadyQueryCount
      = (s.IMU_isDataReadyQueryCount + 1) % 4294967296 ∧
    ((sl_imu_is_data_ready P s).1 = true →
      (sl_imu_is_data_ready P s).2.IMU_isDataReadyTrueCount
        = (s.IMU_isDataReadyTrueCount + 1) % 4294967296) ∧
    ((sl_imu_is_data_ready P s).1 = false →
      (sl_imu_is_data_ready P s).2.IMU_isDataReadyTrueCount = s.IMU_isDataReadyTrueCount) ∧
    (s.IMU_isDataReadyQueryCount < 4294967295 →
      (sl_imu_is_data_ready P s).2.IMU_isDataReadyQueryCount
        = s.IMU_isDataReadyQueryCount + 1) ∧
    (s.IMU_isDataReadyTrueCount < 4294967295 → (sl_imu_is_data_ready P s).1 = true →
      (sl_imu_is_data_ready P s).2.IMU_isDataReadyTrueCount
        = s.IMU_isDataReadyTrueCount + 1) := by
  have hv := sl_icm42688p_is_data_ready_value P s.hw
  have hr : (sl_imu_is_data_ready P s).1 = (sl_icm42688p_is_data_ready P s.hw).1 := by
    simp [sl_imu_is_data_ready, h]
  have hq : (sl_imu_is_data_ready P s).2.IMU_isDataReadyQueryCount
      = (s.IMU_isDataReadyQueryCount + 1) % 4294967296 := by
    simp only [sl_imu_is_data_ready, h, ne_eq, not_true_eq_false, if_false]
    split <;> rfl
  have ht : (sl_imu_is_data_ready P s).1 = true →
      (sl_imu_is_data_ready P s).2.IMU_isDataReadyTrueCount
        = (s.IMU_isDataReadyTrueCount + 1) % 4294967296 := by
    intro h1
    rw [hr] at h1
    simp [sl_imu_is_data_ready, h, h1]
  have hf : (sl_imu_is_data_ready P s).1 = false →
      (sl_imu_is_data_ready P s).2.IMU_isDataReadyTrueCount = s.IMU_isDataReadyTrueCount := by
    intro h1
    rw [hr] at h1
    simp [sl_imu_is_data_ready, h, h1]
  refine ⟨?_, hq, ht, hf, ?_, ?_⟩
  · rw [hr, hv]
    simp
  · intro hlt
    rw [hq]
    exact Nat.mod_eq_of_lt (by omega)
  · intro hlt h1
    rw [ht h1]
    exact Nat.mod_eq_of_lt (by omega)

/-- C13 as amended, at a concrete input: state Ready, counters 41 and 7, a
register file whose data-ready bit is set. -/
theorem is_data_ready_counts_witness :
    (sl_imu_is_data_ready RegDev.platform (readyImu (hwOfRegs readyRegs) 41 7)).1 = true ∧
    (sl_imu_is_data_ready RegDev.platform
      (readyImu (hwOfRegs readyRegs) 41 7)).2.IMU_isDataReadyQueryCount = 42 ∧
    (sl_imu_is_data_ready RegDev.platform
      (readyImu (hwOfRegs readyRegs) 41 7)).2.IMU_isDataReadyTrueCount = 8 := by
  have h := is_data_ready_counts RegDev.platform (readyImu (hwOfRegs readyRegs) 41 7) rfl
  have h1 : (sl_imu_is_data_ready RegDev.platform
      (readyImu (hwOfRegs readyRegs) 41 7)).1 = true := by decide
  exact ⟨h1, h.2.2.2.2.1 (by decide), h.2.2.2.2.2 (by decide) h1⟩

/-- C14: in every state other than `IMU_STATE_READY`, on every platform and
device state, `sl_imu_is_data_ready` returns false and leaves the counters,
the lifecycle state, the device and the trace unchanged (no bus
transaction). -/
theorem is_data_ready_gated (P : Platform σ) (s : Imu σ)
    (h : s.IMU_state ≠ IMU_STATE_READY) :
    sl_imu_is_data_ready P s = (false, s) := by
  simp [sl_imu_is_data_ready, h]

/-- C14 at a concrete input: state Disabled over a register file whose
data-ready bit is set. -/
theorem is_data_ready_gated_witness :
    int_status0_byte RegDev.platform (hwOfRegs readyRegs) % 2 = 1 ∧
    sl_imu_is_data_ready RegDev.platform (bootImu (hwOfRegs readyRegs))
      = (false, bootImu (hwOfRegs readyRegs)) :=
  ⟨by decide, is_data_ready_gated RegDev.platform (bootImu (hwOfRegs readyRegs)) (by decide)⟩

/-! ## Masked write (C15) -/

theorem testBit_byte_complement (mask i : Nat) (hm : mask < 256) (hi : i < 8) :
    (255 - mask).testBit i = !mask.testBit i := by
  have h : 255 - mask = 2 ^ 8 - (mask + 1) := by omega
  rw [h, Nat.testBit_two_pow_sub_succ (by omega)]
  simp [hi]

theorem masked_byte_lt (v data mask : Nat) (hv : v < 256) (hm : mask < 256) :
    (v &&& (255 - mask)) ||| (data &&& mask) < 256 := by
  have h1 : v &&& (255 - mask) < 2 ^ 8 := Nat.lt_of_le_of_lt Nat.and_le_left (by omega)
  have h2 : data &&& mask < 2 ^ 8 := Nat.lt_of_le_of_lt Nat.and_le_right (by omega)
  exact Nat.or_lt_two_pow h1 h2

/-- C15: on the register file, for every address, data byte, mask and prior
register value v, `sl_icm42688p_masked_write` leaves the register that the
address designates (the address itself for 0..127; in general its low seven
bits, bit 7 of the address byte being the read flag of the bus) equal to
(v AND NOT mask) OR (data AND mask), NOT being the complement within eight
bits: each bit inside the mask is the bit of `data`, each bit outside keeps
its prior value; every other register keeps its content. -/
theorem masked_write_contract (addr data mask : Nat) (hw : Hw RegDev) (hm : mask < 256) :
    (addr < 128 → addr % 128 = addr) ∧
    ((sl_icm42688p_masked_write RegDev.platform addr data mask hw).2.dev.regs
        (addr % 128)).val
      = ((hw.dev.regs (addr % 128)).val &&& (255 - mask)) ||| (data &&& mask) ∧
    (∀ i, i < 8 →
      ((sl_icm42688p_masked_write RegDev.platform addr data mask hw).2.dev.regs
          (addr % 128)).val.testBit i
        = if mask.testBit i then data.testBit i
          else (hw.dev.regs (addr % 128)).val.testBit i) ∧
    (∀ b, b ≠ addr % 128 →
      (sl_icm42688p_masked_write RegDev.platform addr data mask hw).2.dev.regs b
        = hw.dev.regs b) := by
  have hmm : mask % 256 = mask := Nat.mod_eq_of_lt hm
  have hc : (255 - mask) % 256 = 255 - mask := Nat.mod_eq_of_lt (by omega)
  have hv : ((sl_icm42688p_masked_write RegDev.platform addr data mask hw).2.dev.regs
        (addr % 128)).val
      = ((hw.dev.regs (addr % 128)).val &&& (255 - mask)) ||| (data &&& mask) := by
    rw [masked_write_regs, hmm, hc, Function.update_same, byte_val, Nat.mod_mod]
    exact Nat.mod_eq_of_lt (masked_byte_lt _ _ _ (hw.dev.regs (addr % 128)).isLt hm)
  refine ⟨Nat.mod_eq_of_lt, hv, ?_, ?_⟩
  · intro i hi
    rw [hv, Nat.testBit_or, Nat.testBit_and, Nat.testBit_and,
      testBit_byte_complement mask i hm hi]
    cases mask.testBit i <;> simp
  · intro b hb
    rw [masked_write_regs, Function.update_noteq hb]

/-- C15 at a concrete input: address 0x65 holding 0xFF, data 0x05, mask
0x0F. -/
theorem masked_write_contract_witness :
    ((sl_icm42688p_masked_write RegDev.platform 0x65 0x05 0x0F
      (hwOfRegs busyRegs)).2.dev.regs 0x65).val = 0xF5 ∧
    (sl_icm42688p_masked_write RegDev.platform 0x65 0x05 0x0F
      (hwOfRegs busyRegs)).2.dev.regs 0x4F = (hwOfRegs busyRegs).dev.regs 0x4F := by
  have h := masked_write_contract 0x65 0x05 0x0F (hwOfRegs busyRegs) (by decide)
  refine ⟨?_, h.2.2.2 0x4F (by decide)⟩
  have h2 := h.2.1
  rw [show (0x65 : Nat) % 128 = 0x65 from rfl] at h2
  rw [h2]
  decide

/-! ## Interrupt enable (C16) -/

theorem byte_mod (n : Nat) : byte (n % 256) = byte n := by
  apply Fin.ext
  simp [byte_val]

theorem enable_interrupt_regs (b : Bool) (hw : Hw RegDev) :
    (sl_icm42688p_enable_interrupt RegDev.platform b hw).2.dev.regs
      = Function.update (Function.update hw.dev.regs 0x14 (byte 0x03)) 0x65
          (byte ((hw.dev.regs 0x65).val &&& 0xF7)) := by
  cases b <;>
    simp [sl_icm42688p_enable_interrupt, masked_write_regs, write_register_regs,
      ICM42688P_REG_INT_CONFIG, ICM42688P_REG_INT_SOURCE0, ICM42688P_INT_STATUS0_DATA_RDY,
      ICM42688P_INT_SOURCE0_UI_DRDY_INT1_EN, Function.update_apply, byte_mod]

set_option maxRecDepth 100000 in
theorem clear_bit3_bytes : ∀ v : Fin 256,
    (v.val &&& 0xF7) % 256 = v.val &&& 0xF7 ∧ (v.val &&& 0xF7).testBit 3 = false ∧
    (v.val &&& 0xF7) &&& 0xF7 = v.val &&& 0xF7 := by
  decide

/-- C16, evaluated on the code: for every prior content of `INT_SOURCE0` and
for the argument true as well as false, `sl_icm42688p_enable_interrupt`
leaves bit 3 (`UI_DRDY_INT1_EN`) of `INT_SOURCE0` clear; the other bits of
`INT_SOURCE0` keep their values and `INT_CONFIG` holds 0x03. The value it
offers to the masked write is `ICM42688P_INT_STATUS0_DATA_RDY` (bit 0), which
has no bit in common with the mask (bit 3). -/
theorem enable_interrupt_never_sets_drdy (b : Bool) (hw : Hw RegDev) :
    ((sl_icm42688p_enable_interrupt RegDev.platform b hw).2.dev.regs
      ICM42688P_REG_INT_SOURCE0).val.testBit 3 = false ∧
    ((sl_icm42688p_enable_interrupt RegDev.platform b hw).2.dev.regs
      ICM42688P_REG_INT_SOURCE0).val &&& 0xF7
        = (hw.dev.regs ICM42688P_REG_INT_SOURCE0).val &&& 0xF7 ∧
    ((sl_icm42688p_enable_interrupt RegDev.platform b hw).2.dev.regs
      ICM42688P_REG_INT_CONFIG).val = 0x03 ∧
    ICM42688P_INT_STATUS0_DATA_RDY &&& ICM42688P_INT_SOURCE0_UI_DRDY_INT1_EN = 0 := by
  have hs : ICM42688P_REG_INT_SOURCE0 = 0x65 := rfl
  have hc : ICM42688P_REG_INT_CONFIG = 0x14 := rfl
  have hb := clear_bit3_bytes (hw.dev.regs 0x65)
  have e65 : ((sl_icm42688p_enable_interrupt RegDev.platform b hw).2.dev.regs 0x65).val
      = (hw.dev.regs 0x65).val &&& 0xF7 := by
    rw [enable_interrupt_regs, Function.update_same, byte_val]
    exact hb.1
  have e14 : ((sl_icm42688p_enable_interrupt RegDev.platform b hw).2.dev.regs 0x14).val
      = 0x03 := by
    rw [enable_interrupt_regs, Function.update_noteq (by decide), Function.update_same]
    rfl
  rw [hs, hc, e65, e14]
  exact ⟨hb.2.1, hb.2.2, rfl, by decide⟩

/-! ## Bank selection around the configuration registers (C17, C18) -/

/-- C17, evaluated on the code with bank 0 selected at entry (register file
of zeros): the transactions of `sl_icm42688p_set_full_scale_accel`,
`sl_icm42688p_set_full_scale_gyro` and `sl_icm42688p_set_sample_rate` reach
`GYRO_CONFIG0` / `ACCEL_CONFIG0` only after selecting bank 1, whereas
`sl_icm42688p_accel_set_bandwidth`, `sl_icm42688p_gyro_set_bandwidth`,
`sl_icm42688p_accel_get_resolution` and `sl_icm42688p_gyro_get_resolution`
access them with bank 0 still selected: they issue no bank-select write at
all. -/
theorem config_access_bank_discipline :
    config_access_in_bank1 0 (accesses
      (sl_icm42688p_set_full_scale_accel RegDev.platform 3 (hwOfRegs blankRegs)).2.trace)
        = true ∧
    config_access_in_bank1 0 (accesses
      (sl_icm42688p_set_full_scale_gyro RegDev.platform 3 (hwOfRegs blankRegs)).2.trace)
        = true ∧
    config_access_in_bank1 0 (accesses
      (sl_icm42688p_set_sample_rate RegDev.platform 1000 (hwOfRegs blankRegs)).2.trace)
        = true ∧
    accesses (sl_icm42688p_accel_set_bandwidth RegDev.platform 0x06
      (hwOfRegs blankRegs)).2.trace = [Access.read 0x50, Access.write 0x50 0x06] ∧
    config_access_in_bank1 0 (accesses
      (sl_icm42688p_accel_set_bandwidth RegDev.platform 0x06 (hwOfRegs blankRegs)).2.trace)
        = false ∧
    accesses (sl_icm42688p_gyro_set_bandwidth RegDev.platform 0x07
      (hwOfRegs blankRegs)).2.trace = [Access.read 0x4F, Access.write 0x4F 0x07] ∧
    config_access_in_bank1 0 (accesses
      (sl_icm42688p_gyro_set_bandwidth RegDev.platform 0x07 (hwOfRegs blankRegs)).2.trace)
        = false ∧
    accesses (sl_icm42688p_accel_get_resolution RegDev.platform Ptr.valid
      (hwOfRegs blankRegs)).2.2.trace = [Access.read 0x50] ∧
    config_access_in_bank1 0 (accesses
      (sl_icm42688p_accel_get_resolution RegDev.platform Ptr.valid
        (hwOfRegs blankRegs)).2.2.trace) = false ∧
    accesses (sl_icm42688p_gyro_get_resolution RegDev.platform Ptr.valid
      (hwOfRegs blankRegs)).2.2.trace = [Access.read 0x4F] ∧
    config_access_in_bank1 0 (accesses
      (sl_icm42688p_gyro_get_resolution RegDev.platform Ptr.valid
        (hwOfRegs blankRegs)).2.2.trace) = false := by
  refine ⟨?_, ?_, ?_, ?_, ?_, ?_, ?_, ?_, ?_, ?_, ?_⟩ <;> decide

theorem lastWrite_set_bank (P : Platform σ) (bank : Nat) (hw : Hw σ) :
    lastWrite (sl_icm42688p_set_bank P bank hw).2.trace = some (0x76, bank &&& 0x07) := by
  unfold sl_icm42688p_set_bank
  dsimp only
  rw [lastWrite_write_register]
  have h : bank &&& 0x07 < 8 := Nat.lt_of_le_of_lt Nat.and_le_right (by decide)
  have h2 : (bank &&& 0x07) % 256 = bank &&& 0x07 := Nat.mod_eq_of_lt (by omega)
  rw [h2]
  rfl

/-- C18: for every argument and every prior content of the register file
(the bank-select register included), on return from
`sl_icm42688p_set_full_scale_accel`, `sl_icm42688p_set_full_scale_gyro` and
`sl_icm42688p_set_sample_rate` the bank-select register (0x76) holds 0, and on
every platform their last bus transaction is the write of 0 to it;
`sl_icm42688p_set_bank b` writes exactly `b AND 0x07` to that register. -/
theorem bank_select_restored (P : Platform σ) (g : Hw σ) (hw : Hw RegDev)
    (fs_code b : Nat) (x : ℚ) :
    ((sl_icm42688p_set_full_scale_accel RegDev.platform fs_code hw).2.dev.regs
      ICM42688P_REG_BANK_SEL).val = 0 ∧
    ((sl_icm42688p_set_full_scale_gyro RegDev.platform fs_code hw).2.dev.regs
      ICM42688P_REG_BANK_SEL).val = 0 ∧
    ((sl_icm42688p_set_sample_rate RegDev.platform x hw).2.dev.regs
      ICM42688P_REG_BANK_SEL).val = 0 ∧
    lastWrite (sl_icm42688p_set_full_scale_accel P fs_code g).2.trace
      = some (ICM42688P_REG_BANK_SEL, 0) ∧
    lastWrite (sl_icm42688p_set_full_scale_gyro P fs_code g).2.trace
      = some (ICM42688P_REG_BANK_SEL, 0) ∧
    lastWrite (sl_icm42688p_set_sample_rate P x g).2.trace
      = some (ICM42688P_REG_BANK_SEL, 0) ∧
    ((sl_icm42688p_set_bank RegDev.platform b hw).2.dev.regs ICM42688P_REG_BANK_SEL).val
      = b &&& 0x07 ∧
    lastWrite (sl_icm42688p_set_bank P b g).2.trace
      = some (ICM42688P_REG_BANK_SEL, b &&& 0x07) := by
  have hb : ICM42688P_REG_BANK_SEL = 0x76 := rfl
  have h7 : b &&& 0x07 < 8 := Nat.lt_of_le_of_lt Nat.and_le_right (by decide)
  rw [hb, set_full_scale_accel_regs, set_full_scale_gyro_regs, set_sample_rate_regs,
    set_bank_regs]
  simp only [Function.update_same, byte_val]
  refine ⟨trivial, trivial, trivial, ?_, ?_, ?_, Nat.mod_eq_of_lt (by omega),
    lastWrite_set_bank P b g⟩
  · simp only [sl_icm42688p_set_full_scale_accel]
    exact lastWrite_set_bank P ICM42688P_BANK_0 _
  · simp only [sl_icm42688p_set_full_scale_gyro]
    exact lastWrite_set_bank P ICM42688P_BANK_0 _
  · simp only [sl_icm42688p_set_sample_rate]
    exact lastWrite_set_bank P ICM42688P_BANK_0 _

/-! ## Power-mode byte (C19) -/

/-- C19: for all booleans `accel`, `gyro`, `temp` and on every platform,
`sl_icm42688p_enable_sensor` ends with one write to `PWR_MGMT0` (0x4E) of a
byte whose bits 1:0 are 3 if `accel` else 0, whose bits 3:2 are 3 if `gyro`
else 0, whose bit 5 is set exactly when `temp` is false and whose bits 4, 6
and 7 are 0; the accelerometer field is never the low-power code 2. -/
theorem enable_sensor_power_byte (P : Platform σ) (hw : Hw σ) (accel gyro temp : Bool) :
    ∃ v, lastWrite (sl_icm42688p_enable_sensor P accel gyro temp hw).2.trace
        = some (ICM42688P_REG_PWR_MGMT0, v) ∧
      v &&& 0x03 = (if accel then 3 else 0) ∧
      (v >>> 2) &&& 0x03 = (if gyro then 3 else 0) ∧
      v.testBit 5 = !temp ∧
      v &&& 0xD0 = 0 ∧
      v &&& 0x03 ≠ ICM42688P_PWR_MGMT0_ACCEL_MODE_LOWPOWER := by
  cases accel <;> cases gyro <;> cases temp <;>
    exact ⟨_, by
      unfold sl_icm42688p_enable_sensor
      dsimp only
      rw [lastWrite_write_register]
      rfl, by decide, by decide, by decide, by decide, by decide⟩

/-! ## Null output pointers (C20) -/

/-- C20: called with a null output pointer, `sl_icm42688p_read_temperature`,
`sl_icm42688p_read_interrupt_status`, `sl_icm42688p_calibrate_gyro` and
`sl_icm42688p_calibrate_accel_and_gyro` (either pointer null, whatever the
other) return `SL_STATUS_INVALID_PARAMETER`, store nothing, and leave device
and trace unchanged: no bus transaction, no delay, no register change. -/
theorem null_pointer_rejected (P : Platform σ) (hw : Hw σ) (p : Ptr) :
    sl_icm42688p_read_temperature P Ptr.null hw = (SL_STATUS_INVALID_PARAMETER, none, hw) ∧
    sl_icm42688p_read_interrupt_status P Ptr.null hw
      = (SL_STATUS_INVALID_PARAMETER, none, hw) ∧
    sl_icm42688p_calibrate_gyro P Ptr.null hw = (SL_STATUS_INVALID_PARAMETER, none, hw) ∧
    sl_icm42688p_calibrate_accel_and_gyro P Ptr.null p hw
      = (SL_STATUS_INVALID_PARAMETER, none, hw) ∧
    sl_icm42688p_calibrate_accel_and_gyro P p Ptr.null hw
      = (SL_STATUS_INVALID_PARAMETER, none, hw) := by
  refine ⟨?_, ?_, ?_, ?_, ?_⟩
  · simp [sl_icm42688p_read_temperature]
  · simp [sl_icm42688p_read_interrupt_status]
  · simp [sl_icm42688p_calibrate_gyro]
  · simp [sl_icm42688p_calibrate_accel_and_gyro]
  · simp [sl_icm42688p_calibrate_accel_and_gyro]

/-! ## Register content after `sl_imu_configure` -/

theorem enable_sensor_on_regs (hw : Hw RegDev) :
    (sl_icm42688p_enable_sensor RegDev.platform true true false hw).2.dev.regs
      = Function.update hw.dev.regs 0x4E (byte 0x2F) := by
  simp only [sl_icm42688p_enable_sensor, write_register_regs, ICM42688P_REG_PWR_MGMT0]
  rfl

theorem sl_imu_configure_regs (r : ℚ) (s : Imu RegDev) :
    (sl_imu_configure RegDev.platform r s).hw.dev.regs
      = Function.update (Function.update (Function.update (Function.update
          (Function.update (Function.update s.hw.dev.regs
            0x4E (byte 0x2F)) 0x76 (byte 0x00)) 0x50 (byte 0x06)) 0x4F (byte 0x07))
            0x14 (byte 0x03)) 0x65 (byte ((s.hw.dev.regs 0x65).val &&& 0xF7)) := by
  funext a
  simp only [sl_imu_configure]
  rw [read_interrupt_status_regs, enable_interrupt_regs, delay_millisecond_dev,
    gyro_set_bandwidth_regs, accel_set_bandwidth_regs, set_full_scale_gyro_regs,
    set_full_scale_accel_regs, set_sample_rate_regs, enable_sensor_on_regs]
  by_cases h65 : a = 0x65
  · subst h65
    simp [Function.update_apply]
  · by_cases h14 : a = 0x14
    · subst h14
      simp [Function.update_apply]
    · by_cases h4F : a = 0x4F
      · subst h4F
        simp [Function.update_apply, ICM42688P_GYRO_CONFIG0_FS_250DPS,
          ICM42688P_GYRO_CONFIG0_SHIFT_FS_SEL, ICM42688P_GYRO_ODR_200HZ, byte_val]
        decide
      · by_cases h50 : a = 0x50
        · subst h50
          simp [Function.update_apply, ICM42688P_ACCEL_CONFIG0_FS_2G,
            ICM42688P_ACCEL_CONFIG0_SHIFT_FS_SEL, ICM42688P_ODR_CODE_1KHZ, byte_val]
          decide
        · by_cases h76 : a = 0x76
          · subst h76
            simp [Function.update_apply]
          · simp [Function.update_apply, h65, h14, h4F, h50, h76]

/-! ## Counters and sample rate across the facade operations (C21, C22) -/

theorem sl_imu_init_frame (P : Platform σ) (s : Imu σ) :
    (sl_imu_init P s).2.sensorsSampleRate = s.sensorsSampleRate ∧
    (sl_imu_init P s).2.IMU_isDataReadyQueryCount = s.IMU_isDataReadyQueryCount ∧
    (sl_imu_init P s).2.IMU_isDataReadyTrueCount = s.IMU_isDataReadyTrueCount := by
  unfold sl_imu_init sl_imu_init_cleanup
  dsimp only
  split_ifs <;> exact ⟨rfl, rfl, rfl⟩

theorem sl_imu_deinit_frame (P : Platform σ) (s : Imu σ) :
    (sl_imu_deinit P s).2.sensorsSampleRate = s.sensorsSampleRate ∧
    (sl_imu_deinit P s).2.IMU_isDataReadyQueryCount = s.IMU_isDataReadyQueryCount ∧
    (sl_imu_deinit P s).2.IMU_isDataReadyTrueCount = s.IMU_isDataReadyTrueCount :=
  ⟨rfl, rfl, rfl⟩

theorem sl_imu_configure_frame (P : Platform σ) (r : ℚ) (s : Imu σ) :
    (sl_imu_configure P r s).sensorsSampleRate = (if 1000 ≤ r then 1000 else 200) ∧
    (sl_imu_configure P r s).IMU_isDataReadyQueryCount = s.IMU_isDataReadyQueryCount ∧
    (sl_imu_configure P r s).IMU_isDataReadyTrueCount = s.IMU_isDataReadyTrueCount := by
  refine ⟨?_, rfl, rfl⟩
  simp only [sl_imu_configure]
  exact sl_icm42688p_set_sample_rate_value P r _

theorem sl_imu_calibrate_gyro_frame (P : Platform σ) (s : Imu σ) :
    (sl_imu_calibrate_gyro P s).2.sensorsSampleRate
      = (if 1000 ≤ s.sensorsSampleRate then 1000 else 200) ∧
    (sl_imu_calibrate_gyro P s).2.IMU_isDataReadyQueryCount = s.IMU_isDataReadyQueryCount ∧
    (sl_imu_calibrate_gyro P s).2.IMU_isDataReadyTrueCount = s.IMU_isDataReadyTrueCount := by
  have hi := sl_imu_init_frame P
    (sl_imu_deinit P { s with hw := (sl_icm42688p_enable_interrupt P false s.hw).2 }).2
  have hc := sl_imu_configure_frame P
    (sl_imu_init P
      (sl_imu_deinit P { s with hw := (sl_icm42688p_enable_interrupt P false s.hw).2 }).2
      ).2.sensorsSampleRate
    (sl_imu_init P
      (sl_imu_deinit P { s with hw := (sl_icm42688p_enable_interrupt P false s.hw).2 }).2).2
  simp only [sl_imu_calibrate_gyro]
  rw [hc.1, hc.2.1, hc.2.2, hi.1, hi.2.1, hi.2.2]
  exact ⟨rfl, rfl, rfl⟩

theorem sl_imu_is_data_ready_counters (P : Platform σ) (s : Imu σ) :
    ((sl_imu_is_data_ready P s).2.IMU_isDataReadyQueryCount = s.IMU_isDataReadyQueryCount ∨
      (sl_imu_is_data_ready P s).2.IMU_isDataReadyQueryCount
        = (s.IMU_isDataReadyQueryCount + 1) % 4294967296) ∧
    ((sl_imu_is_data_ready P s).2.IMU_isDataReadyTrueCount = s.IMU_isDataReadyTrueCount ∨
      (sl_imu_is_data_ready P s).2.IMU_isDataReadyTrueCount
        = (s.IMU_isDataReadyTrueCount + 1) % 4294967296) := by
  unfold sl_imu_is_data_ready
  dsimp only
  split_ifs
  · exact ⟨Or.inl rfl, Or.inl rfl⟩
  · exact ⟨Or.inr rfl, Or.inr rfl⟩
  · exact ⟨Or.inr rfl, Or.inl rfl⟩

theorem sl_imu_is_data_ready_step (s : Imu RegDev) (h : s.IMU_state = IMU_STATE_READY)
    (hb : (s.hw.dev.regs 0x2D).val % 2 = 1) :
    (sl_imu_is_data_ready RegDev.platform s).2.IMU_state = IMU_STATE_READY ∧
    (sl_imu_is_data_ready RegDev.platform s).2.hw.dev.regs = s.hw.dev.regs ∧
    (sl_imu_is_data_ready RegDev.platform s).2.IMU_isDataReadyQueryCount
      = (s.IMU_isDataReadyQueryCount + 1) % 4294967296 ∧
    (sl_imu_is_data_ready RegDev.platform s).2.IMU_isDataReadyTrueCount
      = (s.IMU_isDataReadyTrueCount + 1) % 4294967296 := by
  have hv : (sl_icm42688p_is_data_ready RegDev.platform s.hw).1 = true := by
    rw [sl_icm42688p_is_data_ready_value, int_status0_byte_regdev]
    exact decide_eq_true hb
  have hr : (sl_icm42688p_is_data_ready RegDev.platform s.hw).2.dev.regs = s.hw.dev.regs := by
    simp only [sl_icm42688p_is_data_ready, read_register_regs]
  have e : sl_imu_is_data_ready RegDev.platform s
      = (true,
          { s with
            hw := (sl_icm42688p_is_data_ready RegDev.platform s.hw).2
            IMU_isDataReadyQueryCount := (s.IMU_isDataReadyQueryCount + 1) % 4294967296
            IMU_isDataReadyTrueCount := (s.IMU_isDataReadyTrueCount + 1) % 4294967296 }) := by
    simp only [sl_imu_is_data_ready, h, ne_eq, not_true_eq_false, if_false, hv, if_true]
  rw [e]
  exact ⟨h, hr, rfl, rfl⟩

theorem reachable_iterate (P : Platform σ) (hw0 : Hw σ) (op : FacadeOp) (n : Nat) :
    ∀ s, Reachable P hw0 s → Reachable P hw0 (Nat.iterate (facade_step P op) n s) := by
  induction n with
  | zero => intro s h; exact h
  | succ n ih =>
    intro s h
    rw [Function.iterate_succ_apply']
    exact Reachable.step op _ (ih s h)

theorem polledImu_state (n : Nat) :
    (polledImu n).IMU_state = IMU_STATE_READY ∧
    ((polledImu n).hw.dev.regs 0x2D).val % 2 = 1 ∧
    (polledImu n).IMU_isDataReadyQueryCount = n % 4294967296 ∧
    (polledImu n).IMU_isDataReadyTrueCount = n % 4294967296 := by
  induction n with
  | zero =>
    refine ⟨rfl, ?_, rfl, rfl⟩
    have h : (polledImu 0).hw.dev.regs
        = (sl_imu_configure RegDev.platform 1000 (bootImu (hwOfRegs readyRegs))).hw.dev.regs :=
      rfl
    rw [h, sl_imu_configure_regs]
    decide
  | succ n ih =>
    have e : polledImu (n + 1)
        = (sl_imu_is_data_ready RegDev.platform (polledImu n)).2 := by
      unfold polledImu
      rw [Function.iterate_succ_apply']
      rfl
    have hs := sl_imu_is_data_ready_step (polledImu n) ih.1 ih.2.1
    rw [e, hs.1, hs.2.1, hs.2.2.1, hs.2.2.2, ih.2.2.1, ih.2.2.2]
    refine ⟨rfl, ih.2.1, ?_, ?_⟩ <;> omega

theorem polledImu_reachable (n : Nat) :
    Reachable RegDev.platform (hwOfRegs readyRegs) (polledImu n) :=
  reachable_iterate RegDev.platform (hwOfRegs readyRegs) FacadeOp.is_data_ready n _
    (Reachable.step (FacadeOp.configure 1000) _ Reachable.boot)

theorem polledImu_next (n : Nat) :
    (facade_step RegDev.platform FacadeOp.is_data_ready (polledImu n)).IMU_isDataReadyQueryCount
      = (n % 4294967296 + 1) % 4294967296 ∧
    (facade_step RegDev.platform FacadeOp.is_data_ready (polledImu n)).IMU_isDataReadyTrueCount
      = (n % 4294967296 + 1) % 4294967296 := by
  have h := polledImu_state n
  have hs := sl_imu_is_data_ready_step (polledImu n) h.1 h.2.1
  simp only [facade_step]
  rw [hs.2.2.1, hs.2.2.2, h.2.2.1, h.2.2.2]
  exact ⟨rfl, rfl⟩

theorem polledImu_wrap (n : Nat) (hn : n % 4294967296 = 4294967295) :
    Reachable RegDev.platform (hwOfRegs readyRegs) (polledImu n) ∧
    (polledImu n).IMU_isDataReadyQueryCount = 4294967295 ∧
    (polledImu n).IMU_isDataReadyTrueCount = 4294967295 ∧
    (facade_step RegDev.platform FacadeOp.is_data_ready
      (polledImu n)).IMU_isDataReadyQueryCount = 0 ∧
    (facade_step RegDev.platform FacadeOp.is_data_ready
      (polledImu n)).IMU_isDataReadyTrueCount = 0 ∧
    (facade_step RegDev.platform FacadeOp.is_data_ready
      (polledImu n)).IMU_isDataReadyQueryCount < (polledImu n).IMU_isDataReadyQueryCount ∧
    (facade_step RegDev.platform FacadeOp.is_data_ready
      (polledImu n)).IMU_isDataReadyTrueCount < (polledImu n).IMU_isDataReadyTrueCount := by
  have h := polledImu_state n
  have hx := polledImu_next n
  rw [hn] at h hx
  rw [hx.1, hx.2, h.2.2.1, h.2.2.2]
  exact ⟨polledImu_reachable n, rfl, rfl, by decide, by decide, by decide, by decide⟩

/-- C21, at the state where it fails as stated: the facade state reached
from process start by `sl_imu_configure 1000` and 4294967295 calls of
`sl_imu_is_data_ready` over a device whose data-ready bit is set has both
counters at 4294967295; one more `sl_imu_is_data_ready` leaves both at 0,
smaller than before. -/
theorem counters_wrap_after_max :
    Reachable RegDev.platform (hwOfRegs readyRegs) (polledImu 4294967295) ∧
    (polledImu 4294967295).IMU_isDataReadyQueryCount = 4294967295 ∧
    (polledImu 4294967295).IMU_isDataReadyTrueCount = 4294967295 ∧
    (facade_step RegDev.platform FacadeOp.is_data_ready
      (polledImu 4294967295)).IMU_isDataReadyQueryCount = 0 ∧
    (facade_step RegDev.platform FacadeOp.is_data_ready
      (polledImu 4294967295)).IMU_isDataReadyTrueCount = 0 ∧
    (facade_step RegDev.platform FacadeOp.is_data_ready
      (polledImu 4294967295)).IMU_isDataReadyQueryCount
        < (polledImu 4294967295).IMU_isDataReadyQueryCount ∧
    (facade_step RegDev.platform FacadeOp.is_data_ready
      (polledImu 4294967295)).IMU_isDataReadyTrueCount
        < (polledImu 4294967295).IMU_isDataReadyTrueCount :=
  polledImu_wrap 4294967295 (by norm_num)

/-- C21 as amended: on every platform, for every facade state and every
operation, each of the two counters after the operation equals its value
before, or that value plus 1 modulo 2^32; every operation other than
`sl_imu_is_data_ready` leaves both unchanged; and a counter below 4294967295
is not smaller after the operation than before. -/
theorem counters_monotone_up_to_wrap (P : Platform σ) (op : FacadeOp) (s : Imu σ) :
    ((facade_step P op s).IMU_isDataReadyQueryCount = s.IMU_isDataReadyQueryCount ∨
      (facade_step P op s).IMU_isDataReadyQueryCount
        = (s.IMU_isDataReadyQueryCount + 1) % 4294967296) ∧
    ((facade_step P op s).IMU_isDataReadyTrueCount = s.IMU_isDataReadyTrueCount ∨
      (facade_step P op s).IMU_isDataReadyTrueCount
        = (s.IMU_isDataReadyTrueCount + 1) % 4294967296) ∧
    (op ≠ FacadeOp.is_data_ready →
      (facade_step P op s).IMU_isDataReadyQueryCount = s.IMU_isDataReadyQueryCount ∧
      (facade_step P op s).IMU_isDataReadyTrueCount = s.IMU_isDataReadyTrueCount) ∧
    (s.IMU_isDataReadyQueryCount < 4294967295 →
      s.IMU_isDataReadyQueryCount ≤ (facade_step P op s).IMU_isDataReadyQueryCount) ∧
    (s.IMU_isDataReadyTrueCount < 4294967295 →
      s.IMU_isDataReadyTrueCount ≤ (facade_step P op s).IMU_isDataReadyTrueCount) := by
  have hkeep : op ≠ FacadeOp.is_data_ready →
      (facade_step P op s).IMU_isDataReadyQueryCount = s.IMU_isDataReadyQueryCount ∧
      (facade_step P op s).IMU_isDataReadyTrueCount = s.IMU_isDataReadyTrueCount := by
    intro hop
    cases op with
    | init => exact (sl_imu_init_frame P s).2
    | deinit => exact (sl_imu_deinit_frame P s).2
    | get_state => exact ⟨rfl, rfl⟩
    | configure r => exact (sl_imu_configure_frame P r s).2
    | get_acceleration =>
      simp only [facade_step, sl_imu_get_acceleration]
      split_ifs <;> exact ⟨rfl, rfl⟩
    | get_gyro =>
      simp only [facade_step, sl_imu_get_gyro]
      split_ifs <;> exact ⟨rfl, rfl⟩
    | calibrate_gyro => exact (sl_imu_calibrate_gyro_frame P s).2
    | is_data_ready => exact absurd rfl hop
  have hq : (facade_step P op s).IMU_isDataReadyQueryCount = s.IMU_isDataReadyQueryCount ∨
      (facade_step P op s).IMU_isDataReadyQueryCount
        = (s.IMU_isDataReadyQueryCount + 1) % 4294967296 := by
    by_cases hop : op = FacadeOp.is_data_ready
    · subst hop
      exact (sl_imu_is_data_ready_counters P s).1
    · exact Or.inl (hkeep hop).1
  have ht : (facade_step P op s).IMU_isDataReadyTrueCount = s.IMU_isDataReadyTrueCount ∨
      (facade_step P op s).IMU_isDataReadyTrueCount
        = (s.IMU_isDataReadyTrueCount + 1) % 4294967296 := by
    by_cases hop : op = FacadeOp.is_data_ready
    · subst hop
      exact (sl_imu_is_data_ready_counters P s).2
    · exact Or.inl (hkeep hop).2
  refine ⟨hq, ht, hkeep, ?_, ?_⟩
  · intro hlt
    rcases hq with h | h <;> rw [h]
    rw [Nat.mod_eq_of_lt (by omega)]
    omega
  · intro hlt
    rcases ht with h | h <;> rw [h]
    rw [Nat.mod_eq_of_lt (by omega)]
    omega

/-- C21 as amended, at a concrete input: state Ready with counters 41 and 7
over a device whose data-ready bit is set, operation
`sl_imu_is_data_ready`. -/
theorem counters_monotone_up_to_wrap_witness :
    41 ≤ (facade_step RegDev.platform FacadeOp.is_data_ready
      (readyImu (hwOfRegs readyRegs) 41 7)).IMU_isDataReadyQueryCount ∧
    7 ≤ (facade_step RegDev.platform FacadeOp.is_data_ready
      (readyImu (hwOfRegs readyRegs) 41 7)).IMU_isDataReadyTrueCount :=
  ⟨(counters_monotone_up_to_wrap RegDev.platform FacadeOp.is_data_ready
      (readyImu (hwOfRegs readyRegs) 41 7)).2.2.2.1 (by decide),
   (counters_monotone_up_to_wrap RegDev.platform FacadeOp.is_data_ready
      (readyImu (hwOfRegs readyRegs) 41 7)).2.2.2.2 (by decide)⟩

/-- C22: on every platform, whenever the stored sample rate is 1000 or 200
(the only values `sl_imu_configure` stores), `sl_imu_calibrate_gyro` returns
the status of the re-initialisation together with exactly the state that
`sl_imu_configure`, called with the sample rate stored before the call,
produces from the state the interrupt disable, `sl_imu_deinit` and
`sl_imu_init` leave behind; that state is Ready; the stored sample rate after
the call equals the stored sample rate before it; the rate `sl_imu_configure`
stores is always 1000 or 200; and the sample-rate setter is idempotent on its
return values: applied to the value it returned for `x`, on any hardware
state, it returns that same value. -/
theorem calibrate_gyro_keeps_sample_rate (P : Platform σ) (s : Imu σ)
    (h : s.sensorsSampleRate = 1000 ∨ s.sensorsSampleRate = 200) :
    sl_imu_calibrate_gyro P s
      = ((sl_imu_init P (sl_imu_deinit P
            { s with hw := (sl_icm42688p_enable_interrupt P false s.hw).2 }).2).1,
         sl_imu_configure P s.sensorsSampleRate
           (sl_imu_init P (sl_imu_deinit P
             { s with hw := (sl_icm42688p_enable_interrupt P false s.hw).2 }).2).2) ∧
    (sl_imu_calibrate_gyro P s).2.IMU_state = IMU_STATE_READY ∧
    (sl_imu_calibrate_gyro P s).2.sensorsSampleRate = s.sensorsSampleRate ∧
    (∀ (r : ℚ) (s1 : Imu σ), (sl_imu_configure P r s1).sensorsSampleRate = 1000 ∨
      (sl_imu_configure P r s1).sensorsSampleRate = 200) ∧
    (∀ (x : ℚ) (hw1 hw2 : Hw σ),
      (sl_icm42688p_set_sample_rate P (sl_icm42688p_set_sample_rate P x hw1).1 hw2).1
        = (sl_icm42688p_set_sample_rate P x hw1).1) := by
  refine ⟨?_, ?_, ?_, ?_, ?_⟩
  · have hi := (sl_imu_init_frame P (sl_imu_deinit P
      { s with hw := (sl_icm42688p_enable_interrupt P false s.hw).2 }).2).1
    simp only [sl_imu_calibrate_gyro]
    rw [hi]
    rfl
  · rfl
  · rw [(sl_imu_calibrate_gyro_frame P s).1]
    rcases h with h | h <;> rw [h] <;> norm_num
  · intro r s1
    rw [(sl_imu_configure_frame P r s1).1]
    by_cases hr : 1000 ≤ r
    · left; rw [if_pos hr]
    · right; rw [if_neg hr]
  · intro x hw1 hw2
    rw [sl_icm42688p_set_sample_rate_value, sl_icm42688p_set_sample_rate_value]
    by_cases hx : 1000 ≤ x
    · rw [if_pos hx]; norm_num
    · rw [if_neg hx]; norm_num

/-- C22 at a concrete input: the facade after `sl_imu_configure 50` (which
stores 200) over a register file whose identity register holds 0x47; after
`sl_imu_calibrate_gyro` the state is Ready and the stored rate is still the
one stored before. -/
theorem calibrate_gyro_keeps_sample_rate_witness :
    (sl_imu_configure RegDev.platform 50 (bootImu (hwOfRegs idRegs))).sensorsSampleRate = 200 ∧
    (sl_imu_calibrate_gyro RegDev.platform
      (sl_imu_configure RegDev.platform 50 (bootImu (hwOfRegs idRegs)))).2.IMU_state
      = IMU_STATE_READY ∧
    (sl_imu_calibrate_gyro RegDev.platform
      (sl_imu_configure RegDev.platform 50 (bootImu (hwOfRegs idRegs)))).2.sensorsSampleRate
      = (sl_imu_configure RegDev.platform 50 (bootImu (hwOfRegs idRegs))).sensorsSampleRate := by
  have h200 : (sl_imu_configure RegDev.platform 50
      (bootImu (hwOfRegs idRegs))).sensorsSampleRate = 200 := by
    rw [(sl_imu_configure_frame RegDev.platform 50 _).1]
    norm_num
  exact ⟨h200,
    (calibrate_gyro_keeps_sample_rate RegDev.platform
      (sl_imu_configure RegDev.platform 50 (bootImu (hwOfRegs idRegs))) (Or.inr h200)).2.1,
    (calibrate_gyro_keeps_sample_rate RegDev.platform
      (sl_imu_configure RegDev.platform 50 (bootImu (hwOfRegs idRegs))) (Or.inr h200)).2.2.1⟩

/-! ## The byte written by the full-scale setters (C23) -/

set_option maxRecDepth 100000 in
theorem full_scale_byte : ∀ c : Fin 256,
    (byte ((((c.val <<< 5) &&& 0xE0) % 256 ||| 0x06) % 256)).val = (c.val % 8) * 32 + 0x06 ∧
    fs_field ((c.val % 8) * 32 + 0x06) = c.val % 8 ∧
    ((c.val % 8) * 32 + 0x06).testBit 4 = false ∧
    ((c.val % 8) * 32 + 0x06) &&& 0x0F = ICM42688P_ODR_CODE_1KHZ := by
  decide

/-- C23: on the register file, for every 8-bit `fs_code` and every prior
register content, `sl_icm42688p_set_full_scale_accel` leaves `ACCEL_CONFIG0`
equal to (fs_code mod 8) * 32 + 0x06 and `sl_icm42688p_set_full_scale_gyro`
leaves `GYRO_CONFIG0` equal to (fs_code mod 8) * 32 + 0x06: the full-scale
field is the low three bits of `fs_code`, bit 4 is clear, and the ODR field
is the 1 kHz code whatever the register held before. -/
theorem set_full_scale_byte (fs_code : Nat) (hw : Hw RegDev) (h : fs_code < 256) :
    ((sl_icm42688p_set_full_scale_accel RegDev.platform fs_code hw).2.dev.regs
      ICM42688P_REG_ACCEL_CONFIG0).val = (fs_code % 8) * 32 + 0x06 ∧
    ((sl_icm42688p_set_full_scale_gyro RegDev.platform fs_code hw).2.dev.regs
      ICM42688P_REG_GYRO_CONFIG0).val = (fs_code % 8) * 32 + 0x06 ∧
    fs_field ((fs_code % 8) * 32 + 0x06) = fs_code % 8 ∧
    ((fs_code % 8) * 32 + 0x06).testBit 4 = false ∧
    ((fs_code % 8) * 32 + 0x06) &&& 0x0F = ICM42688P_ODR_CODE_1KHZ := by
  have hb := full_scale_byte ⟨fs_code, h⟩
  have ha : ICM42688P_REG_ACCEL_CONFIG0 = 0x50 := rfl
  have hg : ICM42688P_REG_GYRO_CONFIG0 = 0x4F := rfl
  rw [ha, hg, set_full_scale_accel_regs, set_full_scale_gyro_regs]
  rw [Function.update_noteq (by decide), Function.update_same,
    Function.update_noteq (by decide), Function.update_same]
  exact ⟨hb.1, hb.1, hb.2.1, hb.2.2.1, hb.2.2.2⟩

/-- C23 at a concrete input: `fs_code = 0xFB` (low three bits 3) on a
register file whose configuration registers held 0x26 and 0x66. -/
theorem set_full_scale_byte_witness :
    ((sl_icm42688p_set_full_scale_accel RegDev.platform 0xFB (hwOfRegs busyRegs)).2.dev.regs
      ICM42688P_REG_ACCEL_CONFIG0).val = 0x66 ∧
    ((sl_icm42688p_set_full_scale_gyro RegDev.platform 0xFB (hwOfRegs busyRegs)).2.dev.regs
      ICM42688P_REG_GYRO_CONFIG0).val = 0x66 :=
  ⟨(set_full_scale_byte 0xFB (hwOfRegs busyRegs) (by decide)).1,
   (set_full_scale_byte 0xFB (hwOfRegs busyRegs) (by decide)).2.1⟩

/-! ## Rate independence of the device configuration (C24) -/

theorem read_register_dev (reg len : Nat) (hw : Hw RegDev) :
    (sl_icm42688p_read_register RegDev.platform reg len hw).2.2.dev
      = RegDev.ofRegs hw.dev.regs := by
  have h := read_register_regs reg len hw
  have e : (sl_icm42688p_read_register RegDev.platform reg len hw).2.2.dev
      = RegDev.ofRegs (sl_icm42688p_read_register RegDev.platform reg len hw).2.2.dev.regs :=
    rfl
  rw [e, h]

theorem sl_imu_configure_dev (r : ℚ) (s : Imu RegDev) :
    (sl_imu_configure RegDev.platform r s).hw.dev
      = RegDev.ofRegs (sl_imu_configure RegDev.platform r s).hw.dev.regs := by
  simp only [sl_imu_configure, sl_icm42688p_read_interrupt_status,
    if_neg (by decide : ¬ Ptr.valid = Ptr.null)]
  rw [read_register_dev]
  rfl

/-- C24: on the register file, for every initial register content and every
two requested rates `r1` and `r2`, the device after `sl_imu_configure r1` is
the device after `sl_imu_configure r2`: all registers agree, the ODR fields
included (`ACCEL_CONFIG0` holds 0x06 and `GYRO_CONFIG0` holds 0x07 whatever
the rate); lifecycle state and both counters agree as well.  The stored
sample rate is the one facade variable that follows the request: it differs
between the requests 1000 and 50. -/
theorem configure_device_rate_independent (r1 r2 : ℚ) (s : Imu RegDev) :
    (sl_imu_configure RegDev.platform r1 s).hw.dev.regs
      = (sl_imu_configure RegDev.platform r2 s).hw.dev.regs ∧
    (sl_imu_configure RegDev.platform r1 s).hw.dev
      = (sl_imu_configure RegDev.platform r2 s).hw.dev ∧
    ((sl_imu_configure RegDev.platform r1 s).hw.dev.regs ICM42688P_REG_ACCEL_CONFIG0).val
      = 0x06 ∧
    ((sl_imu_configure RegDev.platform r1 s).hw.dev.regs ICM42688P_REG_GYRO_CONFIG0).val
      = 0x07 ∧
    (sl_imu_configure RegDev.platform r1 s).IMU_state
      = (sl_imu_configure RegDev.platform r2 s).IMU_state ∧
    (sl_imu_configure RegDev.platform r1 s).IMU_isDataReadyQueryCount
      = (sl_imu_configure RegDev.platform r2 s).IMU_isDataReadyQueryCount ∧
    (sl_imu_configure RegDev.platform r1 s).IMU_isDataReadyTrueCount
      = (sl_imu_configure RegDev.platform r2 s).IMU_isDataReadyTrueCount ∧
    (sl_imu_configure RegDev.platform 1000 s).sensorsSampleRate
      ≠ (sl_imu_configure RegDev.platform 50 s).sensorsSampleRate := by
  have h1 := sl_imu_configure_regs r1 s
  have h2 := sl_imu_configure_regs r2 s
  have hc := sl_imu_configure_config_regs r1 s
  refine ⟨h1.trans h2.symm, ?_, hc.1, hc.2, rfl, rfl, rfl, ?_⟩
  · rw [sl_imu_configure_dev r1 s, sl_imu_configure_dev r2 s, h1, h2]
  · rw [(sl_imu_configure_frame RegDev.platform 1000 s).1,
      (sl_imu_configure_frame RegDev.platform 50 s).1]
    norm_num

end ICM42688P
